import Mathlib

/-!
# ESP32 LoRaWAN sensor node: acquisition, packet encoding and reconnection

A shallow embedding of the firmware variants `LoRa_AM1008W_i2c`, `LoRa_AM1008W_uart`
and `LoRa_Stabilize`.

* C `float` values are modelled exactly: a finite binary32 number is an integer multiple of
  `2^-149`, and every arithmetic operation rounds its exact result to the nearest binary32
  number, ties to even, as IEEE-754 prescribes.  The `double` intermediate of `x / 10.0`
  is rounded to binary53 first and to binary32 afterwards.
* `uint8_t`, `uint16_t` and `uint32_t` are natural numbers reduced modulo `2^8`, `2^16`
  and `2^32` where the C code stores them.
* Hardware and network calls (`radio.begin()`, `node.isActivated()`, `millis()`, ...) are
  answered by an explicit environment record, and every such call is logged in a trace.
-/

namespace LoRa

/-! ## Rounding to a binary floating-point format -/

/-- Nearest natural number to the fraction `a / d`, ties to the even neighbour. -/
def roundHalfEven (a d : Nat) : Nat :=
  let q := a / d
  let r := a % d
  if 2 * r < d then q else if d < 2 * r then q + 1 else q + q % 2

/-- Worker of `bitLength`, recursing on the fuel. -/
def bitLengthAux : Nat → Nat → Nat
  | 0, _ => 0
  | fuel + 1, n => if n = 0 then 0 else bitLengthAux fuel (n / 2) + 1

/-- Number of binary digits of `n` (the least `k` with `n < 2^k`). -/
def bitLength (n : Nat) : Nat := bitLengthAux n n

/-- Round the non-negative fraction `a / d`, measured in units of the smallest subnormal of the
format, to the nearest number with a `p`-bit significand, ties to even.  The result is again in
units of the smallest subnormal. -/
def roundMant (p a d : Nat) : Nat :=
  let e := bitLength (a / d) - p
  roundHalfEven a (d * 2 ^ e) * 2 ^ e

/-- C `float` (IEEE-754 binary32).  `fin n` is the finite number `n * 2^-149`; the two zeros are
not distinguished. -/
inductive F32 where
  | nan
  | inf (neg : Bool)
  | fin (n : Int)
deriving DecidableEq

namespace F32

/-- One, in units of `2^-149`. -/
def one : Nat := 2 ^ 149

/-- The smallest magnitude (in units of `2^-149`) that is too large for binary32: `2^128`. -/
def overflow : Nat := 2 ^ 128 * 2 ^ 149

/-- The rational value of `fin n`. -/
def val (n : Int) : ℚ := (n : ℚ) / 2 ^ 149

/-- Round the fraction `± a / d` (in units of `2^-149`) to binary32. -/
def round (neg : Bool) (a d : Nat) : F32 :=
  let m := roundMant 24 a d
  if overflow ≤ m then inf neg else fin (if neg then -(m : Int) else (m : Int))

/-- Conversion `int → float`. -/
def ofInt (k : Int) : F32 := round (decide (k < 0)) (k.natAbs * one) 1

/-- The conversion `(float)(k / 10.0)`: the quotient is computed in `double` (53-bit significand,
smallest subnormal `2^-1074`) and then narrowed to `float`. -/
def ofIntDiv10 (k : Int) : F32 :=
  let d := roundMant 53 (k.natAbs * 2 ^ 1074) 10
  round (decide (k < 0)) d (2 ^ 925)

/-- Addition `float + float`. -/
def add : F32 → F32 → F32
  | nan, _ => nan
  | _, nan => nan
  | inf s, inf t => if s = t then inf s else nan
  | inf s, fin _ => inf s
  | fin _, inf t => inf t
  | fin a, fin b => round (decide (a + b < 0)) (a + b).natAbs 1

/-- Multiplication `float * float`. -/
def mul : F32 → F32 → F32
  | nan, _ => nan
  | _, nan => nan
  | inf s, inf t => inf (s != t)
  | inf s, fin b => if b = 0 then nan else inf (s != decide (b < 0))
  | fin a, inf t => if a = 0 then nan else inf (decide (a < 0) != t)
  | fin a, fin b => round (decide (a * b < 0)) (a * b).natAbs one

/-- Comparison `x <= y`; false as soon as an operand is NaN. -/
def le : F32 → F32 → Bool
  | nan, _ => false
  | _, nan => false
  | inf s, inf t => s || !t
  | inf s, fin _ => s
  | fin _, inf t => !t
  | fin a, fin b => decide (a ≤ b)

/-- The test `isnan(x)`. -/
def isnan : F32 → Bool
  | nan => true
  | _ => false

/-- Whether C++ defines the cast `(uint16_t)x`: `x` is finite and its truncation towards zero
lies in `0 .. 65535`, i.e. `-1 < x < 65536`. -/
def toUInt16Defined : F32 → Bool
  | fin n => decide (-(one : Int) < n ∧ n < 65536 * (one : Int))
  | _ => false

/-- The cast `(uint16_t)x` where C++ defines it (`toUInt16Defined x`): the fractional part is
discarded (truncation towards zero).  Elsewhere the behaviour of the C++ cast is undefined and
the value below carries no meaning for the firmware. -/
def toUInt16 : F32 → Nat
  | fin n => (Int.tdiv n (one : Int) % 65536).toNat
  | _ => 0

end F32

/-! ## Sensor data (AM1008W-K-P variants) -/

/-- Reading of the AM1008W-K-P sensor (`struct AM1008Data`). -/
structure AM1008Data where
  temperature : F32
  humidity : F32
  co2 : Nat
  voc_level : Nat
  pm1_0 : Nat
  pm2_5 : Nat
  pm10 : Nat
  valid : Bool
deriving DecidableEq

/-- All sensor data of one cycle (`struct SensorData`). -/
structure SensorData where
  am1008 : AM1008Data
  am1008_available : Bool
deriving DecidableEq

/-- The defaults `readAM1008Data` starts from: NaN temperature and humidity, zero counts,
`valid = false`. -/
def AM1008Data.init : AM1008Data :=
  { temperature := F32.nan, humidity := F32.nan, co2 := 0, voc_level := 0,
    pm1_0 := 0, pm2_5 := 0, pm10 := 0, valid := false }

/-- The expression `(hi << 8) | lo` stored in a `uint16_t`. -/
def be16 (hi lo : Nat) : Nat := ((hi <<< 8) ||| lo) % 65536

/-- Byte `i` of a receive buffer that was zero-filled before the transfer. -/
def byteAt (buf : List Nat) (i : Nat) : Nat := buf.getD i 0 % 256

/-- Function `readAM1008Data` of the I2C variant.  `wire` holds the bytes the bus delivered for the
25-byte request (`Wire.available()` is its length).  With a correct header every field is
decoded and stored, and `valid` is the outcome of the range check. -/
def readAM1008Data (detected_sensor_address : Nat) (wire : List Nat) : AM1008Data :=
  if detected_sensor_address = 0 then AM1008Data.init
  else if wire.length < 25 then AM1008Data.init
  else
    let i2c_buffer := byteAt (wire.take 25)
    if i2c_buffer 0 = 0x16 ∧ i2c_buffer 1 = 0x19 then
      let co2_raw := be16 (i2c_buffer 3) (i2c_buffer 4)
      let voc_level := i2c_buffer 5
      let humidity_raw := be16 (i2c_buffer 7) (i2c_buffer 8)
      let humidity := F32.ofIntDiv10 (humidity_raw : Int)
      let temp_raw := be16 (i2c_buffer 9) (i2c_buffer 10)
      let temperature := F32.ofIntDiv10 ((temp_raw : Int) - 500)
      let pm1_raw := be16 (i2c_buffer 11) (i2c_buffer 12)
      let pm25_raw := be16 (i2c_buffer 13) (i2c_buffer 14)
      let pm10_raw := be16 (i2c_buffer 15) (i2c_buffer 16)
      let valid : Bool := decide (co2_raw ≤ 5000 ∧
        F32.le (F32.ofInt 0) humidity = true ∧ F32.le humidity (F32.ofInt 100) = true ∧
        F32.le (F32.ofInt (-40)) temperature = true ∧ F32.le temperature (F32.ofInt 85) = true ∧
        pm1_raw ≤ 1000 ∧ pm25_raw ≤ 1000 ∧ pm10_raw ≤ 1000 ∧
        voc_level ≤ 3)
      { temperature := temperature, humidity := humidity, co2 := co2_raw,
        voc_level := voc_level, pm1_0 := pm1_raw, pm2_5 := pm25_raw, pm10 := pm10_raw,
        valid := valid }
    else AM1008Data.init

namespace Uart

/-- Function `readAM1008Data` of the UART variant.  `serial` holds the bytes that arrive on the sensor
UART before the one-second timeout of the wait loop expires; with fewer than 25 of them the
loop leaves through its timeout return.  With a correct header every field is decoded and
`valid` is set without any further check. -/
def readAM1008Data (serial : List Nat) : AM1008Data :=
  if serial.length < 25 then AM1008Data.init
  else
    let response_buffer := byteAt (serial.take 25)
    if response_buffer 0 = 0x16 ∧ response_buffer 1 = 0x16 ∧ response_buffer 2 = 0x01 then
      let humidity_raw := be16 (response_buffer 7) (response_buffer 8)
      let temp_raw := be16 (response_buffer 9) (response_buffer 10)
      { co2 := be16 (response_buffer 3) (response_buffer 4),
        voc_level := ((response_buffer 5 <<< 8) ||| response_buffer 6) % 256,
        humidity := F32.ofIntDiv10 (humidity_raw : Int),
        temperature := F32.ofIntDiv10 ((temp_raw : Int) - 500),
        pm1_0 := be16 (response_buffer 11) (response_buffer 12),
        pm2_5 := be16 (response_buffer 13) (response_buffer 14),
        pm10 := be16 (response_buffer 15) (response_buffer 16),
        valid := true }
    else AM1008Data.init

end Uart

/-- Function `readSensors`: the frame carries the boot-time availability flag and, when the sensor is
available, the result `reading` of `readAM1008Data`. -/
def readSensors (am1008_available : Bool) (reading : AM1008Data) : SensorData :=
  if am1008_available then
    { am1008 := reading, am1008_available := am1008_available }
  else
    { am1008 := AM1008Data.init, am1008_available := am1008_available }

/-- Function `encodeSensorData` of the AM1008W variants (identical in the I2C and the UART firmware):
the 16 bytes written to `buffer[0..15]`. -/
def encodeSensorData (data : SensorData) (consecutive_send_failures : Nat) : List Nat :=
  let usable := data.am1008_available && data.am1008.valid
  let temp_am : Nat :=
    if usable && !data.am1008.temperature.isnan then
      F32.toUInt16 (F32.mul (F32.add data.am1008.temperature (F32.ofInt 40)) (F32.ofInt 10))
    else 0xFFFF
  let hum_am : Nat :=
    if usable && !data.am1008.humidity.isnan then
      F32.toUInt16 (F32.mul data.am1008.humidity (F32.ofInt 10))
    else 0xFFFF
  let co2_am : Nat := if usable then data.am1008.co2 % 65536 else 0
  let pm1_am : Nat := if usable then data.am1008.pm1_0 % 65536 else 0
  let pm25_am : Nat := if usable then data.am1008.pm2_5 % 65536 else 0
  let pm10_am : Nat := if usable then data.am1008.pm10 % 65536 else 0
  let voc_am : Nat := if usable then data.am1008.voc_level % 256 else 0
  let sensor_status : Nat :=
    (if data.am1008_available then 0x01 else 0) ||| (if data.am1008.valid then 0x02 else 0)
  [ (temp_am >>> 8) % 256, temp_am &&& 0xFF,
    (hum_am >>> 8) % 256, hum_am &&& 0xFF,
    (co2_am >>> 8) % 256, co2_am &&& 0xFF,
    (pm25_am >>> 8) % 256, pm25_am &&& 0xFF,
    (pm10_am >>> 8) % 256, pm10_am &&& 0xFF,
    (pm1_am >>> 8) % 256, pm1_am &&& 0xFF,
    voc_am,
    sensor_status,
    consecutive_send_failures % 256,
    0x00 ]

/-- The big-endian 16-bit field at bytes `i`, `i + 1` of a packet, as a receiver decodes it. -/
def field16 (packet : List Nat) (i : Nat) : Nat :=
  256 * packet.getD i 0 + packet.getD (i + 1) 0

/-! ## Connectivity state machine -/

/-- Connection status (`enum LoRaWANStatus`). -/
inductive LoRaWANStatus where
  | LORAWAN_DISCONNECTED
  | LORAWAN_CONNECTING
  | LORAWAN_CONNECTED
  | LORAWAN_SEND_FAILED
  | LORAWAN_REJOIN_NEEDED
deriving DecidableEq

/-- The RadioLib status codes the firmware compares against.  Their numeric values come from
the RadioLib headers, so they are a parameter of the model. -/
structure RadioLib where
  RADIOLIB_ERR_NONE : Int
  RADIOLIB_LORAWAN_NEW_SESSION : Int
  RADIOLIB_LORAWAN_SESSION_RESTORED : Int
  RADIOLIB_ERR_NETWORK_NOT_JOINED : Int
  RADIOLIB_ERR_JOIN_NONCE_INVALID : Int
  RADIOLIB_ERR_CHIP_NOT_FOUND : Int

def MAX_REJOIN_ATTEMPTS : Nat := 3

def MAX_SEND_FAILURES : Nat := 5

def REJOIN_DELAY_MS : Int := 30000

/-- The global connection variables: `consecutive_send_failures` (`uint8_t`),
`last_successful_send`, `last_rejoin_attempt` (`uint32_t`) and `lorawan_status`. -/
structure Globals where
  consecutive_send_failures : Nat
  last_successful_send : Nat
  last_rejoin_attempt : Nat
  lorawan_status : LoRaWANStatus
deriving DecidableEq

/-- Hardware and network actions, in the order the firmware performs them.
`resetRadioHardware` and `forceRejoin` mark the entry of the function of that name. -/
inductive Event where
  | resetRadioHardware
  | spiEnd
  | pinMode (pin : Nat)
  | digitalWrite (pin : Nat) (high : Bool)
  | spiBegin
  | radioReset
  | radioBegin
  | isActivated
  | beginOTAA
  | forceRejoin
  | activateOTAA
  | delay (ms : Nat)
  | restart
deriving DecidableEq

/-- What one call of `forceRejoin` meets: the results of `radio.begin()`, of `node.beginOTAA`
(used by the LoRa_Stabilize variant only) and of `node.activateOTAA()`, and the clock. -/
structure RejoinEnv where
  radioState : Int
  nodeState : Int
  joinState : Int
  millis : Nat

/-- What one call of `smartReconnect` meets: the clock at entry, the result of `radio.begin()`
inside `resetRadioHardware`, `node.isActivated()` before and after the restore attempt, the
result of the restoring `node.beginOTAA` (LoRa_Stabilize only), the clock when the restore
succeeds, and the environment of each rejoin attempt (numbered from 1). -/
structure ReconnectEnv where
  currentTime : Nat
  resetRadioState : Int
  activatedBefore : Bool
  activatedAfter : Bool
  restoreState : Int
  restoreTime : Nat
  rejoin : Nat → RejoinEnv

/-- Result of a connectivity function: its return value, the globals afterwards and the
actions performed. -/
structure Outcome where
  result : Bool
  globals : Globals
  trace : List Event

/-- The actions of `resetRadioHardware` up to and including `radio.begin()`. -/
def resetRadioHardwareTrace : List Event :=
  [ Event.resetRadioHardware, Event.spiEnd, Event.delay 100,
    Event.pinMode 12, Event.digitalWrite 12 false, Event.delay 200,
    Event.digitalWrite 12 true, Event.delay 200,
    Event.spiBegin, Event.delay 100,
    Event.radioReset, Event.delay 100,
    Event.radioBegin ]

/-- Function `resetRadioHardware`: it succeeds iff `radio.begin()` returns `RADIOLIB_ERR_NONE`. -/
def resetRadioHardware (lib : RadioLib) (radioState : Int) : Bool × List Event :=
  if radioState ≠ lib.RADIOLIB_ERR_NONE then (false, resetRadioHardwareTrace)
  else (true, resetRadioHardwareTrace)

/-- Function `forceRejoin` of the AM1008W variants. -/
def forceRejoin (lib : RadioLib) (env : RejoinEnv) (g : Globals) : Outcome :=
  if env.radioState ≠ lib.RADIOLIB_ERR_NONE then
    { result := false, globals := g, trace := [Event.forceRejoin, Event.radioBegin] }
  else if env.joinState = lib.RADIOLIB_LORAWAN_NEW_SESSION then
    { result := true
      globals := { g with consecutive_send_failures := 0
                          last_successful_send := env.millis % 4294967296 }
      trace := [Event.forceRejoin, Event.radioBegin, Event.beginOTAA, Event.activateOTAA] }
  else
    { result := false, globals := g
      trace := [Event.forceRejoin, Event.radioBegin, Event.beginOTAA, Event.activateOTAA] }

/-- The loop `for (attempt = 1; attempt <= MAX_REJOIN_ATTEMPTS; attempt++)` of `smartReconnect`,
run over the list of remaining attempt numbers with the function `rejoinFn` as `forceRejoin`;
`result = false` means the loop ran to its end. -/
def rejoinLoop (rejoinFn : RejoinEnv → Globals → Outcome) (env : Nat → RejoinEnv) :
    List Nat → Globals → List Event → Outcome
  | [], g, trace => { result := false, globals := g, trace := trace }
  | attempt :: rest, g, trace =>
    let r := rejoinFn (env attempt) g
    if r.result then
      { result := true
        globals := { r.globals with lorawan_status := LoRaWANStatus.LORAWAN_CONNECTED }
        trace := trace ++ r.trace }
    else
      let wait := if attempt < MAX_REJOIN_ATTEMPTS then [Event.delay 10000] else []
      rejoinLoop rejoinFn env rest r.globals (trace ++ r.trace ++ wait)

/-- The attempt numbers `1, ..., MAX_REJOIN_ATTEMPTS`. -/
def rejoinAttempts : List Nat := (List.range MAX_REJOIN_ATTEMPTS).map (fun i => i + 1)

/-- The last part of `smartReconnect`: forced rejoin, and restart when every attempt failed. -/
def forcedRejoin (rejoinFn : RejoinEnv → Globals → Outcome) (env : ReconnectEnv) (g : Globals)
    (trace : List Event) : Outcome :=
  let g := { g with lorawan_status := LoRaWANStatus.LORAWAN_REJOIN_NEEDED }
  let r := rejoinLoop rejoinFn env.rejoin rejoinAttempts g trace
  if r.result then r
  else
    { result := false
      globals := { r.globals with lorawan_status := LoRaWANStatus.LORAWAN_DISCONNECTED }
      trace := r.trace ++ [Event.restart] }

/-- Function `smartReconnect` of the AM1008W variants (I2C and UART firmware are identical here). -/
def smartReconnect (lib : RadioLib) (env : ReconnectEnv) (g : Globals) : Outcome :=
  if ((env.currentTime : Int) - (g.last_rejoin_attempt : Int)) % 4294967296 < REJOIN_DELAY_MS then
    { result := false, globals := g, trace := [] }
  else
    let g := { g with last_rejoin_attempt := env.currentTime % 4294967296
                      lorawan_status := LoRaWANStatus.LORAWAN_CONNECTING }
    let reset : Bool × List Event :=
      if g.consecutive_send_failures ≥ 2 then resetRadioHardware lib env.resetRadioState
      else (true, [])
    if reset.1 = false then
      { result := false
        globals := { g with lorawan_status := LoRaWANStatus.LORAWAN_DISCONNECTED }
        trace := reset.2 }
    else if env.activatedBefore = false then
      let trace := reset.2 ++ [Event.isActivated, Event.beginOTAA, Event.isActivated]
      if env.activatedAfter then
        { result := true
          globals := { g with consecutive_send_failures := 0
                              last_successful_send := env.restoreTime % 4294967296
                              lorawan_status := LoRaWANStatus.LORAWAN_CONNECTED }
          trace := trace }
      else forcedRejoin (forceRejoin lib) env g trace
    else forcedRejoin (forceRejoin lib) env g (reset.2 ++ [Event.isActivated])

namespace Stabilize

/-- Function `forceRejoin` of the LoRa_Stabilize variant: `node.beginOTAA` returns a status that is
checked before the join. -/
def forceRejoin (lib : RadioLib) (env : RejoinEnv) (g : Globals) : Outcome :=
  if env.radioState ≠ lib.RADIOLIB_ERR_NONE then
    { result := false, globals := g, trace := [Event.forceRejoin, Event.radioBegin] }
  else if env.nodeState ≠ lib.RADIOLIB_ERR_NONE then
    { result := false, globals := g
      trace := [Event.forceRejoin, Event.radioBegin, Event.beginOTAA] }
  else if env.joinState = lib.RADIOLIB_LORAWAN_NEW_SESSION then
    { result := true
      globals := { g with consecutive_send_failures := 0
                          last_successful_send := env.millis % 4294967296 }
      trace := [Event.forceRejoin, Event.radioBegin, Event.beginOTAA, Event.activateOTAA] }
  else
    { result := false, globals := g
      trace := [Event.forceRejoin, Event.radioBegin, Event.beginOTAA, Event.activateOTAA] }

/-- Function `smartReconnect` of the LoRa_Stabilize variant: the restore attempt is judged by the
status `node.beginOTAA` returns. -/
def smartReconnect (lib : RadioLib) (env : ReconnectEnv) (g : Globals) : Outcome :=
  if ((env.currentTime : Int) - (g.last_rejoin_attempt : Int)) % 4294967296 < REJOIN_DELAY_MS then
    { result := false, globals := g, trace := [] }
  else
    let g := { g with last_rejoin_attempt := env.currentTime % 4294967296
                      lorawan_status := LoRaWANStatus.LORAWAN_CONNECTING }
    let reset : Bool × List Event :=
      if g.consecutive_send_failures ≥ 2 then resetRadioHardware lib env.resetRadioState
      else (true, [])
    if reset.1 = false then
      { result := false
        globals := { g with lorawan_status := LoRaWANStatus.LORAWAN_DISCONNECTED }
        trace := reset.2 }
    else if env.activatedBefore = false then
      let trace := reset.2 ++ [Event.isActivated, Event.beginOTAA]
      if env.restoreState = lib.RADIOLIB_LORAWAN_SESSION_RESTORED ∨
          env.restoreState = lib.RADIOLIB_LORAWAN_NEW_SESSION then
        { result := true
          globals := { g with consecutive_send_failures := 0
                              last_successful_send := env.restoreTime % 4294967296
                              lorawan_status := LoRaWANStatus.LORAWAN_CONNECTED }
          trace := trace }
      else forcedRejoin (forceRejoin lib) env g trace
    else forcedRejoin (forceRejoin lib) env g (reset.2 ++ [Event.isActivated])

end Stabilize

/-! ## Inputs used in the statements -/

/-- A 25-byte sensor response: 25 values, each a byte. -/
def IsResponse (resp : List Nat) : Prop := resp.length = 25 ∧ ∀ b ∈ resp, b < 256

instance (resp : List Nat) : Decidable (IsResponse resp) := by
  unfold IsResponse
  exact inferInstance

/-- The frame of a cycle in which nothing was read: sensor not available, reading not valid,
temperature and humidity NaN. -/
def absentFrame : SensorData := { am1008 := AM1008Data.init, am1008_available := false }

/-- An I2C response with a correct header, CO2 = 200 ppm, humidity 50.0 % and the raw
temperature 101, i.e. -39.9 degrees. -/
def responseMinus39_9 : List Nat :=
  [0x16, 0x19, 0x00, 0x00, 0xC8, 0x00, 0x8C, 0x01, 0xF4, 0x00, 0x65,
   0, 0, 0, 0, 0, 0, 0, 0, 0, 0, 0, 0, 0, 0]

/-- A UART response with a correct header `16 16 01` whose CO2 field is 0xFFFF = 65535 ppm. -/
def uartResponseCo2Max : List Nat :=
  [0x16, 0x16, 0x01, 0xFF, 0xFF, 0x00, 0x00, 0x01, 0xF4, 0x02, 0xEE,
   0, 0, 0, 0, 0, 0, 0, 0, 0, 0, 0, 0, 0, 0]

/-- An I2C response with a correct header and in-range fields except the raw temperature
0x0547 = 1351, i.e. 85.1 degrees. -/
def responseTooHot : List Nat :=
  [0x16, 0x19, 0x00, 0x00, 0xC8, 0x00, 0x8C, 0x01, 0xF4, 0x05, 0x47,
   0, 0, 0, 0, 0, 0, 0, 0, 0, 0, 0, 0, 0, 0]

/-- A frame with a genuine reading: sensor available, reading valid, 25.0 degrees, 50.0 %
relative humidity, 400 ppm CO2. -/
def frameRoom : SensorData :=
  { am1008 := { temperature := F32.fin (25 * 2 ^ 149), humidity := F32.fin (50 * 2 ^ 149),
                co2 := 400, voc_level := 1, pm1_0 := 5, pm2_5 := 8, pm10 := 12, valid := true },
    am1008_available := true }

/-- A sample assignment of the RadioLib status codes. -/
def sampleLib : RadioLib :=
  { RADIOLIB_ERR_NONE := 0
    RADIOLIB_LORAWAN_NEW_SESSION := -1118
    RADIOLIB_LORAWAN_SESSION_RESTORED := -1117
    RADIOLIB_ERR_NETWORK_NOT_JOINED := -1101
    RADIOLIB_ERR_JOIN_NONCE_INVALID := -1109
    RADIOLIB_ERR_CHIP_NOT_FOUND := -2 }

/-- An environment in which everything fails: the radio does not answer `radio.begin()` inside
the hardware reset, the session is not active and is not restored, and every join attempt is
refused with status -1116.  The clock reads 100000 ms. -/
def envAllFail : ReconnectEnv :=
  { currentTime := 100000
    resetRadioState := -2
    activatedBefore := false
    activatedAfter := false
    restoreState := -2
    restoreTime := 100100
    rejoin := fun _ => { radioState := 0, nodeState := 0, joinState := -1116, millis := 100200 } }

/-- Globals after `failures` consecutive send failures, the last rejoin attempt having been
made at time `lastRejoin`. -/
def globalsAfterFailures (failures lastRejoin : Nat) : Globals :=
  { consecutive_send_failures := failures
    last_successful_send := 0
    last_rejoin_attempt := lastRejoin
    lorawan_status := LoRaWANStatus.LORAWAN_SEND_FAILED }

/-- An environment in which the hardware reset succeeds, the session is not active and is not
restored, and every join attempt is refused with status -1116. -/
def envJoinRefused : ReconnectEnv := { envAllFail with resetRadioState := 0 }

/-- An I2C response with a correct header, CO2 = 200 ppm, humidity 50.0 % and the raw
temperature 103, i.e. -39.7 degrees. -/
def responseMinus39_7 : List Nat :=
  [0x16, 0x19, 0x00, 0x00, 0xC8, 0x00, 0x8C, 0x01, 0xF4, 0x00, 0x67,
   0, 0, 0, 0, 0, 0, 0, 0, 0, 0, 0, 0, 0, 0]

/-- The integer fields of a frame hold values of their C types: `uint16_t` for CO2 and the
particulate fields, `uint8_t` for the VOC level. -/
def SensorData.WellTyped (data : SensorData) : Prop :=
  data.am1008.co2 < 65536 ∧ data.am1008.voc_level < 256 ∧ data.am1008.pm1_0 < 65536 ∧
  data.am1008.pm2_5 < 65536 ∧ data.am1008.pm10 < 65536

/-! ## Two-sensor variant (LoRa_Stabilize): BME280 and BMP390 -/

/-- Comparison `x < y` of two floats; false as soon as an operand is NaN. -/
def F32.lt : F32 → F32 → Bool
  | F32.nan, _ => false
  | _, F32.nan => false
  | F32.inf s, F32.inf t => s && !t
  | F32.inf s, F32.fin _ => s
  | F32.fin _, F32.inf t => !t
  | F32.fin a, F32.fin b => decide (a < b)

/-- Negation of a float. -/
def F32.neg : F32 → F32
  | F32.nan => F32.nan
  | F32.inf s => F32.inf (!s)
  | F32.fin a => F32.fin (-a)

/-- Subtraction `float - float`. -/
def F32.sub (x y : F32) : F32 := F32.add x (F32.neg y)

namespace Stabilize

/-- Sensor data of one cycle (`struct SensorData` of LoRa_Stabilize). -/
structure SensorData where
  temperature_bme : F32
  humidity : F32
  pressure_bme : F32
  temperature_bmp : F32
  pressure_bmp : F32
  altitude : F32
deriving DecidableEq

/-- What the two sensor drivers deliver in one cycle, as the `float` values the firmware
stores before validating them: `bme.readTemperature()`, `bme.readHumidity()`,
`bme.readPressure() / 100.0F`, the result of `bmp.performReading()`, `bmp.temperature`,
`bmp.pressure / 100.0F` and `bmp.readAltitude(1013.25)`. -/
structure Readings where
  bme_temperature : F32
  bme_humidity : F32
  bme_pressure : F32
  bmp_performReading : Bool
  bmp_temperature : F32
  bmp_pressure : F32
  bmp_altitude : F32

/-- The default pressure 1013.25, which `float` represents exactly (4053 / 4). -/
def defaultPressure : F32 := F32.fin (4053 * 2 ^ 147)

/-- The validation test `isnan(x) || x < lo || x > hi` of `readSensors`. -/
def invalid (x : F32) (lo hi : Int) : Bool :=
  x.isnan || F32.lt x (F32.ofInt lo) || F32.lt (F32.ofInt hi) x

/-- Function `readSensors` of LoRa_Stabilize.  Every field starts from a numeric default (0.0,
or 1013.25 for the pressures); a BME280 value that fails validation is reset to its default, a
BMP390 temperature or pressure that is missing or fails validation is replaced by the BME280
value, and a missing or invalid altitude is 0.0. -/
def readSensors (bme280_available bmp390_available : Bool) (r : Readings) : SensorData :=
  let temperature_bme : F32 :=
    if bme280_available then
      (if invalid r.bme_temperature (-40) 85 then F32.fin 0 else r.bme_temperature)
    else F32.fin 0
  let humidity : F32 :=
    if bme280_available then
      (if invalid r.bme_humidity 0 100 then F32.fin 0 else r.bme_humidity)
    else F32.fin 0
  let pressure_bme : F32 :=
    if bme280_available then
      (if invalid r.bme_pressure 800 1200 then defaultPressure else r.bme_pressure)
    else defaultPressure
  let bmpRead : Bool := bmp390_available && r.bmp_performReading
  let temperature_bmp : F32 :=
    if bmpRead then
      (if invalid r.bmp_temperature (-40) 85 then temperature_bme else r.bmp_temperature)
    else temperature_bme
  let pressure_bmp : F32 :=
    if bmpRead then
      (if invalid r.bmp_pressure 800 1200 then pressure_bme else r.bmp_pressure)
    else pressure_bme
  let altitude : F32 :=
    if bmpRead then
      (if invalid r.bmp_altitude (-500) 4000 then F32.fin 0 else r.bmp_altitude)
    else F32.fin 0
  { temperature_bme := temperature_bme, humidity := humidity, pressure_bme := pressure_bme,
    temperature_bmp := temperature_bmp, pressure_bmp := pressure_bmp, altitude := altitude }

/-- The assignments `buffer[i] = v` of the 13-byte `encodeSensorData` of LoRa_Stabilize, in
source order, as pairs of index and value. -/
def encodeSensorDataWrites (data : SensorData) (consecutive_send_failures : Nat) :
    List (Nat × Nat) :=
  let temp_bme := F32.toUInt16 (F32.mul (F32.add data.temperature_bme (F32.ofInt 40)) (F32.ofInt 10))
  let temp_bmp := F32.toUInt16 (F32.mul (F32.add data.temperature_bmp (F32.ofInt 40)) (F32.ofInt 10))
  let hum := F32.toUInt16 (F32.mul data.humidity (F32.ofInt 10))
  let press_bme := F32.toUInt16 (F32.mul (F32.sub data.pressure_bme (F32.ofInt 800)) (F32.ofInt 10))
  let press_bmp := F32.toUInt16 (F32.mul (F32.sub data.pressure_bmp (F32.ofInt 800)) (F32.ofInt 10))
  let alt := F32.toUInt16 (F32.add data.altitude (F32.ofInt 500))
  [ (0, (temp_bme >>> 8) % 256), (1, temp_bme &&& 0xFF),
    (2, (hum >>> 8) % 256), (3, hum &&& 0xFF),
    (4, (press_bme >>> 8) % 256), (5, press_bme &&& 0xFF),
    (6, (temp_bmp >>> 8) % 256), (7, temp_bmp &&& 0xFF),
    (8, (press_bmp >>> 8) % 256), (9, press_bmp &&& 0xFF),
    (10, (alt >>> 8) % 256), (11, alt &&& 0xFF),
    (12, consecutive_send_failures % 256) ]

/-- Function `encodeSensorData` of LoRa_Stabilize: the 13 bytes written to `buffer[0..12]`. -/
def encodeSensorData (data : SensorData) (consecutive_send_failures : Nat) : List Nat :=
  (encodeSensorDataWrites data consecutive_send_failures).map Prod.snd

end Stabilize

namespace Stabilize

/-- Readings of a cycle in which both drivers return NaN everywhere. -/
def readingsNaN : Readings :=
  { bme_temperature := F32.nan, bme_humidity := F32.nan, bme_pressure := F32.nan,
    bmp_performReading := false, bmp_temperature := F32.nan, bmp_pressure := F32.nan,
    bmp_altitude := F32.nan }

end Stabilize


namespace ParsingTest

/-- Method 3 ("different offset") of the parsing test `test-method.cpp`: the seven values it
decodes from the first 25 bytes on the bus and its validity check, or `none` when fewer than 25
bytes are available. -/
def method3 (wire : List Nat) : Option AM1008Data :=
  if wire.length ≥ 25 then
    let response := byteAt (wire.take 25)
    let co2_3 := be16 (response 3) (response 4)
    let voc_3 := response 5 % 65536
    let hum_raw_3 := be16 (response 7) (response 8)
    let temp_raw_3 := be16 (response 9) (response 10)
    let pm1_3 := be16 (response 11) (response 12)
    let pm25_3 := be16 (response 13) (response 14)
    let pm10_3 := be16 (response 15) (response 16)
    let humidity_3 := F32.ofIntDiv10 (hum_raw_3 : Int)
    let temperature_3 := F32.ofIntDiv10 ((temp_raw_3 : Int) - 500)
    some { temperature := temperature_3, humidity := humidity_3, co2 := co2_3,
           voc_level := voc_3, pm1_0 := pm1_3, pm2_5 := pm25_3, pm10 := pm10_3,
           valid := decide (co2_3 ≤ 5000 ∧
             F32.le (F32.ofInt 0) humidity_3 = true ∧ F32.le humidity_3 (F32.ofInt 100) = true ∧
             F32.le (F32.ofInt (-40)) temperature_3 = true ∧
             F32.le temperature_3 (F32.ofInt 85) = true) }
  else none

end ParsingTest

/-- The scenario response of the specification: header 16 19, CO2 bytes 00 C8 (200 ppm), VOC
level 0, humidity bytes 01 F4 (50.0 %), temperature bytes 02 EE (25.0 degrees), particulate
values 5, 8 and 12. -/
def responseScenario : List Nat :=
  [0x16, 0x19, 0x00, 0x00, 0xC8, 0x00, 0x8C, 0x01, 0xF4, 0x02, 0xEE,
   0x00, 0x05, 0x00, 0x08, 0x00, 0x0C, 0, 0, 0, 0, 0, 0, 0, 0]


/-! ## The duty cycle `loop()` -/

/-- Actions of one cycle of `loop()` that concern the network: the activation query, a call of
`smartReconnect` (with the hardware and network actions it performed), the transmission of a
payload, the observation delay and the light sleep. -/
inductive LoopEvent where
  | isActivated
  | smartReconnect (actions : List Event)
  | sendReceive (payload : List Nat)
  | delay (ms : Nat)
  | enterLightSleep (seconds : Nat)
deriving DecidableEq

/-- Whether an action is a transmission. -/
def LoopEvent.isSend : LoopEvent → Bool
  | LoopEvent.sendReceive _ => true
  | _ => false

/-- Whether an action is a call of `smartReconnect`. -/
def LoopEvent.isReconnect : LoopEvent → Bool
  | LoopEvent.smartReconnect _ => true
  | _ => false

/-- What one cycle meets: the clock at its start, the answer of `node.isActivated()`, the
environment of the reconnection before the transmission, the result of `node.sendReceive`, and
the environment of the immediate reconnection after a critical failure. -/
structure LoopEnv where
  currentTime : Nat
  activated : Bool
  reconnect : ReconnectEnv
  sendState : Int
  reconnectAfterSend : ReconnectEnv

/-- Outcome of the reconnection decision: the globals after it, its actions, and whether the
reconnection ended in `ESP.restart()`, which does not return. -/
structure DecisionOutcome where
  globals : Globals
  trace : List LoopEvent
  restarted : Bool

/-- Outcome of one cycle: the globals after the reconnection decision (`decided`), right after
the bookkeeping of the send result (`afterSend`, equal to `decided` when nothing was sent) and
at the end of the cycle, the actions in order, and whether the cycle was cut short by
`ESP.restart()` (then `globals` are those at the restart and `trace` ends there). -/
structure LoopOutcome where
  decided : Globals
  afterSend : Globals
  globals : Globals
  trace : List LoopEvent
  restarted : Bool

/-- Outcome of the transmission block: the globals right after the bookkeeping of the send
result (`afterSend`), the globals at the end of the block, the actions, and whether the
immediate reconnection ended in `ESP.restart()`. -/
structure TransmitOutcome where
  afterSend : Globals
  globals : Globals
  trace : List LoopEvent
  restarted : Bool

/-- The reconnection decision at the start of `loop()`: `smartReconnect` is called when the
session is not active or the failure count has reached `MAX_SEND_FAILURES`, and the status is
set from its result; otherwise the status is set to connected.  When `smartReconnect` issued
`ESP.restart()` it does not return: nothing is assigned after it. -/
def loopReconnect (reconnectFn : ReconnectEnv → Globals → Outcome) (env : LoopEnv)
    (g : Globals) : DecisionOutcome :=
  if env.activated = false ∨ g.consecutive_send_failures ≥ MAX_SEND_FAILURES then
    let r := reconnectFn env.reconnect g
    if Event.restart ∈ r.trace then
      { globals := r.globals
        trace := [LoopEvent.isActivated, LoopEvent.isActivated,
                  LoopEvent.smartReconnect r.trace]
        restarted := true }
    else if r.result then
      { globals := { r.globals with lorawan_status := LoRaWANStatus.LORAWAN_CONNECTED }
        trace := [LoopEvent.isActivated, LoopEvent.isActivated,
                  LoopEvent.smartReconnect r.trace]
        restarted := false }
    else
      { globals := { r.globals with lorawan_status := LoRaWANStatus.LORAWAN_DISCONNECTED }
        trace := [LoopEvent.isActivated, LoopEvent.isActivated,
                  LoopEvent.smartReconnect r.trace]
        restarted := false }
  else
    { globals := { g with lorawan_status := LoRaWANStatus.LORAWAN_CONNECTED }
      trace := [LoopEvent.isActivated]
      restarted := false }

/-- The transmission block of `loop()`: when the status is connected the packet is encoded
(with the current failure count) and sent once; success resets the failure count and stamps the
cycle's start time, failure increments the `uint8_t` count, sets the status to send-failed and,
for a critical error code, calls `smartReconnect` at once (its result is not used). -/
def loopTransmit (reconnectFn : ReconnectEnv → Globals → Outcome) (lib : RadioLib)
    (isCritical : Int → Bool) (encode : Nat → List Nat) (env : LoopEnv) (g : Globals) :
    TransmitOutcome :=
  if g.lorawan_status = LoRaWANStatus.LORAWAN_CONNECTED then
    let uplinkPayload := encode g.consecutive_send_failures
    if env.sendState = lib.RADIOLIB_ERR_NONE ∨
        env.sendState = lib.RADIOLIB_LORAWAN_NEW_SESSION then
      let g1 : Globals :=
        { g with consecutive_send_failures := 0
                 last_successful_send := env.currentTime % 4294967296
                 lorawan_status := LoRaWANStatus.LORAWAN_CONNECTED }
      { afterSend := g1, globals := g1, trace := [LoopEvent.sendReceive uplinkPayload]
        restarted := false }
    else
      let g1 : Globals :=
        { g with consecutive_send_failures := (g.consecutive_send_failures + 1) % 256
                 lorawan_status := LoRaWANStatus.LORAWAN_SEND_FAILED }
      if isCritical env.sendState then
        let r := reconnectFn env.reconnectAfterSend g1
        { afterSend := g1, globals := r.globals
          trace := [LoopEvent.sendReceive uplinkPayload, LoopEvent.smartReconnect r.trace]
          restarted := decide (Event.restart ∈ r.trace) }
      else
        { afterSend := g1, globals := g1, trace := [LoopEvent.sendReceive uplinkPayload]
          restarted := false }
  else
    { afterSend := g, globals := g, trace := [], restarted := false }

/-- One cycle of `loop()` after the acquisition: reconnection decision, transmission block, the
5 s observation window and the light sleep of `uplinkIntervalSeconds - 5` seconds
(`uint32_t` arithmetic).  When a reconnection ends in `ESP.restart()` the device reboots there:
the cycle performs nothing further, neither the transmission (after the decision) nor the
delay and the sleep. -/
def loopCore (reconnectFn : ReconnectEnv → Globals → Outcome) (lib : RadioLib)
    (isCritical : Int → Bool) (encode : Nat → List Nat) (uplinkIntervalSeconds : Nat)
    (env : LoopEnv) (g : Globals) : LoopOutcome :=
  let d := loopReconnect reconnectFn env g
  if d.restarted then
    { decided := d.globals, afterSend := d.globals, globals := d.globals
      trace := d.trace, restarted := true }
  else
    let t := loopTransmit reconnectFn lib isCritical encode env d.globals
    if t.restarted then
      { decided := d.globals, afterSend := t.afterSend, globals := t.globals
        trace := d.trace ++ t.trace, restarted := true }
    else
      { decided := d.globals, afterSend := t.afterSend, globals := t.globals
        trace := d.trace ++ t.trace ++
          [LoopEvent.delay 5000,
           LoopEvent.enterLightSleep ((uplinkIntervalSeconds + 4294967296 - 5) % 4294967296)]
        restarted := false }

/-- The error codes after which the AM1008W variants reconnect at once. -/
def isCriticalError (lib : RadioLib) (sendState : Int) : Bool :=
  decide (sendState = lib.RADIOLIB_ERR_NETWORK_NOT_JOINED ∨
    sendState = lib.RADIOLIB_ERR_JOIN_NONCE_INVALID ∨
    sendState = lib.RADIOLIB_ERR_CHIP_NOT_FOUND)

/-- Function `loop` of the AM1008W variants (I2C and UART), given the frame `sensorData` that
`readSensors` returned at its start. -/
def loop (lib : RadioLib) (uplinkIntervalSeconds : Nat) (env : LoopEnv)
    (sensorData : SensorData) (g : Globals) : LoopOutcome :=
  loopCore (smartReconnect lib) lib (isCriticalError lib) (encodeSensorData sensorData)
    uplinkIntervalSeconds env g

namespace Stabilize

/-- The error codes after which LoRa_Stabilize reconnects at once; the code
`RADIOLIB_ERR_NO_JOIN_ACCEPT` is a further parameter. -/
def isCriticalError (lib : RadioLib) (RADIOLIB_ERR_NO_JOIN_ACCEPT : Int) (sendState : Int) :
    Bool :=
  decide (sendState = lib.RADIOLIB_ERR_NETWORK_NOT_JOINED ∨
    sendState = RADIOLIB_ERR_NO_JOIN_ACCEPT ∨
    sendState = lib.RADIOLIB_ERR_CHIP_NOT_FOUND)

/-- Function `loop` of LoRa_Stabilize, given the frame `sensorData` that `readSensors` returned
at its start. -/
def loop (lib : RadioLib) (RADIOLIB_ERR_NO_JOIN_ACCEPT : Int) (uplinkIntervalSeconds : Nat)
    (env : LoopEnv) (sensorData : SensorData) (g : Globals) : LoopOutcome :=
  loopCore (smartReconnect lib) lib (isCriticalError lib RADIOLIB_ERR_NO_JOIN_ACCEPT)
    (encodeSensorData sensorData) uplinkIntervalSeconds env g

end Stabilize


/-- The environment of a cycle that starts at 100000 ms, in which `node.isActivated()` answers
`activated`, the transmission returns `sendState`, and every reconnection meets `envAllFail`. -/
def cycleEnv (activated : Bool) (sendState : Int) : LoopEnv :=
  { currentTime := 100000
    activated := activated
    reconnect := envAllFail
    sendState := sendState
    reconnectAfterSend := envAllFail }

/-- A frame of LoRa_Stabilize with 25.0 degrees, 50.0 % relative humidity and 1013.25 hPa on
both sensors, altitude 0. -/
def Stabilize.frameRoom : Stabilize.SensorData :=
  { temperature_bme := F32.fin (25 * 2 ^ 149), humidity := F32.fin (50 * 2 ^ 149),
    pressure_bme := Stabilize.defaultPressure, temperature_bmp := F32.fin (25 * 2 ^ 149),
    pressure_bmp := Stabilize.defaultPressure, altitude := F32.fin 0 }


/-! ## Sensor discovery (I2C variant) -/

/-- Result of the discovery (`struct SensorInfo`). -/
structure SensorInfo where
  address : Nat
  found : Bool
  valid_data : Bool
  parsing_method : String
deriving DecidableEq

/-- Value of an `int16_t` that holds the 16-bit pattern `raw`. -/
def toInt16 (raw : Nat) : Int :=
  if raw % 65536 < 32768 then ((raw % 65536 : Nat) : Int)
  else ((raw % 65536 : Nat) : Int) - 65536

/-- Function `testDataValidity` on the bytes of the response buffer (the buffer passed is the
global `i2c_buffer`, never null): header `16 19`, CO2 (bytes 3-4) at most 5000, the signed
value of bytes 5-6 divided by 10 within -40 to 85, the value of bytes 7-8 divided by 10 within
0 to 100. -/
def testDataValidity (response : Nat → Nat) : Bool :=
  if response 0 ≠ 0x16 ∨ response 1 ≠ 0x19 then false
  else
    let co2 := be16 (response 3) (response 4)
    if co2 > 5000 then false
    else
      let temp_raw := toInt16 (be16 (response 5) (response 6))
      let temperature := F32.ofIntDiv10 temp_raw
      if F32.lt temperature (F32.ofInt (-40)) || F32.lt (F32.ofInt 85) temperature then false
      else
        let humidity_raw := be16 (response 7) (response 8)
        let humidity := F32.ofIntDiv10 (humidity_raw : Int)
        if F32.lt humidity (F32.ofInt 0) || F32.lt (F32.ofInt 100) humidity then false
        else true

/-- What the bus answers when one address is probed: the result of the empty transmission, the
result of the transmission of the read command, and the bytes available after
`Wire.requestFrom(addr, 25)`. -/
structure ProbeEnv where
  probeError : Nat
  commandError : Nat
  wire : List Nat

/-- The test of one address in `detectAM1008Sensor`: the address acknowledges, the command is
accepted, 25 bytes arrive and they pass `testDataValidity`. -/
def probeAddress (e : ProbeEnv) : Bool :=
  if e.probeError = 0 then
    if e.commandError = 0 then
      if e.wire.length ≥ 25 then testDataValidity (byteAt (e.wire.take 25))
      else false
    else false
  else false

/-- The table `address_ranges` of `detectAM1008Sensor`, in source order. -/
def address_ranges : List (Nat × Nat) := [(0x28, 0x2F), (0x50, 0x57), (0x30, 0x37)]

/-- The addresses `for (addr = r.1; addr <= r.2; addr++)` visits. -/
def rangeAddresses (r : Nat × Nat) : List Nat :=
  (List.range (r.2 + 1 - r.1)).map (fun i => r.1 + i)

/-- The addresses the two nested loops of `detectAM1008Sensor` visit when nothing answers. -/
def candidateAddresses : List Nat := (address_ranges.map rangeAddresses).flatten

/-- Result of the discovery together with the addresses tested, in order. -/
structure DetectOutcome where
  info : SensorInfo
  probed : List Nat

/-- The nested loops of `detectAM1008Sensor` over the remaining candidate addresses: the first
address that passes the test is returned at once. -/
def detectLoop (bus : Nat → ProbeEnv) : List Nat → List Nat → DetectOutcome
  | [], probed =>
    { info := { address := 0, found := false, valid_data := false, parsing_method := "none" }
      probed := probed }
  | addr :: rest, probed =>
    if probeAddress (bus addr) then
      { info := { address := addr, found := true, valid_data := true
                  parsing_method := "Standard AM1008W-K-P" }
        probed := probed ++ [addr] }
    else detectLoop bus rest (probed ++ [addr])

/-- Function `detectAM1008Sensor`; `bus` gives the answer of the bus at each address. -/
def detectAM1008Sensor (bus : Nat → ProbeEnv) : DetectOutcome :=
  detectLoop bus candidateAddresses []

/-- A bus on which no address acknowledges. -/
def silentBus : Nat → ProbeEnv :=
  fun _ => { probeError := 2, commandError := 2, wire := [] }

/-- A bus on which only address 0x50 acknowledges, with the response `responseScenario`. -/
def busAt0x50 : Nat → ProbeEnv :=
  fun addr =>
    if addr = 0x50 then { probeError := 0, commandError := 0, wire := responseScenario }
    else { probeError := 2, commandError := 2, wire := [] }


/-- Function `initializeAM1008PMSensor`: runs the discovery and stores the adopted address in
the global `detected_sensor_address` (0 when no sensor was adopted).  The result is the return
value and the new value of the global. -/
def initializeAM1008PMSensor (bus : Nat → ProbeEnv) : Bool × Nat :=
  let sensor_info := (detectAM1008Sensor bus).info
  if sensor_info.found && sensor_info.valid_data then (true, sensor_info.address)
  else (false, 0)

/-! ## The acquisition functions as state transformers -/

/-- The globals of the I2C variant that the acquisition touches or reads: the boot-time
availability flag, the adopted sensor address, the receive buffer `i2c_buffer` and the failure
counter. -/
structure SensorGlobals where
  am1008_available : Bool
  detected_sensor_address : Nat
  i2c_buffer : List Nat
  consecutive_send_failures : Nat

namespace Stateful

/-- Function `readAM1008Data` with its effect on the globals: the buffer is cleared by
`memset(i2c_buffer, 0, 25)` and, when an address was adopted and 25 bytes are available, filled
with them; no other global is assigned. -/
def readAM1008Data (s : SensorGlobals) (wire : List Nat) : AM1008Data × SensorGlobals :=
  let cleared := List.replicate 25 0 ++ s.i2c_buffer.drop 25
  if s.detected_sensor_address = 0 then
    (LoRa.readAM1008Data s.detected_sensor_address wire, { s with i2c_buffer := cleared })
  else if wire.length < 25 then
    (LoRa.readAM1008Data s.detected_sensor_address wire, { s with i2c_buffer := cleared })
  else
    (LoRa.readAM1008Data s.detected_sensor_address wire,
     { s with i2c_buffer := (wire.take 25).map (fun b => b % 256) ++ s.i2c_buffer.drop 25 })

/-- Function `readSensors` with its effect on the globals: the frame copies the global
`am1008_available`, and `readAM1008Data` is called only when it is set. -/
def readSensors (s : SensorGlobals) (wire : List Nat) : SensorData × SensorGlobals :=
  if s.am1008_available then
    let r := readAM1008Data s wire
    ({ am1008 := r.1, am1008_available := s.am1008_available }, r.2)
  else
    ({ am1008 := AM1008Data.init, am1008_available := s.am1008_available }, s)

/-- Function `encodeSensorData` with its effect on the globals: it reads the failure counter and
writes the caller's buffer only. -/
def encodeSensorData (s : SensorGlobals) (data : SensorData) : List Nat × SensorGlobals :=
  (LoRa.encodeSensorData data s.consecutive_send_failures, s)

end Stateful

/-! ## Sleep -/

/-- Function `enterLightSleep(uint32_t sleepTimeSeconds)`: the argument it passes to
`esp_sleep_enable_timer_wakeup`, the product `sleepTimeSeconds * 1000000ULL` in `uint64_t`
arithmetic (microseconds). -/
def enterLightSleep (sleepTimeSeconds : Nat) : Nat :=
  ((sleepTimeSeconds % 4294967296) * 1000000) % 18446744073709551616

/-! ## Iterating the duty cycle -/

/-- The globals after the cycles `cycles` of `loop()` within one boot, each cycle given by what
it meets and by the frame it acquired, starting from the globals `g`.  A cycle that ends in
`ESP.restart()` ends the run: the result is the state at the restart (after it the device
boots again and `setup()` re-initialises the globals). -/
def runLoop (lib : RadioLib) (uplinkIntervalSeconds : Nat) :
    List (LoopEnv × SensorData) → Globals → Globals
  | [], g => g
  | (env, sensorData) :: rest, g =>
    if (loop lib uplinkIntervalSeconds env sensorData g).restarted then
      (loop lib uplinkIntervalSeconds env sensorData g).globals
    else
      runLoop lib uplinkIntervalSeconds rest
        (loop lib uplinkIntervalSeconds env sensorData g).globals

/-- The environment of a cycle that starts at 100000 ms with the session not active, in which
every reconnection meets `envJoinRefused`: the radio answers, the session is not restored and
all three joins are refused, so `smartReconnect` restarts the device. -/
def cycleEnvRestart : LoopEnv :=
  { currentTime := 100000
    activated := false
    reconnect := envJoinRefused
    sendState := 0
    reconnectAfterSend := envJoinRefused }

/-- An I2C response that the acquisition accepts: CO2 200 ppm, VOC level 3 (byte 5), byte 6
0x53, humidity 50.0 %, raw temperature 750 (25.0 degrees), PM1.0 5, PM2.5 8, PM10 12. -/
def responseVoc3 : List Nat :=
  [0x16, 0x19, 0x00, 0x00, 0xC8, 0x03, 0x53, 0x01, 0xF4, 0x02, 0xEE,
   0x00, 0x05, 0x00, 0x08, 0x00, 0x0C, 0, 0, 0, 0, 0, 0, 0, 0]

/-- A bus on which every address acknowledges and answers with `responseVoc3`. -/
def busVoc3 : Nat → ProbeEnv :=
  fun _ => { probeError := 0, commandError := 0, wire := responseVoc3 }

/-- Globals whose status is connecting, the last rejoin attempt having been made at 90000 ms. -/
def globalsConnecting : Globals :=
  { consecutive_send_failures := 0
    last_successful_send := 0
    last_rejoin_attempt := 90000
    lorawan_status := LoRaWANStatus.LORAWAN_CONNECTING }

/-- An environment in which the session is not active, the restore attempt makes it active
(and `node.beginOTAA` returns the session-restored status -1117), at clock 100000 ms. -/
def envRestore : ReconnectEnv :=
  { currentTime := 100000
    resetRadioState := 0
    activatedBefore := false
    activatedAfter := true
    restoreState := -1117
    restoreTime := 100050
    rejoin := fun _ => { radioState := 0, nodeState := 0, joinState := -1116, millis := 100200 } }

/-- An environment in which the session is not restored, the first join attempt is refused with
status -1116 and the second one succeeds (new session, -1118). -/
def envSecondJoin : ReconnectEnv :=
  { currentTime := 100000
    resetRadioState := 0
    activatedBefore := false
    activatedAfter := false
    restoreState := -2
    restoreTime := 100050
    rejoin := fun attempt =>
      if attempt = 2 then { radioState := 0, nodeState := 0, joinState := -1118, millis := 115000 }
      else { radioState := 0, nodeState := 0, joinState := -1116, millis := 100200 } }


/-- Whether an action of a cycle is the light sleep. -/
def LoopEvent.isSleep : LoopEvent → Bool
  | LoopEvent.enterLightSleep _ => true
  | _ => false

/-- Whether an action of a cycle is a delay. -/
def LoopEvent.isDelay : LoopEvent → Bool
  | LoopEvent.delay _ => true
  | _ => false

end LoRa

namespace LoRa

/-! ## Properties of the rounding functions -/

theorem bitLengthAux_le_iff (fuel : Nat) : ∀ n k : Nat, n ≤ fuel →
    (bitLengthAux fuel n ≤ k ↔ n < 2 ^ k) := by
  induction fuel with
  | zero =>
    intro n k hn
    have h0 : n = 0 := by omega
    subst h0
    simp [bitLengthAux]
  | succ fuel ih =>
    intro n k hn
    by_cases h0 : n = 0
    · subst h0
      simp [bitLengthAux]
    · have hdiv : n / 2 ≤ fuel := by omega
      simp only [bitLengthAux, if_neg h0]
      cases k with
      | zero =>
        simp only [pow_zero]
        omega
      | succ k =>
        rw [Nat.add_le_add_iff_right, ih (n / 2) k hdiv, pow_succ,
          Nat.div_lt_iff_lt_mul (by norm_num : 0 < 2)]

theorem bitLength_le_iff (n k : Nat) : bitLength n ≤ k ↔ n < 2 ^ k :=
  bitLengthAux_le_iff n n k (Nat.le_refl n)

theorem roundHalfEven_le {a d N : Nat} (hd : 0 < d) (h : a ≤ N * d) :
    roundHalfEven a d ≤ N := by
  have hq : a / d ≤ N := by
    calc a / d ≤ N * d / d := Nat.div_le_div_right h
      _ = N := Nat.mul_div_cancel N hd
  have hmod : a / d * d + a % d = a := by
    rw [Nat.mul_comm]; exact Nat.div_add_mod a d
  rcases Nat.lt_or_ge (a / d) N with hlt | hge
  · have h2 : (a / d) % 2 ≤ 1 := by omega
    unfold roundHalfEven
    simp only
    split_ifs <;> omega
  · have hqN : a / d = N := Nat.le_antisymm hq hge
    have hr : a % d = 0 := by
      rw [hqN] at hmod
      omega
    unfold roundHalfEven
    simp only [hr, hqN]
    simp [hd]

theorem le_roundHalfEven {a d N : Nat} (hd : 0 < d) (h : N * d ≤ a) :
    N ≤ roundHalfEven a d := by
  have hq : N ≤ a / d := (Nat.le_div_iff_mul_le hd).2 h
  unfold roundHalfEven
  simp only
  split_ifs <;> omega

/-- Rounding never crosses a representable number from below: if `a / d` is at most the
format's number `n * 2^j`, so is its rounding. -/
theorem roundMant_le {p a d n j : Nat} (hd : 0 < d) (hn : n < 2 ^ p)
    (h : a ≤ n * 2 ^ j * d) : roundMant p a d ≤ n * 2 ^ j := by
  have hfloor : a / d < 2 ^ (p + j) := by
    have h1 : a / d ≤ n * 2 ^ j := by
      calc a / d ≤ n * 2 ^ j * d / d := Nat.div_le_div_right h
        _ = n * 2 ^ j := Nat.mul_div_cancel _ hd
    have h2 : n * 2 ^ j < 2 ^ p * 2 ^ j :=
      Nat.mul_lt_mul_of_pos_right hn (Nat.two_pow_pos _)
    rw [pow_add]
    omega
  have hbl : bitLength (a / d) ≤ p + j := (bitLength_le_iff _ _).2 hfloor
  unfold roundMant
  simp only
  generalize he : bitLength (a / d) - p = e
  have hej : e ≤ j := by omega
  obtain ⟨i, rfl⟩ : ∃ i, j = e + i := ⟨j - e, by omega⟩
  have hpos : 0 < d * 2 ^ e := Nat.mul_pos hd (Nat.two_pow_pos _)
  have hr : roundHalfEven a (d * 2 ^ e) ≤ n * 2 ^ i := by
    apply roundHalfEven_le hpos
    calc a ≤ n * 2 ^ (e + i) * d := h
      _ = n * 2 ^ i * (d * 2 ^ e) := by rw [pow_add]; ring
  calc roundHalfEven a (d * 2 ^ e) * 2 ^ e ≤ n * 2 ^ i * 2 ^ e := Nat.mul_le_mul_right _ hr
    _ = n * 2 ^ (e + i) := by rw [pow_add]; ring

/-- Rounding never crosses a representable number from above. -/
theorem le_roundMant {p a d n j : Nat} (hd : 0 < d) (hp : 0 < p) (hn : n < 2 ^ p)
    (h : n * 2 ^ j * d ≤ a) : n * 2 ^ j ≤ roundMant p a d := by
  unfold roundMant
  simp only
  generalize he : bitLength (a / d) - p = e
  have hpos : 0 < d * 2 ^ e := Nat.mul_pos hd (Nat.two_pow_pos _)
  rcases Nat.lt_or_ge j e with hje | hej
  · -- the rounding grid is coarser than `2^j`: the result is at least `2^(p-1+e)`
    have hbl : ¬ bitLength (a / d) ≤ p - 1 + e := by omega
    rw [bitLength_le_iff] at hbl
    have hge : 2 ^ (p - 1 + e) ≤ a / d := Nat.le_of_not_lt hbl
    have hmul : 2 ^ (p - 1 + e) * d ≤ a := (Nat.le_div_iff_mul_le hd).1 hge
    have hr : 2 ^ (p - 1) ≤ roundHalfEven a (d * 2 ^ e) := by
      apply le_roundHalfEven hpos
      calc 2 ^ (p - 1) * (d * 2 ^ e) = 2 ^ (p - 1 + e) * d := by rw [pow_add]; ring
        _ ≤ a := hmul
    obtain ⟨i, rfl⟩ : ∃ i, e = j + 1 + i := ⟨e - (j + 1), by omega⟩
    obtain ⟨q, rfl⟩ : ∃ q, p = q + 1 := ⟨p - 1, by omega⟩
    simp only [Nat.add_sub_cancel] at hr
    calc n * 2 ^ j ≤ 2 ^ (q + 1) * 2 ^ j := Nat.mul_le_mul_right _ (Nat.le_of_lt hn)
      _ = 2 ^ q * 2 ^ (j + 1) := by rw [pow_succ, pow_succ]; ring
      _ ≤ 2 ^ q * (2 ^ (j + 1) * 2 ^ i) :=
          Nat.mul_le_mul_left _ (Nat.le_mul_of_pos_right _ (Nat.two_pow_pos _))
      _ = 2 ^ q * 2 ^ (j + 1 + i) := by rw [← pow_add]
      _ ≤ roundHalfEven a (d * 2 ^ (j + 1 + i)) * 2 ^ (j + 1 + i) := Nat.mul_le_mul_right _ hr
  · obtain ⟨i, rfl⟩ : ∃ i, j = e + i := ⟨j - e, by omega⟩
    have hr : n * 2 ^ i ≤ roundHalfEven a (d * 2 ^ e) := by
      apply le_roundHalfEven hpos
      calc n * 2 ^ i * (d * 2 ^ e) = n * 2 ^ (e + i) * d := by rw [pow_add]; ring
        _ ≤ a := h
    calc n * 2 ^ (e + i) = n * 2 ^ i * 2 ^ e := by rw [pow_add]; ring
      _ ≤ roundHalfEven a (d * 2 ^ e) * 2 ^ e := Nat.mul_le_mul_right _ hr

/-- Numbers of the format are fixed points of the rounding. -/
theorem roundMant_exact {p d n j : Nat} (hd : 0 < d) (hp : 0 < p) (hn : n < 2 ^ p) :
    roundMant p (n * 2 ^ j * d) d = n * 2 ^ j :=
  Nat.le_antisymm (roundMant_le hd hn (Nat.le_refl _)) (le_roundMant hd hp hn (Nat.le_refl _))

/-! ## Bytes, fields and the unusable-frame packet -/

theorem be16_eq {hi lo : Nat} (hhi : hi < 256) (hlo : lo < 256) :
    be16 hi lo = 256 * hi + lo := by
  unfold be16
  rw [Nat.shiftLeft_eq, Nat.mul_comm hi (2 ^ 8),
    ← Nat.mul_add_lt_is_or (by omega : lo < 2 ^ 8) hi]
  omega

theorem byteAt_lt (buf : List Nat) (i : Nat) : byteAt buf i < 256 := by
  unfold byteAt
  omega

theorem be16_lt (hi lo : Nat) : be16 hi lo < 65536 := by
  unfold be16
  omega

theorem byteAt_response {resp : List Nat} (h : IsResponse resp) (i : Nat) :
    byteAt (resp.take 25) i = resp.getD i 0 := by
  obtain ⟨hlen, hb⟩ := h
  have htake : resp.take 25 = resp := List.take_of_length_le (by omega)
  rw [htake]
  unfold byteAt
  apply Nat.mod_eq_of_lt
  by_cases hi : i < resp.length
  · rw [List.getD_eq_getElem _ _ hi]
    exact hb _ (List.getElem_mem hi)
  · rw [List.getD_eq_default _ _ (by omega)]
    omega

theorem split16 {x : Nat} (hx : x < 65536) :
    256 * ((x >>> 8) % 256) + (x &&& 0xFF) = x := by
  have h1 : x &&& 0xFF = x % 2 ^ 8 := Nat.and_pow_two_sub_one_eq_mod x 8
  rw [h1, Nat.shiftRight_eq_div_pow]
  omega

/-- When the sensor is unavailable or the reading invalid, the packet depends on the frame only
through the two flags. -/
theorem encodeSensorData_unusable (data : SensorData) (c : Nat)
    (h : (data.am1008_available && data.am1008.valid) = false) :
    encodeSensorData data c =
      [0xFF, 0xFF, 0xFF, 0xFF, 0, 0, 0, 0, 0, 0, 0, 0, 0,
       (if data.am1008_available then 0x01 else 0) ||| (if data.am1008.valid then 0x02 else 0),
       c % 256, 0] := by
  have hand : 65535 &&& 255 = 255 := by decide
  unfold encodeSensorData
  simp [h, hand]

/-! ## Acquisition and encoding: absent and rejected readings -/

/-- C1 (as stated, refuted): for the all-absent frame it is not the case that all six 16-bit
quantity fields of the packet equal 0xFFFF with an empty bitmask; the CO2 and particulate
fields are 0. -/
theorem absentFrame_not_all_sentinel :
    ¬ (field16 (encodeSensorData absentFrame 0) 0 = 0xFFFF ∧
       field16 (encodeSensorData absentFrame 0) 2 = 0xFFFF ∧
       field16 (encodeSensorData absentFrame 0) 4 = 0xFFFF ∧
       field16 (encodeSensorData absentFrame 0) 6 = 0xFFFF ∧
       field16 (encodeSensorData absentFrame 0) 8 = 0xFFFF ∧
       field16 (encodeSensorData absentFrame 0) 10 = 0xFFFF ∧
       (encodeSensorData absentFrame 0).getD 13 0 = 0) := by
  decide

/-- C1 (amended): for every frame with `am1008_available = false` and `valid = false`, whatever
its values, and every failure counter, the temperature and humidity fields (bytes 0-1, 2-3) of
the packet are the sentinel 0xFFFF, the CO2, PM2.5, PM10 and PM1.0 fields (bytes 4-11) and the
VOC byte 12 are 0, and the availability bitmask (byte 13) is 0. -/
theorem encodeSensorData_absent (data : SensorData) (c : Nat)
    (havail : data.am1008_available = false) (hvalid : data.am1008.valid = false) :
    field16 (encodeSensorData data c) 0 = 0xFFFF ∧
    field16 (encodeSensorData data c) 2 = 0xFFFF ∧
    field16 (encodeSensorData data c) 4 = 0 ∧
    field16 (encodeSensorData data c) 6 = 0 ∧
    field16 (encodeSensorData data c) 8 = 0 ∧
    field16 (encodeSensorData data c) 10 = 0 ∧
    (encodeSensorData data c).getD 12 0 = 0 ∧
    (encodeSensorData data c).getD 13 0 = 0 := by
  rw [encodeSensorData_unusable data c (by simp [havail])]
  simp [field16, havail, hvalid]

theorem encodeSensorData_absent_witness :
    absentFrame.am1008_available = false ∧ absentFrame.am1008.valid = false ∧
    field16 (encodeSensorData absentFrame 7) 0 = 0xFFFF ∧
    field16 (encodeSensorData absentFrame 7) 2 = 0xFFFF ∧
    field16 (encodeSensorData absentFrame 7) 4 = 0 ∧
    field16 (encodeSensorData absentFrame 7) 6 = 0 ∧
    field16 (encodeSensorData absentFrame 7) 8 = 0 ∧
    field16 (encodeSensorData absentFrame 7) 10 = 0 ∧
    (encodeSensorData absentFrame 7).getD 12 0 = 0 ∧
    (encodeSensorData absentFrame 7).getD 13 0 = 0 :=
  ⟨rfl, rfl, encodeSensorData_absent absentFrame 7 rfl rfl⟩

/-- C3: when fewer than 25 bytes are available, `readAM1008Data` of the I2C variant (for every
sensor address) and of the UART variant return `valid = false` with NaN temperature and
humidity and all counts 0. -/
theorem readAM1008Data_short (addr : Nat) (resp : List Nat) (h : resp.length < 25) :
    readAM1008Data addr resp =
      { temperature := F32.nan, humidity := F32.nan, co2 := 0, voc_level := 0,
        pm1_0 := 0, pm2_5 := 0, pm10 := 0, valid := false } ∧
    Uart.readAM1008Data resp =
      { temperature := F32.nan, humidity := F32.nan, co2 := 0, voc_level := 0,
        pm1_0 := 0, pm2_5 := 0, pm10 := 0, valid := false } := by
  constructor
  · unfold readAM1008Data
    simp [h, AM1008Data.init]
  · unfold Uart.readAM1008Data
    simp [h, AM1008Data.init]

theorem readAM1008Data_short_witness :
    [0x16, 0x19, 0x00, 0x00, 0xC8].length < 25 ∧
    readAM1008Data 0x28 [0x16, 0x19, 0x00, 0x00, 0xC8] =
      { temperature := F32.nan, humidity := F32.nan, co2 := 0, voc_level := 0,
        pm1_0 := 0, pm2_5 := 0, pm10 := 0, valid := false } ∧
    Uart.readAM1008Data [0x16, 0x19, 0x00, 0x00, 0xC8] =
      { temperature := F32.nan, humidity := F32.nan, co2 := 0, voc_level := 0,
        pm1_0 := 0, pm2_5 := 0, pm10 := 0, valid := false } :=
  ⟨by decide, readAM1008Data_short 0x28 [0x16, 0x19, 0x00, 0x00, 0xC8] (by decide)⟩

/-- C6: a 25-byte I2C response whose byte 0 is not 0x16 or whose byte 1 is not 0x19 is rejected
whatever its other bytes are: `valid = false`, temperature and humidity NaN, all counts 0. -/
theorem readAM1008Data_bad_header (addr : Nat) (resp : List Nat) (hresp : IsResponse resp)
    (hhdr : resp.getD 0 0 ≠ 0x16 ∨ resp.getD 1 0 ≠ 0x19) :
    readAM1008Data addr resp =
      { temperature := F32.nan, humidity := F32.nan, co2 := 0, voc_level := 0,
        pm1_0 := 0, pm2_5 := 0, pm10 := 0, valid := false } := by
  have hlen : ¬ resp.length < 25 := by
    have := hresp.1
    omega
  have hcond : ¬ (byteAt (resp.take 25) 0 = 0x16 ∧ byteAt (resp.take 25) 1 = 0x19) := by
    rw [byteAt_response hresp, byteAt_response hresp]
    intro hc
    rcases hhdr with h0 | h1
    · exact h0 hc.1
    · exact h1 hc.2
  unfold readAM1008Data
  by_cases haddr : addr = 0
  · simp [haddr, AM1008Data.init]
  · simp only [if_neg haddr, if_neg hlen, if_neg hcond, AM1008Data.init]

/-- The scenario response of the specification with byte 0 changed to 0x00 is rejected. -/
theorem readAM1008Data_bad_header_witness :
    IsResponse [0x00, 0x19, 0x00, 0x00, 0xC8, 0x00, 0x8C, 0x01, 0xF4, 0, 0, 0, 0, 0, 0, 0, 0,
      0, 0, 0, 0, 0, 0, 0, 0] ∧
    (([0x00, 0x19, 0x00, 0x00, 0xC8, 0x00, 0x8C, 0x01, 0xF4, 0, 0, 0, 0, 0, 0, 0, 0,
      0, 0, 0, 0, 0, 0, 0, 0] : List Nat).getD 0 0 ≠ 0x16 ∨
     ([0x00, 0x19, 0x00, 0x00, 0xC8, 0x00, 0x8C, 0x01, 0xF4, 0, 0, 0, 0, 0, 0, 0, 0,
      0, 0, 0, 0, 0, 0, 0, 0] : List Nat).getD 1 0 ≠ 0x19) ∧
    readAM1008Data 0x28 [0x00, 0x19, 0x00, 0x00, 0xC8, 0x00, 0x8C, 0x01, 0xF4, 0, 0, 0, 0, 0,
      0, 0, 0, 0, 0, 0, 0, 0, 0, 0, 0] =
      { temperature := F32.nan, humidity := F32.nan, co2 := 0, voc_level := 0,
        pm1_0 := 0, pm2_5 := 0, pm10 := 0, valid := false } :=
  ⟨by decide, by decide, readAM1008Data_bad_header 0x28 _ (by decide) (by decide)⟩

/-! ## Bounds on the float computations -/

theorem F32.round_eq_fin (neg : Bool) {a d : Nat} (h : roundMant 24 a d < F32.overflow) :
    F32.round neg a d =
      F32.fin (if neg then -(roundMant 24 a d : Int) else (roundMant 24 a d : Int)) := by
  unfold F32.round
  simp only [if_neg (Nat.not_le.2 h)]

/-- Integers below `2^24` convert to `float` exactly. -/
theorem F32.ofInt_small (k : Int) (hk : k.natAbs < 2 ^ 24) :
    F32.ofInt k = F32.fin (k * 2 ^ 149) := by
  have hexact : roundMant 24 (k.natAbs * F32.one) 1 = k.natAbs * 2 ^ 149 := by
    have h := roundMant_exact (p := 24) (d := 1) (n := k.natAbs) (j := 149)
      (by norm_num) (by norm_num) hk
    simpa [F32.one] using h
  have hov : roundMant 24 (k.natAbs * F32.one) 1 < F32.overflow := by
    rw [hexact]
    unfold F32.overflow
    have h1 : k.natAbs * 2 ^ 149 < 2 ^ 24 * 2 ^ 149 :=
      Nat.mul_lt_mul_of_pos_right hk (Nat.two_pow_pos _)
    have h2 : 2 ^ 24 * 2 ^ 149 ≤ 2 ^ 128 * 2 ^ 149 :=
      Nat.mul_le_mul_right _ (Nat.pow_le_pow_right (by norm_num) (by norm_num))
    omega
  unfold F32.ofInt
  rw [F32.round_eq_fin _ hov, hexact]
  congr 1
  have hcast : ((k.natAbs * 2 ^ 149 : Nat) : Int) = (k.natAbs : Int) * 2 ^ 149 := by
    simp only [Nat.cast_mul, Nat.cast_pow, Nat.cast_ofNat]
  rw [hcast]
  by_cases hneg : k < 0
  · simp only [hneg, decide_True, if_true]
    have : ((k.natAbs : Nat) : Int) = -k := by omega
    rw [this]
    ring
  · simp only [hneg, decide_False]
    have : ((k.natAbs : Nat) : Int) = k := by omega
    rw [this]
    rfl

/-- The magnitude of `(float)(K / 10.0)` never crosses a threshold `c16 / 16` with
`c16 < 2^24`, a number both `double` and `float` represent exactly. -/
theorem div10_le {K c16 : Nat} (hc : c16 < 2 ^ 24) (h : 16 * K ≤ 10 * c16) :
    roundMant 24 (roundMant 53 (K * 2 ^ 1074) 10) (2 ^ 925) ≤ c16 * 2 ^ 145 := by
  have hc53 : c16 < 2 ^ 53 := by
    have : (2 : Nat) ^ 24 ≤ 2 ^ 53 := Nat.pow_le_pow_right (by norm_num) (by norm_num)
    omega
  have hd : roundMant 53 (K * 2 ^ 1074) 10 ≤ c16 * 2 ^ 1070 := by
    apply roundMant_le (by norm_num) hc53
    rw [show (1074 : Nat) = 1070 + 4 from rfl, pow_add, show (2 : Nat) ^ 4 = 16 from rfl]
    calc K * (2 ^ 1070 * 16) = (16 * K) * 2 ^ 1070 := by ring
      _ ≤ (10 * c16) * 2 ^ 1070 := Nat.mul_le_mul_right _ h
      _ = c16 * 2 ^ 1070 * 10 := by ring
  apply roundMant_le (Nat.two_pow_pos _) hc
  calc roundMant 53 (K * 2 ^ 1074) 10 ≤ c16 * 2 ^ 1070 := hd
    _ = c16 * 2 ^ 145 * 2 ^ 925 := by
        rw [show (1070 : Nat) = 145 + 925 from rfl, pow_add]; ring

theorem le_div10 {K c16 : Nat} (hc : c16 < 2 ^ 24) (h : 10 * c16 ≤ 16 * K) :
    c16 * 2 ^ 145 ≤ roundMant 24 (roundMant 53 (K * 2 ^ 1074) 10) (2 ^ 925) := by
  have hc53 : c16 < 2 ^ 53 := by
    have : (2 : Nat) ^ 24 ≤ 2 ^ 53 := Nat.pow_le_pow_right (by norm_num) (by norm_num)
    omega
  have hd : c16 * 2 ^ 1070 ≤ roundMant 53 (K * 2 ^ 1074) 10 := by
    apply le_roundMant (by norm_num) (by norm_num) hc53
    rw [show (1074 : Nat) = 1070 + 4 from rfl, pow_add, show (2 : Nat) ^ 4 = 16 from rfl]
    calc c16 * 2 ^ 1070 * 10 = (10 * c16) * 2 ^ 1070 := by ring
      _ ≤ (16 * K) * 2 ^ 1070 := Nat.mul_le_mul_right _ h
      _ = K * (2 ^ 1070 * 16) := by ring
  apply le_roundMant (Nat.two_pow_pos _) (by norm_num) hc
  calc c16 * 2 ^ 145 * 2 ^ 925 = c16 * 2 ^ 1070 := by
        rw [show (1070 : Nat) = 145 + 925 from rfl, pow_add]; ring
    _ ≤ roundMant 53 (K * 2 ^ 1074) 10 := hd

/-- The value of `(float)(k / 10.0)` for a 17-bit integer `k`: finite, with the sign of `k`, and
on the same side as `|k| / 10` of every threshold `c16 / 16`. -/
theorem F32.ofIntDiv10_bounds (k : Int) (hk : k.natAbs ≤ 65535) :
    ∃ m : Nat, F32.ofIntDiv10 k = F32.fin (if k < 0 then -(m : Int) else (m : Int)) ∧
      (∀ c16 : Nat, c16 < 2 ^ 24 → 16 * k.natAbs ≤ 10 * c16 → m ≤ c16 * 2 ^ 145) ∧
      (∀ c16 : Nat, c16 < 2 ^ 24 → 10 * c16 ≤ 16 * k.natAbs → c16 * 2 ^ 145 ≤ m) := by
  refine ⟨roundMant 24 (roundMant 53 (k.natAbs * 2 ^ 1074) 10) (2 ^ 925), ?_,
    fun c16 hc h => div10_le hc h, fun c16 hc h => le_div10 hc h⟩
  have hle := @div10_le k.natAbs (2 ^ 20) (by norm_num) (by norm_num; omega)
  have hov : roundMant 24 (roundMant 53 (k.natAbs * 2 ^ 1074) 10) (2 ^ 925) < F32.overflow := by
    unfold F32.overflow
    have h1 : (2 : Nat) ^ 20 * 2 ^ 145 < 2 ^ 128 * 2 ^ 149 :=
      Nat.mul_lt_mul_of_lt_of_le (Nat.pow_lt_pow_right (by norm_num) (by norm_num))
        (Nat.pow_le_pow_right (by norm_num) (by norm_num)) (Nat.two_pow_pos _)
    omega
  unfold F32.ofIntDiv10
  simp only
  rw [F32.round_eq_fin _ hov]
  simp only [decide_eq_true_eq]

/-- The range check `temperature >= -40 && temperature <= 85` on the decoded `float`, in terms of
the raw 16-bit field `r` (temperature `(r - 500) / 10`). -/
theorem temperature_check (r : Nat) (hr : r < 65536) :
    (F32.le (F32.ofInt (-40)) (F32.ofIntDiv10 ((r : Int) - 500)) = true ↔ 100 ≤ r) ∧
    (F32.le (F32.ofIntDiv10 ((r : Int) - 500)) (F32.ofInt 85) = true ↔ r ≤ 1350) := by
  obtain ⟨m, hm, hub, hlb⟩ := F32.ofIntDiv10_bounds ((r : Int) - 500) (by omega)
  have h149 : (2 : Int) ^ 149 = 16 * ((2 ^ 145 : Nat) : Int) := by norm_num
  have hpos : 0 < 2 ^ 145 := Nat.two_pow_pos 145
  rw [hm, F32.ofInt_small (-40) (by decide), F32.ofInt_small 85 (by decide)]
  simp only [F32.le, decide_eq_true_eq, h149]
  have u640 := hub 640 (by norm_num)
  have l641 := hlb 641 (by norm_num)
  have u1360 := hub 1360 (by norm_num)
  have l1361 := hlb 1361 (by norm_num)
  generalize 2 ^ 145 = U at *
  by_cases hneg : (r : Int) - 500 < 0
  · simp only [hneg, if_true]
    constructor
    · constructor
      · intro h
        by_contra hlt
        have := l641 (by omega)
        omega
      · intro h
        have := u640 (by omega)
        omega
    · constructor
      · intro _
        omega
      · intro _
        omega
  · simp only [hneg, if_false]
    constructor
    · constructor
      · intro _
        omega
      · intro _
        omega
    · constructor
      · intro h
        by_contra hgt
        have := l1361 (by omega)
        omega
      · intro h
        have := u1360 (by omega)
        omega

/-- The range check `humidity >= 0 && humidity <= 100` on the decoded `float`, in terms of the
raw 16-bit field `r` (humidity `r / 10`). -/
theorem humidity_check (r : Nat) (hr : r < 65536) :
    F32.le (F32.ofInt 0) (F32.ofIntDiv10 (r : Int)) = true ∧
    (F32.le (F32.ofIntDiv10 (r : Int)) (F32.ofInt 100) = true ↔ r ≤ 1000) := by
  obtain ⟨m, hm, hub, hlb⟩ := F32.ofIntDiv10_bounds (r : Int) (by omega)
  have h149 : (2 : Int) ^ 149 = 16 * ((2 ^ 145 : Nat) : Int) := by norm_num
  have hpos : 0 < 2 ^ 145 := Nat.two_pow_pos 145
  have hneg : ¬ ((r : Int) < 0) := by omega
  rw [hm, F32.ofInt_small 0 (by decide), F32.ofInt_small 100 (by decide)]
  simp only [F32.le, decide_eq_true_eq, h149, hneg, if_false]
  have u1600 := hub 1600 (by norm_num)
  have l1601 := hlb 1601 (by norm_num)
  generalize 2 ^ 145 = U at *
  refine ⟨by omega, ?_, ?_⟩
  · intro h
    by_contra hgt
    have := l1601 (by omega)
    omega
  · intro h
    have := u1600 (by omega)
    omega

theorem getD_lt_of_response {resp : List Nat} (h : IsResponse resp) (i : Nat) :
    resp.getD i 0 < 256 := by
  rw [← byteAt_response h i]
  exact byteAt_lt _ _

/-- A reading the I2C variant marks valid has its raw temperature field within 100..1350. -/
theorem readAM1008Data_valid_temperature (addr : Nat) (wire : List Nat)
    (h : (readAM1008Data addr wire).valid = true) :
    100 ≤ be16 (byteAt (wire.take 25) 9) (byteAt (wire.take 25) 10) ∧
    be16 (byteAt (wire.take 25) 9) (byteAt (wire.take 25) 10) ≤ 1350 := by
  have hchk := temperature_check (be16 (byteAt (wire.take 25) 9) (byteAt (wire.take 25) 10))
    (be16_lt _ _)
  unfold readAM1008Data at h
  simp only [AM1008Data.init] at h
  split_ifs at h with h1 h2 h3
  have h4 := of_decide_eq_true h
  exact ⟨hchk.1.1 h4.2.2.2.1, hchk.2.1 h4.2.2.2.2.1⟩

/-- C4: a 25-byte I2C response with header 0x16 0x19 whose decoded temperature
`(256*b9 + b10 - 500)/10` lies outside [-40, 85] is invalid as a whole, and the packet encoded
from the resulting frame carries none of its values: bytes 0-3 are 0xFF and bytes 4-12 are 0,
the same packet as for a frame without any reading. -/
theorem readAM1008Data_temperature_out_of_range (addr : Nat) (resp : List Nat) (avail : Bool)
    (c : Nat) (hresp : IsResponse resp)
    (_h0 : resp.getD 0 0 = 0x16) (_h1 : resp.getD 1 0 = 0x19)
    (hrange : (256 * (resp.getD 9 0 : ℚ) + (resp.getD 10 0 : ℚ) - 500) / 10 < -40 ∨
      85 < (256 * (resp.getD 9 0 : ℚ) + (resp.getD 10 0 : ℚ) - 500) / 10) :
    (readAM1008Data addr resp).valid = false ∧
    encodeSensorData (readSensors avail (readAM1008Data addr resp)) c =
      [0xFF, 0xFF, 0xFF, 0xFF, 0, 0, 0, 0, 0, 0, 0, 0, 0,
       if avail then 1 else 0, c % 256, 0] ∧
    encodeSensorData (readSensors avail (readAM1008Data addr resp)) c =
      encodeSensorData (readSensors avail AM1008Data.init) c := by
  have hr : be16 (byteAt (resp.take 25) 9) (byteAt (resp.take 25) 10) =
      256 * resp.getD 9 0 + resp.getD 10 0 := by
    rw [byteAt_response hresp, byteAt_response hresp]
    exact be16_eq (getD_lt_of_response hresp 9) (getD_lt_of_response hresp 10)
  have hout : 256 * resp.getD 9 0 + resp.getD 10 0 < 100 ∨
      1350 < 256 * resp.getD 9 0 + resp.getD 10 0 := by
    rcases hrange with hlo | hhi
    · left
      have : ((256 * resp.getD 9 0 + resp.getD 10 0 : Nat) : ℚ) < 100 := by
        push_cast
        linarith
      exact_mod_cast this
    · right
      have : (1350 : ℚ) < ((256 * resp.getD 9 0 + resp.getD 10 0 : Nat) : ℚ) := by
        push_cast
        linarith
      exact_mod_cast this
  have hvalid : (readAM1008Data addr resp).valid = false := by
    by_contra hv
    have hv1 : (readAM1008Data addr resp).valid = true := by simpa using hv
    have := readAM1008Data_valid_temperature addr resp hv1
    rw [hr] at this
    omega
  have hinit : AM1008Data.init.valid = false := rfl
  refine ⟨hvalid, ?_, ?_⟩
  · cases avail
    · rw [encodeSensorData_unusable _ c (by simp [readSensors])]
      simp [readSensors, hinit]
    · rw [encodeSensorData_unusable _ c (by simp [readSensors, hvalid])]
      simp [readSensors, hvalid]
  · cases avail
    · rfl
    · rw [encodeSensorData_unusable _ c (by simp [readSensors, hvalid]),
        encodeSensorData_unusable _ c (by simp [readSensors, hinit])]
      simp [readSensors, hvalid, hinit]

theorem readAM1008Data_temperature_out_of_range_witness :
    IsResponse responseTooHot ∧ responseTooHot.getD 0 0 = 0x16 ∧
    responseTooHot.getD 1 0 = 0x19 ∧
    ((256 * (responseTooHot.getD 9 0 : ℚ) + (responseTooHot.getD 10 0 : ℚ) - 500) / 10 < -40 ∨
      85 < (256 * (responseTooHot.getD 9 0 : ℚ) + (responseTooHot.getD 10 0 : ℚ) - 500) / 10) ∧
    ((readAM1008Data 0x28 responseTooHot).valid = false ∧
      encodeSensorData (readSensors true (readAM1008Data 0x28 responseTooHot)) 2 =
        [0xFF, 0xFF, 0xFF, 0xFF, 0, 0, 0, 0, 0, 0, 0, 0, 0,
         if true then 1 else 0, 2 % 256, 0] ∧
      encodeSensorData (readSensors true (readAM1008Data 0x28 responseTooHot)) 2 =
        encodeSensorData (readSensors true AM1008Data.init) 2) :=
  have hrange : (256 * (responseTooHot.getD 9 0 : ℚ) + (responseTooHot.getD 10 0 : ℚ) - 500) / 10
        < -40 ∨
      85 < (256 * (responseTooHot.getD 9 0 : ℚ) + (responseTooHot.getD 10 0 : ℚ) - 500) / 10 :=
    Or.inr (by simp [responseTooHot]; norm_num)
  ⟨by decide, by decide, by decide, hrange,
    readAM1008Data_temperature_out_of_range 0x28 responseTooHot true 2 (by decide) (by decide)
      (by decide) hrange⟩

/-! ## Inputs on which the firmware departs from the specification -/

/-- C2 (evaluation at the failing input): the I2C response with raw temperature 101 is valid
and decodes to the `float` nearest to -39.9, which is -5229773/131072 = -39.90000152...; the
encoder truncates `(t + 40) * 10 = 0.99998...` to 0, so the packet carries -40.0 and the round
trip is off by more than 0.05. -/
theorem roundtrip_temperature_minus39_9 :
    (readAM1008Data 0x28 responseMinus39_9).valid = true ∧
    field16 (encodeSensorData (readSensors true (readAM1008Data 0x28 responseMinus39_9)) 0) 0 = 0 ∧
    ∃ n : Int, (readAM1008Data 0x28 responseMinus39_9).temperature = F32.fin n ∧
      F32.val n = -5229773 / 131072 ∧
      ¬ |((field16 (encodeSensorData (readSensors true
            (readAM1008Data 0x28 responseMinus39_9)) 0) 0 : Nat) : ℚ) / 10 - 40 - F32.val n|
          ≤ 1 / 20 := by
  have hvalid : (readAM1008Data 0x28 responseMinus39_9).valid = true := by decide!
  have hfield : field16 (encodeSensorData (readSensors true
      (readAM1008Data 0x28 responseMinus39_9)) 0) 0 = 0 := by decide!
  have htemp : (readAM1008Data 0x28 responseMinus39_9).temperature =
      F32.fin (-5229773 * 2 ^ 132) := by decide!
  have hval : F32.val (-5229773 * 2 ^ 132) = -5229773 / 131072 := by
    unfold F32.val
    norm_num
  refine ⟨hvalid, hfield, -5229773 * 2 ^ 132, htemp, hval, ?_⟩
  rw [hfield, hval]
  norm_num [abs_le]

/-- C5 (evaluation at the failing input): the UART variant accepts a response with a correct
header whose CO2 field is 65535 ppm, far above 5000: `valid = true`. -/
theorem Uart.readAM1008Data_accepts_co2_max :
    IsResponse uartResponseCo2Max ∧
    (Uart.readAM1008Data uartResponseCo2Max).valid = true ∧
    (Uart.readAM1008Data uartResponseCo2Max).co2 = 65535 := by
  decide

/-! ## Bounds on the encoded temperature and humidity -/

/-- Rounding a non-negative fraction that is at most the binary32 number `n * 2^j` gives a
finite, non-negative `float` that is at most that number. -/
theorem F32.round_le {a d n j : Nat} (hd : 0 < d) (hn : n < 2 ^ 24)
    (hfin : n * 2 ^ j < F32.overflow) (h : a ≤ n * 2 ^ j * d) :
    ∃ m : Nat, F32.round false a d = F32.fin (m : Int) ∧ m ≤ n * 2 ^ j := by
  have hle := roundMant_le (p := 24) hd hn h
  refine ⟨roundMant 24 a d, ?_, hle⟩
  rw [F32.round_eq_fin false (by omega)]
  rfl

theorem F32.small_lt_overflow {c : Nat} (hc : c < 2 ^ 24) : c * 2 ^ 149 < F32.overflow := by
  unfold F32.overflow
  have h1 : c * 2 ^ 149 < 2 ^ 24 * 2 ^ 149 := Nat.mul_lt_mul_of_pos_right hc (Nat.two_pow_pos _)
  have h2 : 2 ^ 24 * 2 ^ 149 ≤ 2 ^ 128 * 2 ^ 149 :=
    Nat.mul_le_mul_right _ (Nat.pow_le_pow_right (by norm_num) (by norm_num))
  omega

/-- A sum of two floats that lies between 0 and an integer `c < 2^24` rounds to a float between
0 and `c`. -/
theorem F32.add_le (a b : Int) {c : Nat} (hc : c < 2 ^ 24) (h0 : 0 ≤ a + b)
    (h1 : a + b ≤ (c : Int) * 2 ^ 149) :
    ∃ m : Nat, F32.add (F32.fin a) (F32.fin b) = F32.fin (m : Int) ∧ m ≤ c * 2 ^ 149 := by
  have hneg : decide (a + b < 0) = false := by simpa using h0
  have hnat : (a + b).natAbs ≤ c * 2 ^ 149 * 1 := by
    have : ((c * 2 ^ 149 : Nat) : Int) = (c : Int) * 2 ^ 149 := by
      simp only [Nat.cast_mul, Nat.cast_pow, Nat.cast_ofNat]
    omega
  obtain ⟨m, hm, hle⟩ := F32.round_le (by norm_num) hc (F32.small_lt_overflow hc) hnat
  exact ⟨m, by simp only [F32.add, hneg, hm], hle⟩

/-- A non-negative float at most `c` times the integer `k`, with `c * k < 2^24`, rounds to a
float between 0 and `c * k`. -/
theorem F32.mul_le (m k : Nat) {c : Nat} (hc : c * k < 2 ^ 24) (h : m ≤ c * 2 ^ 149) :
    ∃ m2 : Nat, F32.mul (F32.fin (m : Int)) (F32.fin ((k : Int) * 2 ^ 149)) = F32.fin (m2 : Int) ∧
      m2 ≤ c * k * 2 ^ 149 := by
  have hprod : (m : Int) * ((k : Int) * 2 ^ 149) = ((m * (k * 2 ^ 149) : Nat) : Int) := by
    simp only [Nat.cast_mul, Nat.cast_pow, Nat.cast_ofNat]
  have hneg : decide ((m : Int) * ((k : Int) * 2 ^ 149) < 0) = false := by
    rw [hprod]
    simp only [decide_eq_false_iff_not, not_lt]
    exact Int.natCast_nonneg _
  have habs : ((m : Int) * ((k : Int) * 2 ^ 149)).natAbs = m * (k * 2 ^ 149) := by
    rw [hprod]
    exact Int.natAbs_ofNat _
  have hnat : m * (k * 2 ^ 149) ≤ c * k * 2 ^ 149 * F32.one := by
    unfold F32.one
    calc m * (k * 2 ^ 149) ≤ c * 2 ^ 149 * (k * 2 ^ 149) := Nat.mul_le_mul_right _ h
      _ = c * k * 2 ^ 149 * 2 ^ 149 := by ring
  obtain ⟨m2, hm2, hle⟩ :=
    F32.round_le (by unfold F32.one; exact Nat.two_pow_pos _) hc (F32.small_lt_overflow hc) hnat
  exact ⟨m2, by simp only [F32.mul, hneg, habs, hm2], hle⟩

/-- The cast to `uint16_t` of a non-negative float that is at most `c < 65536` is at most `c`. -/
theorem F32.toUInt16_le (m : Nat) {c : Nat} (hc : c < 65536) (h : m ≤ c * 2 ^ 149) :
    F32.toUInt16 (F32.fin (m : Int)) ≤ c := by
  have hdiv : m / 2 ^ 149 ≤ c := by
    calc m / 2 ^ 149 ≤ c * 2 ^ 149 / 2 ^ 149 := Nat.div_le_div_right h
      _ = c := Nat.mul_div_cancel _ (Nat.two_pow_pos _)
  have hq : Int.tdiv (m : Int) ((F32.one : Nat) : Int) = ((m / 2 ^ 149 : Nat) : Int) := by
    unfold F32.one
    rw [Int.tdiv_eq_ediv (Int.natCast_nonneg _) (Int.natCast_nonneg _)]
    exact (Int.natCast_div m (2 ^ 149)).symm
  show (Int.tdiv (m : Int) ((F32.one : Nat) : Int) % 65536).toNat ≤ c
  rw [hq]
  omega

theorem F32.toUInt16_lt (x : F32) : F32.toUInt16 x < 65536 := by
  cases x with
  | nan => show 0 < 65536; omega
  | inf s => show 0 < 65536; omega
  | fin n =>
    show (Int.tdiv n ((F32.one : Nat) : Int) % 65536).toNat < 65536
    omega

/-- The temperature field of the packet of an available, valid frame with a non-NaN
temperature is the truncated `(t + 40) * 10`. -/
theorem encodeSensorData_temperature (data : SensorData) (c : Nat)
    (havail : data.am1008_available = true) (hvalid : data.am1008.valid = true)
    (hnan : data.am1008.temperature.isnan = false) :
    field16 (encodeSensorData data c) 0 =
      F32.toUInt16 (F32.mul (F32.add data.am1008.temperature (F32.ofInt 40)) (F32.ofInt 10)) := by
  unfold encodeSensorData field16
  simp only [havail, hvalid, hnan, Bool.and_self, Bool.not_false, if_true, List.getD_cons_zero,
    List.getD_cons_succ, Nat.zero_add]
  exact split16 (F32.toUInt16_lt _)

/-- The humidity field of the packet of an available, valid frame with a non-NaN humidity is
the truncated `h * 10`. -/
theorem encodeSensorData_humidity (data : SensorData) (c : Nat)
    (havail : data.am1008_available = true) (hvalid : data.am1008.valid = true)
    (hnan : data.am1008.humidity.isnan = false) :
    field16 (encodeSensorData data c) 2 =
      F32.toUInt16 (F32.mul data.am1008.humidity (F32.ofInt 10)) := by
  unfold encodeSensorData field16
  simp only [havail, hvalid, hnan, Bool.and_self, Bool.not_false, if_true, List.getD_cons_zero,
    List.getD_cons_succ, Nat.zero_add]
  exact split16 (F32.toUInt16_lt _)

/-- Integer bounds on a float from rational bounds on its value. -/
theorem F32.val_bounds {n : Int} {lo hi : Int} (hlo : (lo : ℚ) ≤ F32.val n)
    (hhi : F32.val n ≤ (hi : ℚ)) : lo * 2 ^ 149 ≤ n ∧ n ≤ hi * 2 ^ 149 := by
  unfold F32.val at hlo hhi
  have hpos : (0 : ℚ) < 2 ^ 149 := by positivity
  rw [le_div_iff₀ hpos] at hlo
  rw [div_le_iff₀ hpos] at hhi
  constructor
  · exact_mod_cast hlo
  · exact_mod_cast hhi

/-- C10: sentinel policy of the 16-byte encoder.  When the sensor is unavailable, the reading
invalid or the temperature (resp. humidity) NaN, bytes 0-1 (resp. 2-3) are 0xFF 0xFF.  For an
available, valid frame a temperature in [-40, 85] encodes to at most 1250 and a humidity in
[0, 100] to at most 1000, hence never to the sentinel 0xFFFF. -/
theorem encodeSensorData_sentinel_policy (data : SensorData) (c : Nat) :
    ((data.am1008_available = false ∨ data.am1008.valid = false ∨
        data.am1008.temperature = F32.nan) →
      (encodeSensorData data c).getD 0 0 = 0xFF ∧ (encodeSensorData data c).getD 1 0 = 0xFF) ∧
    ((data.am1008_available = false ∨ data.am1008.valid = false ∨
        data.am1008.humidity = F32.nan) →
      (encodeSensorData data c).getD 2 0 = 0xFF ∧ (encodeSensorData data c).getD 3 0 = 0xFF) ∧
    (data.am1008_available = true → data.am1008.valid = true →
      (∀ t : Int, data.am1008.temperature = F32.fin t → -40 ≤ F32.val t → F32.val t ≤ 85 →
        field16 (encodeSensorData data c) 0 ≤ 1250 ∧
        field16 (encodeSensorData data c) 0 ≠ 0xFFFF) ∧
      (∀ h : Int, data.am1008.humidity = F32.fin h → 0 ≤ F32.val h → F32.val h ≤ 100 →
        field16 (encodeSensorData data c) 2 ≤ 1000 ∧
        field16 (encodeSensorData data c) 2 ≠ 0xFFFF)) := by
  have hhi : (65535 >>> 8) % 256 = 255 := by decide
  have hlo : 65535 &&& 255 = 255 := by decide
  refine ⟨?_, ?_, ?_⟩
  · intro h
    by_cases hu : (data.am1008_available && data.am1008.valid) = false
    · rw [encodeSensorData_unusable data c hu]
      simp
    · have hnan : data.am1008.temperature = F32.nan := by
        rcases h with h | h | h
        · simp [h] at hu
        · simp [h] at hu
        · exact h
      unfold encodeSensorData
      simp [hnan, F32.isnan, hhi, hlo]
  · intro h
    by_cases hu : (data.am1008_available && data.am1008.valid) = false
    · rw [encodeSensorData_unusable data c hu]
      simp
    · have hnan : data.am1008.humidity = F32.nan := by
        rcases h with h | h | h
        · simp [h] at hu
        · simp [h] at hu
        · exact h
      unfold encodeSensorData
      simp [hnan, F32.isnan, hhi, hlo]
  · intro havail hvalid
    constructor
    · intro t ht hlo1 hhi1
      have hb := @F32.val_bounds t (-40) 85 (by exact_mod_cast hlo1)
        (by exact_mod_cast hhi1)
      obtain ⟨m1, hm1, hle1⟩ := F32.add_le t (40 * 2 ^ 149) (c := 125) (by norm_num)
        (by omega) (by push_cast; omega)
      obtain ⟨m2, hm2, hle2⟩ := F32.mul_le m1 10 (c := 125) (by norm_num) hle1
      have hfield := encodeSensorData_temperature data c havail hvalid (by rw [ht]; rfl)
      rw [ht, F32.ofInt_small 40 (by decide), F32.ofInt_small 10 (by decide), hm1] at hfield
      have h10 : ((10 : Nat) : Int) * 2 ^ 149 = 10 * 2 ^ 149 := by norm_num
      rw [h10] at hm2
      rw [hm2] at hfield
      have hle := F32.toUInt16_le m2 (c := 1250) (by norm_num) hle2
      rw [hfield]
      omega
    · intro h hh hlo1 hhi1
      have hb := @F32.val_bounds h 0 100 (by exact_mod_cast hlo1)
        (by exact_mod_cast hhi1)
      obtain ⟨m, rfl⟩ : ∃ m : Nat, h = (m : Int) := ⟨h.toNat, by omega⟩
      have hm : m ≤ 100 * 2 ^ 149 := by
        have := hb.2
        exact_mod_cast this
      obtain ⟨m2, hm2, hle2⟩ := F32.mul_le m 10 (c := 100) (by norm_num) hm
      have hfield := encodeSensorData_humidity data c havail hvalid (by rw [hh]; rfl)
      rw [hh, F32.ofInt_small 10 (by decide)] at hfield
      have h10 : ((10 : Nat) : Int) * 2 ^ 149 = 10 * 2 ^ 149 := by norm_num
      rw [h10] at hm2
      rw [hm2] at hfield
      have hle := F32.toUInt16_le m2 (c := 1000) (by norm_num) hle2
      rw [hfield]
      omega

theorem encodeSensorData_sentinel_policy_witness :
    (frameRoom.am1008_available = true ∧ frameRoom.am1008.valid = true ∧
      frameRoom.am1008.temperature = F32.fin (25 * 2 ^ 149) ∧
      -40 ≤ F32.val (25 * 2 ^ 149) ∧ F32.val (25 * 2 ^ 149) ≤ 85) ∧
    (field16 (encodeSensorData frameRoom 0) 0 ≤ 1250 ∧
      field16 (encodeSensorData frameRoom 0) 0 ≠ 0xFFFF) ∧
    (absentFrame.am1008_available = false ∧
      (encodeSensorData absentFrame 0).getD 0 0 = 0xFF ∧
      (encodeSensorData absentFrame 0).getD 1 0 = 0xFF) :=
  have hlo : -40 ≤ F32.val (25 * 2 ^ 149) := by unfold F32.val; norm_num
  have hhi : F32.val (25 * 2 ^ 149) ≤ 85 := by unfold F32.val; norm_num
  ⟨⟨rfl, rfl, rfl, hlo, hhi⟩,
    ((encodeSensorData_sentinel_policy frameRoom 0).2.2 rfl rfl).1 (25 * 2 ^ 149) rfl hlo hhi,
    rfl, (encodeSensorData_sentinel_policy absentFrame 0).1 (Or.inl rfl)⟩

/-! ## Reconnection procedure -/

/-- C7: cooldown gate.  When less than 30000 ms (modulo `2^32`) have passed since
`last_rejoin_attempt`, `smartReconnect` (AM1008W variants and LoRa_Stabilize) returns false,
performs no action at all (no radio reset, session restore or join) and leaves every global
unchanged, in particular `consecutive_send_failures`, `lorawan_status`, `last_successful_send`
and `last_rejoin_attempt`. -/
theorem smartReconnect_cooldown (lib : RadioLib) (env : ReconnectEnv) (g : Globals)
    (h : ((env.currentTime : Int) - (g.last_rejoin_attempt : Int)) % 2 ^ 32 < 30000) :
    ((smartReconnect lib env g).result = false ∧
      (smartReconnect lib env g).trace = [] ∧
      (smartReconnect lib env g).globals = g) ∧
    ((Stabilize.smartReconnect lib env g).result = false ∧
      (Stabilize.smartReconnect lib env g).trace = [] ∧
      (Stabilize.smartReconnect lib env g).globals = g) := by
  have h2 : ((env.currentTime : Int) - (g.last_rejoin_attempt : Int)) % 4294967296
      < REJOIN_DELAY_MS := by
    have e : (2 : Int) ^ 32 = 4294967296 := by norm_num
    rw [e] at h
    exact h
  unfold smartReconnect Stabilize.smartReconnect
  simp only [if_pos h2, and_self]

theorem smartReconnect_cooldown_witness :
    ((envAllFail.currentTime : Int) - ((globalsAfterFailures 1 80000).last_rejoin_attempt : Int))
        % 2 ^ 32 < 30000 ∧
    ((smartReconnect sampleLib envAllFail (globalsAfterFailures 1 80000)).result = false ∧
      (smartReconnect sampleLib envAllFail (globalsAfterFailures 1 80000)).trace = [] ∧
      (smartReconnect sampleLib envAllFail (globalsAfterFailures 1 80000)).globals =
        globalsAfterFailures 1 80000) ∧
    ((Stabilize.smartReconnect sampleLib envAllFail (globalsAfterFailures 1 80000)).result
        = false ∧
      (Stabilize.smartReconnect sampleLib envAllFail (globalsAfterFailures 1 80000)).trace = [] ∧
      (Stabilize.smartReconnect sampleLib envAllFail (globalsAfterFailures 1 80000)).globals =
        globalsAfterFailures 1 80000) :=
  ⟨by decide, smartReconnect_cooldown sampleLib envAllFail (globalsAfterFailures 1 80000)
    (by decide)⟩

/-- Every event `forceRejoin` performs satisfies a property that holds of its four actions. -/
theorem forceRejoin_trace_forall (lib : RadioLib) (env : RejoinEnv) (g : Globals)
    (P : Event → Prop) (h1 : P Event.forceRejoin) (h2 : P Event.radioBegin)
    (h3 : P Event.beginOTAA) (h4 : P Event.activateOTAA) :
    ∀ e ∈ (forceRejoin lib env g).trace, P e := by
  intro e he
  unfold forceRejoin at he
  split_ifs at he <;> simp at he <;> rcases he with rfl | rfl | rfl | rfl <;> assumption

/-- A property of the events of each attempt and of the 10 s delay holds along the rejoin
loop. -/
theorem rejoinLoop_trace_forall (rejoinFn : RejoinEnv → Globals → Outcome)
    (env : Nat → RejoinEnv) (P : Event → Prop)
    (hfn : ∀ r g, ∀ e ∈ (rejoinFn r g).trace, P e) (hdelay : P (Event.delay 10000)) :
    ∀ (attempts : List Nat) (g : Globals) (trace : List Event), (∀ e ∈ trace, P e) →
      ∀ e ∈ (rejoinLoop rejoinFn env attempts g trace).trace, P e := by
  intro attempts
  induction attempts with
  | nil =>
    intro g trace htrace e he
    exact htrace e he
  | cons attempt rest ih =>
    intro g trace htrace e he
    unfold rejoinLoop at he
    simp only at he
    split_ifs at he with hok hlt
    · rcases List.mem_append.1 he with h | h
      · exact htrace e h
      · exact hfn _ _ e h
    · refine ih _ _ ?_ e he
      intro x hx
      rcases List.mem_append.1 hx with h | h
      · rcases List.mem_append.1 h with h | h
        · exact htrace x h
        · exact hfn _ _ x h
      · rw [List.mem_singleton.1 h]
        exact hdelay
    · refine ih _ _ ?_ e he
      intro x hx
      rw [List.append_nil] at hx
      rcases List.mem_append.1 hx with h | h
      · exact htrace x h
      · exact hfn _ _ x h

/-- A failing `forceRejoin` returns false, changes no global, counts as one attempt and does
not restart. -/
theorem forceRejoin_fail (lib : RadioLib) (env : RejoinEnv) (g : Globals)
    (h : env.radioState ≠ lib.RADIOLIB_ERR_NONE ∨
      env.joinState ≠ lib.RADIOLIB_LORAWAN_NEW_SESSION) :
    (forceRejoin lib env g).result = false ∧ (forceRejoin lib env g).globals = g ∧
    (forceRejoin lib env g).trace.count Event.forceRejoin = 1 ∧
    (forceRejoin lib env g).trace.count Event.restart = 0 := by
  have c1 : [Event.forceRejoin, Event.radioBegin].count Event.forceRejoin = 1 := by decide
  have c2 : [Event.forceRejoin, Event.radioBegin].count Event.restart = 0 := by decide
  have c3 : [Event.forceRejoin, Event.radioBegin, Event.beginOTAA,
      Event.activateOTAA].count Event.forceRejoin = 1 := by decide
  have c4 : [Event.forceRejoin, Event.radioBegin, Event.beginOTAA,
      Event.activateOTAA].count Event.restart = 0 := by decide
  unfold forceRejoin
  split_ifs with h1 h2
  · exact ⟨rfl, rfl, c1, c2⟩
  · rcases h with h | h
    · exact absurd h h1
    · exact absurd h2 h
  · exact ⟨rfl, rfl, c3, c4⟩

/-- When every attempt fails, the loop runs to its end, makes one attempt per attempt number,
leaves the globals alone and never restarts. -/
theorem rejoinLoop_all_fail (lib : RadioLib) (env : Nat → RejoinEnv) :
    ∀ (attempts : List Nat) (g : Globals) (trace : List Event),
      (∀ k ∈ attempts, (env k).radioState ≠ lib.RADIOLIB_ERR_NONE ∨
        (env k).joinState ≠ lib.RADIOLIB_LORAWAN_NEW_SESSION) →
      (rejoinLoop (forceRejoin lib) env attempts g trace).result = false ∧
      (rejoinLoop (forceRejoin lib) env attempts g trace).globals = g ∧
      (rejoinLoop (forceRejoin lib) env attempts g trace).trace.count Event.forceRejoin =
        trace.count Event.forceRejoin + attempts.length ∧
      (rejoinLoop (forceRejoin lib) env attempts g trace).trace.count Event.restart =
        trace.count Event.restart := by
  intro attempts
  induction attempts with
  | nil =>
    intro g trace _
    simp [rejoinLoop]
  | cons attempt rest ih =>
    intro g trace hfail
    obtain ⟨hres, hglob, hcount, hrestart⟩ :=
      forceRejoin_fail lib (env attempt) g (hfail attempt (List.mem_cons_self _ _))
    have hrest : ∀ k ∈ rest, (env k).radioState ≠ lib.RADIOLIB_ERR_NONE ∨
        (env k).joinState ≠ lib.RADIOLIB_LORAWAN_NEW_SESSION :=
      fun k hk => hfail k (List.mem_cons_of_mem _ hk)
    unfold rejoinLoop
    simp only [hres, Bool.false_eq_true, if_false, hglob]
    obtain ⟨h1, h2, h3, h4⟩ := ih g (trace ++ (forceRejoin lib (env attempt) g).trace ++
      if attempt < MAX_REJOIN_ATTEMPTS then [Event.delay 10000] else []) hrest
    refine ⟨h1, h2, ?_, ?_⟩
    · rw [h3]
      split_ifs <;> simp [List.count_append, hcount] <;> omega
    · rw [h4]
      split_ifs <;> simp [List.count_append, hrestart]

theorem rejoinAttempts_eq : rejoinAttempts = [1, 2, 3] := by decide

/-- When all three attempts fail, the forced-rejoin part makes exactly those three attempts,
then sets the status to disconnected and restarts; the restart is its last action. -/
theorem forcedRejoin_all_fail (lib : RadioLib) (env : ReconnectEnv) (g : Globals)
    (trace : List Event)
    (hfail : ∀ k, 1 ≤ k → k ≤ 3 → (env.rejoin k).radioState ≠ lib.RADIOLIB_ERR_NONE ∨
      (env.rejoin k).joinState ≠ lib.RADIOLIB_LORAWAN_NEW_SESSION) :
    (forcedRejoin (forceRejoin lib) env g trace).result = false ∧
    (forcedRejoin (forceRejoin lib) env g trace).globals.lorawan_status =
      LoRaWANStatus.LORAWAN_DISCONNECTED ∧
    ∃ before, (forcedRejoin (forceRejoin lib) env g trace).trace = before ++ [Event.restart] ∧
      before.count Event.forceRejoin = trace.count Event.forceRejoin + 3 ∧
      before.count Event.restart = trace.count Event.restart := by
  have hall : ∀ k ∈ rejoinAttempts, (env.rejoin k).radioState ≠ lib.RADIOLIB_ERR_NONE ∨
      (env.rejoin k).joinState ≠ lib.RADIOLIB_LORAWAN_NEW_SESSION := by
    intro k hk
    rw [rejoinAttempts_eq] at hk
    simp only [List.mem_cons, List.mem_singleton, List.not_mem_nil, or_false] at hk
    apply hfail k <;> omega
  obtain ⟨h1, _, h3, h4⟩ := rejoinLoop_all_fail lib env.rejoin rejoinAttempts
    { g with lorawan_status := LoRaWANStatus.LORAWAN_REJOIN_NEEDED } trace hall
  have hlen : rejoinAttempts.length = 3 := by rw [rejoinAttempts_eq]; rfl
  rw [hlen] at h3
  unfold forcedRejoin
  simp only [h1, Bool.false_eq_true, if_false]
  exact ⟨trivial, trivial, _, rfl, h3, h4⟩

/-- C9: exhaustion.  When a `smartReconnect` call passes the cooldown gate and the hardware
reset (if one is due), does not restore the session, and all three `forceRejoin` attempts fail,
then it makes exactly 3 join attempts, ends with `lorawan_status = LORAWAN_DISCONNECTED`, and
issues the restart exactly once, as its last action, after all three attempts. -/
theorem smartReconnect_exhaustion (lib : RadioLib) (env : ReconnectEnv) (g : Globals)
    (hgate : ¬ ((env.currentTime : Int) - (g.last_rejoin_attempt : Int)) % 2 ^ 32 < 30000)
    (hreset : 2 ≤ g.consecutive_send_failures → env.resetRadioState = lib.RADIOLIB_ERR_NONE)
    (hrestore : env.activatedBefore = true ∨ env.activatedAfter = false)
    (hfail : ∀ k, 1 ≤ k → k ≤ 3 → (env.rejoin k).radioState ≠ lib.RADIOLIB_ERR_NONE ∨
      (env.rejoin k).joinState ≠ lib.RADIOLIB_LORAWAN_NEW_SESSION) :
    (smartReconnect lib env g).result = false ∧
    (smartReconnect lib env g).globals.lorawan_status = LoRaWANStatus.LORAWAN_DISCONNECTED ∧
    (smartReconnect lib env g).trace.count Event.forceRejoin = 3 ∧
    (smartReconnect lib env g).trace.count Event.restart = 1 ∧
    ∃ before, (smartReconnect lib env g).trace = before ++ [Event.restart] ∧
      before.count Event.forceRejoin = 3 ∧ before.count Event.restart = 0 := by
  have hgate2 : ¬ ((env.currentTime : Int) - (g.last_rejoin_attempt : Int)) % 4294967296
      < REJOIN_DELAY_MS := by
    have e : (2 : Int) ^ 32 = 4294967296 := by norm_num
    rw [e] at hgate
    exact hgate
  -- every way into the forced-rejoin part starts from a trace without attempts or restarts
  have key : ∀ (g1 : Globals) (trace : List Event), trace.count Event.forceRejoin = 0 →
      trace.count Event.restart = 0 →
      smartReconnect lib env g = forcedRejoin (forceRejoin lib) env g1 trace →
      (smartReconnect lib env g).result = false ∧
      (smartReconnect lib env g).globals.lorawan_status = LoRaWANStatus.LORAWAN_DISCONNECTED ∧
      (smartReconnect lib env g).trace.count Event.forceRejoin = 3 ∧
      (smartReconnect lib env g).trace.count Event.restart = 1 ∧
      ∃ before, (smartReconnect lib env g).trace = before ++ [Event.restart] ∧
        before.count Event.forceRejoin = 3 ∧ before.count Event.restart = 0 := by
    intro g1 trace hc1 hc2 heq
    obtain ⟨h1, h2, before, h3, h4, h5⟩ := forcedRejoin_all_fail lib env g1 trace hfail
    rw [heq]
    rw [hc1] at h4
    rw [hc2] at h5
    refine ⟨h1, h2, ?_, ?_, before, h3, by omega, h5⟩
    · rw [h3, List.count_append, h4]
      decide
    · rw [h3, List.count_append, h5]
      decide
  have c1 : (resetRadioHardwareTrace ++
      [Event.isActivated, Event.beginOTAA, Event.isActivated]).count Event.forceRejoin = 0 := by
    decide
  have c2 : (resetRadioHardwareTrace ++
      [Event.isActivated, Event.beginOTAA, Event.isActivated]).count Event.restart = 0 := by
    decide
  have c3 : (resetRadioHardwareTrace ++ [Event.isActivated]).count Event.forceRejoin = 0 := by
    decide
  have c4 : (resetRadioHardwareTrace ++ [Event.isActivated]).count Event.restart = 0 := by
    decide
  by_cases hcsf : 2 ≤ g.consecutive_send_failures
  · have hr := hreset hcsf
    by_cases hb : env.activatedBefore = true
    · apply key 
        { g with last_rejoin_attempt := env.currentTime % 4294967296,
                 lorawan_status := LoRaWANStatus.LORAWAN_CONNECTING }
        _ c3 c4
      unfold smartReconnect
      simp [hgate2, hcsf, resetRadioHardware, hr, hb]
    · have ha : env.activatedAfter = false := by
        rcases hrestore with h | h
        · exact absurd h hb
        · exact h
      apply key 
        { g with last_rejoin_attempt := env.currentTime % 4294967296,
                 lorawan_status := LoRaWANStatus.LORAWAN_CONNECTING }
        _ c1 c2
      unfold smartReconnect
      simp [hgate2, hcsf, resetRadioHardware, hr, hb, ha]
  · by_cases hb : env.activatedBefore = true
    · apply key 
        { g with last_rejoin_attempt := env.currentTime % 4294967296,
                 lorawan_status := LoRaWANStatus.LORAWAN_CONNECTING }
        [Event.isActivated] (by decide) (by decide)
      unfold smartReconnect
      simp [hgate2, hcsf, hb]
    · have ha : env.activatedAfter = false := by
        rcases hrestore with h | h
        · exact absurd h hb
        · exact h
      apply key 
        { g with last_rejoin_attempt := env.currentTime % 4294967296,
                 lorawan_status := LoRaWANStatus.LORAWAN_CONNECTING }
        [Event.isActivated, Event.beginOTAA, Event.isActivated] (by decide)
        (by decide)
      unfold smartReconnect
      simp [hgate2, hcsf, hb, ha]

theorem smartReconnect_exhaustion_witness :
    ¬ ((envJoinRefused.currentTime : Int) -
        ((globalsAfterFailures 5 0).last_rejoin_attempt : Int)) % 2 ^ 32 < 30000 ∧
    envJoinRefused.resetRadioState = sampleLib.RADIOLIB_ERR_NONE ∧
    envJoinRefused.activatedAfter = false ∧
    (smartReconnect sampleLib envJoinRefused (globalsAfterFailures 5 0)).result = false ∧
    (smartReconnect sampleLib envJoinRefused (globalsAfterFailures 5 0)).globals.lorawan_status =
      LoRaWANStatus.LORAWAN_DISCONNECTED ∧
    (smartReconnect sampleLib envJoinRefused (globalsAfterFailures 5 0)).trace.count
      Event.forceRejoin = 3 ∧
    (smartReconnect sampleLib envJoinRefused (globalsAfterFailures 5 0)).trace.count
      Event.restart = 1 :=
  have hrefused : (-1116 : Int) ≠ -1118 := by decide
  have h := smartReconnect_exhaustion sampleLib envJoinRefused (globalsAfterFailures 5 0)
    (by decide) (fun _ => rfl) (Or.inr rfl) (fun _ _ _ => Or.inr hrefused)
  ⟨by decide, rfl, rfl, h.1, h.2.1, h.2.2.1, h.2.2.2.1⟩


/-! ## Packet layout of the 16-byte encoder -/

/-- C11 (evaluation at the failing input): the I2C response with raw temperature 103 is valid
and decodes to the `float` nearest to -39.7, which is -10407117/262144 = -39.70000076...; the
nearest integer to `(t + 40) * 10 = 2.99999...` is 3, but the truncating cast of the encoder
writes 2 into bytes 0-1. -/
theorem encodeSensorData_truncates_minus39_7 :
    (readAM1008Data 0x28 responseMinus39_7).valid = true ∧
    ∃ n : Int, (readAM1008Data 0x28 responseMinus39_7).temperature = F32.fin n ∧
      F32.val n = -10407117 / 262144 ∧
      round ((F32.val n + 40) * 10) = 3 ∧
      field16 (encodeSensorData (readSensors true
        (readAM1008Data 0x28 responseMinus39_7)) 0) 0 = 2 := by
  have hvalid : (readAM1008Data 0x28 responseMinus39_7).valid = true := by decide!
  have hfield : field16 (encodeSensorData (readSensors true
      (readAM1008Data 0x28 responseMinus39_7)) 0) 0 = 2 := by decide!
  have htemp : (readAM1008Data 0x28 responseMinus39_7).temperature =
      F32.fin (-10407117 * 2 ^ 131) := by decide!
  have hval : F32.val (-10407117 * 2 ^ 131) = -10407117 / 262144 := by
    unfold F32.val
    norm_num
  refine ⟨hvalid, -10407117 * 2 ^ 131, htemp, hval, ?_, hfield⟩
  rw [hval, round_eq, Int.floor_eq_iff]
  norm_num

/-- C12: wire layout of the 16-byte packet.  For an available, valid frame whose integer fields
hold values of their C types and a counter `c` of type `uint8_t`, CO2 is at bytes 4-5, PM2.5 at
6-7, PM10 at 8-9 and PM1.0 at 10-11, each big-endian and decoding back to the original value;
the VOC level is byte 12, the failure counter (`min c 255`, which is `c`) byte 14, and byte 15
is 0. -/
theorem encodeSensorData_layout (data : SensorData) (c : Nat)
    (havail : data.am1008_available = true) (hvalid : data.am1008.valid = true)
    (htyped : data.WellTyped) (hc : c < 256) :
    field16 (encodeSensorData data c) 4 = data.am1008.co2 ∧
    field16 (encodeSensorData data c) 6 = data.am1008.pm2_5 ∧
    field16 (encodeSensorData data c) 8 = data.am1008.pm10 ∧
    field16 (encodeSensorData data c) 10 = data.am1008.pm1_0 ∧
    (∀ i, 4 ≤ i → i < 12 → (encodeSensorData data c).getD i 0 < 256) ∧
    (encodeSensorData data c).getD 12 0 = data.am1008.voc_level ∧
    (encodeSensorData data c).getD 14 0 = min c 255 ∧
    (encodeSensorData data c).getD 15 0 = 0 := by
  obtain ⟨h1, h2, h3, h4, h5⟩ := htyped
  have hand : ∀ x : Nat, x &&& 255 = x % 256 := fun x => Nat.and_pow_two_sub_one_eq_mod x 8
  unfold encodeSensorData field16
  simp only [havail, hvalid, Bool.and_self, if_true, List.getD_cons_zero, List.getD_cons_succ,
    Nat.zero_add, Nat.mod_eq_of_lt h1, Nat.mod_eq_of_lt h2, Nat.mod_eq_of_lt h3,
    Nat.mod_eq_of_lt h4, Nat.mod_eq_of_lt h5, Nat.mod_eq_of_lt hc]
  refine ⟨split16 h1, split16 h4, split16 h5, split16 h3, ?_, trivial, by omega, trivial⟩
  intro i hi4 hi12
  have hcases : i = 4 ∨ i = 5 ∨ i = 6 ∨ i = 7 ∨ i = 8 ∨ i = 9 ∨ i = 10 ∨ i = 11 := by omega
  rcases hcases with rfl | rfl | rfl | rfl | rfl | rfl | rfl | rfl <;>
    simp only [List.getD_cons_zero, List.getD_cons_succ, hand] <;> omega

theorem encodeSensorData_layout_witness :
    frameRoom.am1008_available = true ∧ frameRoom.am1008.valid = true ∧
    frameRoom.WellTyped ∧ 4 < 256 ∧
    field16 (encodeSensorData frameRoom 4) 4 = frameRoom.am1008.co2 ∧
    field16 (encodeSensorData frameRoom 4) 6 = frameRoom.am1008.pm2_5 ∧
    field16 (encodeSensorData frameRoom 4) 8 = frameRoom.am1008.pm10 ∧
    field16 (encodeSensorData frameRoom 4) 10 = frameRoom.am1008.pm1_0 ∧
    (∀ i, 4 ≤ i → i < 12 → (encodeSensorData frameRoom 4).getD i 0 < 256) ∧
    (encodeSensorData frameRoom 4).getD 12 0 = frameRoom.am1008.voc_level ∧
    (encodeSensorData frameRoom 4).getD 14 0 = min 4 255 ∧
    (encodeSensorData frameRoom 4).getD 15 0 = 0 :=
  have htyped : frameRoom.WellTyped := by
    unfold SensorData.WellTyped
    decide
  ⟨rfl, rfl, htyped, by decide,
    encodeSensorData_layout frameRoom 4 rfl rfl htyped (by decide)⟩

/-- C13: availability/validity bitmask.  For every frame, bit 0 of byte 13 is set iff
`am1008_available`, bit 1 is set iff `am1008.valid` (each for both values of the other flag),
and bits 2-7 are clear. -/
theorem encodeSensorData_bitmask (data : SensorData) (c : Nat) :
    ((encodeSensorData data c).getD 13 0).testBit 0 = data.am1008_available ∧
    ((encodeSensorData data c).getD 13 0).testBit 1 = data.am1008.valid ∧
    ∀ i, 2 ≤ i → ((encodeSensorData data c).getD 13 0).testBit i = false := by
  have hbyte : (encodeSensorData data c).getD 13 0 =
      (if data.am1008_available then 0x01 else 0) ||| (if data.am1008.valid then 0x02 else 0) := by
    unfold encodeSensorData
    simp only [List.getD_cons_zero, List.getD_cons_succ]
  rw [hbyte]
  have hlt : ∀ b : Nat, b < 4 → ∀ i, 2 ≤ i → b.testBit i = false := by
    intro b hb i hi
    apply Nat.testBit_lt_two_pow
    calc b < 2 ^ 2 := hb
      _ ≤ 2 ^ i := Nat.pow_le_pow_right (by norm_num) hi
  cases data.am1008_available <;> cases data.am1008.valid <;>
    exact ⟨by decide, by decide, hlt _ (by decide)⟩


/-! ## Two-sensor variant: defaults instead of a sentinel -/

/-- The six 16-bit fields of the 13-byte packet are the truncated affine images of the six
values of the frame. -/
theorem Stabilize.encodeSensorData_fields (d : Stabilize.SensorData) (c : Nat) :
    field16 (Stabilize.encodeSensorData d c) 0 =
      F32.toUInt16 (F32.mul (F32.add d.temperature_bme (F32.ofInt 40)) (F32.ofInt 10)) ∧
    field16 (Stabilize.encodeSensorData d c) 2 =
      F32.toUInt16 (F32.mul d.humidity (F32.ofInt 10)) ∧
    field16 (Stabilize.encodeSensorData d c) 4 =
      F32.toUInt16 (F32.mul (F32.sub d.pressure_bme (F32.ofInt 800)) (F32.ofInt 10)) ∧
    field16 (Stabilize.encodeSensorData d c) 6 =
      F32.toUInt16 (F32.mul (F32.add d.temperature_bmp (F32.ofInt 40)) (F32.ofInt 10)) ∧
    field16 (Stabilize.encodeSensorData d c) 8 =
      F32.toUInt16 (F32.mul (F32.sub d.pressure_bmp (F32.ofInt 800)) (F32.ofInt 10)) ∧
    field16 (Stabilize.encodeSensorData d c) 10 =
      F32.toUInt16 (F32.add d.altitude (F32.ofInt 500)) := by
  unfold Stabilize.encodeSensorData Stabilize.encodeSensorDataWrites field16
  simp only [List.map_cons, List.map_nil, List.getD_cons_zero, List.getD_cons_succ, Nat.zero_add]
  exact ⟨split16 (F32.toUInt16_lt _), split16 (F32.toUInt16_lt _), split16 (F32.toUInt16_lt _),
    split16 (F32.toUInt16_lt _), split16 (F32.toUInt16_lt _), split16 (F32.toUInt16_lt _)⟩

/-- C16 (as stated, refuted): with both sensors unavailable and the drivers returning NaN, it is
not the case that the six fields of the 13-byte packet are the sentinel 0xFFFF; they are 400,
0, 2132, 400, 2132 and 500, the encodings of the defaults 0.0, 0.0, 1013.25 and 0.0. -/
theorem Stabilize.absent_not_sentinel :
    ¬ (field16 (Stabilize.encodeSensorData
          (Stabilize.readSensors false false Stabilize.readingsNaN) 0) 0 = 0xFFFF ∧
       field16 (Stabilize.encodeSensorData
          (Stabilize.readSensors false false Stabilize.readingsNaN) 0) 2 = 0xFFFF ∧
       field16 (Stabilize.encodeSensorData
          (Stabilize.readSensors false false Stabilize.readingsNaN) 0) 4 = 0xFFFF ∧
       field16 (Stabilize.encodeSensorData
          (Stabilize.readSensors false false Stabilize.readingsNaN) 0) 6 = 0xFFFF ∧
       field16 (Stabilize.encodeSensorData
          (Stabilize.readSensors false false Stabilize.readingsNaN) 0) 8 = 0xFFFF ∧
       field16 (Stabilize.encodeSensorData
          (Stabilize.readSensors false false Stabilize.readingsNaN) 0) 10 = 0xFFFF) := by
  have h : field16 (Stabilize.encodeSensorData
      (Stabilize.readSensors false false Stabilize.readingsNaN) 0) 0 = 400 := by decide!
  intro hall
  rw [h] at hall
  exact absurd hall.1 (by decide)


/-- C16 (amended): the 13-byte variant has no sentinel.  A BME280 temperature, humidity or
pressure that is absent (sensor unavailable) or fails validation (NaN or out of range) is
replaced by the default 0.0, 0.0 resp. 1013.25 and encoded as 400, 0 resp. 2132; a BMP390
temperature or pressure that is absent (sensor unavailable, read failed) or fails validation is
replaced by the BME280 value, so its field repeats the BME280 field; an absent or invalid
altitude is replaced by 0.0 and encoded as 500. -/
theorem Stabilize.defaults_encoded (bme bmp : Bool) (r : Stabilize.Readings) (c : Nat) :
    ((bme = false ∨ Stabilize.invalid r.bme_temperature (-40) 85 = true) →
      (Stabilize.readSensors bme bmp r).temperature_bme = F32.fin 0 ∧
      field16 (Stabilize.encodeSensorData (Stabilize.readSensors bme bmp r) c) 0 = 400) ∧
    ((bme = false ∨ Stabilize.invalid r.bme_humidity 0 100 = true) →
      (Stabilize.readSensors bme bmp r).humidity = F32.fin 0 ∧
      field16 (Stabilize.encodeSensorData (Stabilize.readSensors bme bmp r) c) 2 = 0) ∧
    ((bme = false ∨ Stabilize.invalid r.bme_pressure 800 1200 = true) →
      (Stabilize.readSensors bme bmp r).pressure_bme = Stabilize.defaultPressure ∧
      field16 (Stabilize.encodeSensorData (Stabilize.readSensors bme bmp r) c) 4 = 2132) ∧
    ((bmp = false ∨ r.bmp_performReading = false ∨
        Stabilize.invalid r.bmp_temperature (-40) 85 = true) →
      (Stabilize.readSensors bme bmp r).temperature_bmp =
        (Stabilize.readSensors bme bmp r).temperature_bme ∧
      field16 (Stabilize.encodeSensorData (Stabilize.readSensors bme bmp r) c) 6 =
        field16 (Stabilize.encodeSensorData (Stabilize.readSensors bme bmp r) c) 0) ∧
    ((bmp = false ∨ r.bmp_performReading = false ∨
        Stabilize.invalid r.bmp_pressure 800 1200 = true) →
      (Stabilize.readSensors bme bmp r).pressure_bmp =
        (Stabilize.readSensors bme bmp r).pressure_bme ∧
      field16 (Stabilize.encodeSensorData (Stabilize.readSensors bme bmp r) c) 8 =
        field16 (Stabilize.encodeSensorData (Stabilize.readSensors bme bmp r) c) 4) ∧
    ((bmp = false ∨ r.bmp_performReading = false ∨
        Stabilize.invalid r.bmp_altitude (-500) 4000 = true) →
      (Stabilize.readSensors bme bmp r).altitude = F32.fin 0 ∧
      field16 (Stabilize.encodeSensorData (Stabilize.readSensors bme bmp r) c) 10 = 500) := by
  obtain ⟨f0, f2, f4, f6, f8, f10⟩ :=
    Stabilize.encodeSensorData_fields (Stabilize.readSensors bme bmp r) c
  have c400 : F32.toUInt16 (F32.mul (F32.add (F32.fin 0) (F32.ofInt 40)) (F32.ofInt 10)) = 400 := by
    decide!
  have c0 : F32.toUInt16 (F32.mul (F32.fin 0) (F32.ofInt 10)) = 0 := by decide!
  have c2132 : F32.toUInt16 (F32.mul (F32.sub Stabilize.defaultPressure (F32.ofInt 800))
      (F32.ofInt 10)) = 2132 := by decide!
  have c500 : F32.toUInt16 (F32.add (F32.fin 0) (F32.ofInt 500)) = 500 := by decide!
  refine ⟨?_, ?_, ?_, ?_, ?_, ?_⟩
  · intro h
    have hd : (Stabilize.readSensors bme bmp r).temperature_bme = F32.fin 0 := by
      unfold Stabilize.readSensors
      rcases h with h | h <;> simp [h]
    exact ⟨hd, by rw [f0, hd, c400]⟩
  · intro h
    have hd : (Stabilize.readSensors bme bmp r).humidity = F32.fin 0 := by
      unfold Stabilize.readSensors
      rcases h with h | h <;> simp [h]
    exact ⟨hd, by rw [f2, hd, c0]⟩
  · intro h
    have hd : (Stabilize.readSensors bme bmp r).pressure_bme = Stabilize.defaultPressure := by
      unfold Stabilize.readSensors
      rcases h with h | h <;> simp [h]
    exact ⟨hd, by rw [f4, hd, c2132]⟩
  · intro h
    have hd : (Stabilize.readSensors bme bmp r).temperature_bmp =
        (Stabilize.readSensors bme bmp r).temperature_bme := by
      unfold Stabilize.readSensors
      rcases h with h | h | h <;> simp [h]
    exact ⟨hd, by rw [f6, f0, hd]⟩
  · intro h
    have hd : (Stabilize.readSensors bme bmp r).pressure_bmp =
        (Stabilize.readSensors bme bmp r).pressure_bme := by
      unfold Stabilize.readSensors
      rcases h with h | h | h <;> simp [h]
    exact ⟨hd, by rw [f8, f4, hd]⟩
  · intro h
    have hd : (Stabilize.readSensors bme bmp r).altitude = F32.fin 0 := by
      unfold Stabilize.readSensors
      rcases h with h | h | h <;> simp [h]
    exact ⟨hd, by rw [f10, hd, c500]⟩

theorem Stabilize.defaults_encoded_witness :
    Stabilize.invalid Stabilize.readingsNaN.bme_temperature (-40) 85 = true ∧
    (Stabilize.readSensors true false Stabilize.readingsNaN).temperature_bme = F32.fin 0 ∧
    field16 (Stabilize.encodeSensorData
      (Stabilize.readSensors true false Stabilize.readingsNaN) 3) 0 = 400 :=
  ⟨rfl, (Stabilize.defaults_encoded true false Stabilize.readingsNaN 3).1 (Or.inr rfl)⟩


/-! ## Numeric decoding of the I2C response -/

/-- The magnitude of `(float)(K / 10.0)` never crosses a threshold `c / 1024` with
`c < 2^24`. -/
theorem div10_le_fine {K c : Nat} (hc : c < 2 ^ 24) (h : 1024 * K ≤ 10 * c) :
    roundMant 24 (roundMant 53 (K * 2 ^ 1074) 10) (2 ^ 925) ≤ c * 2 ^ 139 := by
  have hc53 : c < 2 ^ 53 := by
    have : (2 : Nat) ^ 24 ≤ 2 ^ 53 := Nat.pow_le_pow_right (by norm_num) (by norm_num)
    omega
  have hd : roundMant 53 (K * 2 ^ 1074) 10 ≤ c * 2 ^ 1064 := by
    apply roundMant_le (by norm_num) hc53
    rw [show (1074 : Nat) = 1064 + 10 from rfl, pow_add, show (2 : Nat) ^ 10 = 1024 from rfl]
    calc K * (2 ^ 1064 * 1024) = (1024 * K) * 2 ^ 1064 := by ring
      _ ≤ (10 * c) * 2 ^ 1064 := Nat.mul_le_mul_right _ h
      _ = c * 2 ^ 1064 * 10 := by ring
  apply roundMant_le (Nat.two_pow_pos _) hc
  calc roundMant 53 (K * 2 ^ 1074) 10 ≤ c * 2 ^ 1064 := hd
    _ = c * 2 ^ 139 * 2 ^ 925 := by
        rw [show (1064 : Nat) = 139 + 925 from rfl, pow_add]; ring

theorem le_div10_fine {K c : Nat} (hc : c < 2 ^ 24) (h : 10 * c ≤ 1024 * K) :
    c * 2 ^ 139 ≤ roundMant 24 (roundMant 53 (K * 2 ^ 1074) 10) (2 ^ 925) := by
  have hc53 : c < 2 ^ 53 := by
    have : (2 : Nat) ^ 24 ≤ 2 ^ 53 := Nat.pow_le_pow_right (by norm_num) (by norm_num)
    omega
  have hd : c * 2 ^ 1064 ≤ roundMant 53 (K * 2 ^ 1074) 10 := by
    apply le_roundMant (by norm_num) (by norm_num) hc53
    rw [show (1074 : Nat) = 1064 + 10 from rfl, pow_add, show (2 : Nat) ^ 10 = 1024 from rfl]
    calc c * 2 ^ 1064 * 10 = (10 * c) * 2 ^ 1064 := by ring
      _ ≤ (1024 * K) * 2 ^ 1064 := Nat.mul_le_mul_right _ h
      _ = K * (2 ^ 1064 * 1024) := by ring
  apply le_roundMant (Nat.two_pow_pos _) (by norm_num) hc
  calc c * 2 ^ 139 * 2 ^ 925 = c * 2 ^ 1064 := by
        rw [show (1064 : Nat) = 139 + 925 from rfl, pow_add]; ring
    _ ≤ roundMant 53 (K * 2 ^ 1074) 10 := hd

/-- The value of `(float)(k / 10.0)` for a 17-bit integer `k`, in closed form. -/
theorem F32.ofIntDiv10_eq (k : Int) (hk : k.natAbs ≤ 65535) :
    F32.ofIntDiv10 k = F32.fin (if k < 0 then
      -((roundMant 24 (roundMant 53 (k.natAbs * 2 ^ 1074) 10) (2 ^ 925) : Nat) : Int)
      else ((roundMant 24 (roundMant 53 (k.natAbs * 2 ^ 1074) 10) (2 ^ 925) : Nat) : Int)) := by
  have hle := @div10_le k.natAbs (2 ^ 20) (by norm_num) (by norm_num; omega)
  have hov : roundMant 24 (roundMant 53 (k.natAbs * 2 ^ 1074) 10) (2 ^ 925) < F32.overflow := by
    unfold F32.overflow
    have h1 : (2 : Nat) ^ 20 * 2 ^ 145 < 2 ^ 128 * 2 ^ 149 :=
      Nat.mul_lt_mul_of_lt_of_le (Nat.pow_lt_pow_right (by norm_num) (by norm_num))
        (Nat.pow_le_pow_right (by norm_num) (by norm_num)) (Nat.two_pow_pos _)
    omega
  unfold F32.ofIntDiv10
  simp only
  rw [F32.round_eq_fin _ hov]
  simp only [decide_eq_true_eq]

/-- The `float` computed by `k / 10.0` for a 17-bit integer `k` is finite and within `2^-10` of
the exact quotient `k / 10`. -/
theorem F32.ofIntDiv10_close (k : Int) (hk : k.natAbs ≤ 65535) :
    ∃ n : Int, F32.ofIntDiv10 k = F32.fin n ∧ |F32.val n - (k : ℚ) / 10| ≤ 1 / 1024 := by
  refine ⟨_, F32.ofIntDiv10_eq k hk, ?_⟩
  have hlo := @le_div10_fine k.natAbs (1024 * k.natAbs / 10) (by norm_num; omega) (by omega)
  have hhi := @div10_le_fine k.natAbs (1024 * k.natAbs / 10 + 1) (by norm_num; omega) (by omega)
  generalize roundMant 24 (roundMant 53 (k.natAbs * 2 ^ 1074) 10) (2 ^ 925) = M at hlo hhi ⊢
  have hK1 : 10 * (1024 * k.natAbs / 10) ≤ 1024 * k.natAbs := by omega
  have hK2 : 1024 * k.natAbs ≤ 10 * (1024 * k.natAbs / 10 + 1) := by omega
  generalize 1024 * k.natAbs / 10 = c at hlo hhi hK1 hK2
  have hU : (0 : ℚ) < 2 ^ 139 := by positivity
  have e149 : (2 : ℚ) ^ 149 = 1024 * 2 ^ 139 := by
    rw [show (149 : Nat) = 10 + 139 from rfl, pow_add]
    norm_num
  have qlo : (c : ℚ) * 2 ^ 139 ≤ (M : ℚ) := by exact_mod_cast hlo
  have qhi : (M : ℚ) ≤ ((c : ℚ) + 1) * 2 ^ 139 := by exact_mod_cast hhi
  have qK1 : 10 * (c : ℚ) ≤ 1024 * (k.natAbs : ℚ) := by exact_mod_cast hK1
  have qK2 : 1024 * (k.natAbs : ℚ) ≤ 10 * ((c : ℚ) + 1) := by exact_mod_cast hK2
  have zlo : (c : ℚ) ≤ (M : ℚ) / 2 ^ 139 := (le_div_iff₀ hU).2 qlo
  have zhi : (M : ℚ) / 2 ^ 139 ≤ (c : ℚ) + 1 := (div_le_iff₀ hU).2 qhi
  have hval : ∀ x : ℚ, x / 2 ^ 149 = x / 2 ^ 139 / 1024 := by
    intro x
    rw [e149, div_div, mul_comm]
  unfold F32.val
  rw [abs_le]
  by_cases hneg : k < 0
  · have hk' : (k : ℚ) = -(k.natAbs : ℚ) := by
      have h1 : (k : Int) = -((k.natAbs : Nat) : Int) := by omega
      have h2 : ((k : Int) : ℚ) = ((-((k.natAbs : Nat) : Int) : Int) : ℚ) := congrArg _ h1
      rw [h2, Int.cast_neg, Int.cast_natCast]
    simp only [hneg, if_true, Int.cast_neg, Int.cast_natCast, hk']
    rw [neg_div, hval]
    constructor <;> linarith
  · have hk' : (k : ℚ) = (k.natAbs : ℚ) := by
      have h1 : (k : Int) = ((k.natAbs : Nat) : Int) := by omega
      have h2 : ((k : Int) : ℚ) = ((((k.natAbs : Nat) : Int) : Int) : ℚ) := congrArg _ h1
      rw [h2, Int.cast_natCast]
    simp only [hneg, if_false, Int.cast_natCast, hk']
    rw [hval]
    constructor <;> linarith


/-- With a detected sensor and a 25-byte response carrying the header 0x16 0x19,
`readAM1008Data` returns the seven decoded fields and the outcome of the range check. -/
theorem readAM1008Data_eq (addr : Nat) (resp : List Nat) (haddr : addr ≠ 0)
    (hresp : IsResponse resp) (h0 : resp.getD 0 0 = 0x16) (h1 : resp.getD 1 0 = 0x19) :
    readAM1008Data addr resp =
      { temperature := F32.ofIntDiv10 (((256 * resp.getD 9 0 + resp.getD 10 0 : Nat) : Int) - 500),
        humidity := F32.ofIntDiv10 ((256 * resp.getD 7 0 + resp.getD 8 0 : Nat) : Int),
        co2 := 256 * resp.getD 3 0 + resp.getD 4 0,
        voc_level := resp.getD 5 0,
        pm1_0 := 256 * resp.getD 11 0 + resp.getD 12 0,
        pm2_5 := 256 * resp.getD 13 0 + resp.getD 14 0,
        pm10 := 256 * resp.getD 15 0 + resp.getD 16 0,
        valid := decide (256 * resp.getD 3 0 + resp.getD 4 0 ≤ 5000 ∧
          256 * resp.getD 7 0 + resp.getD 8 0 ≤ 1000 ∧
          100 ≤ 256 * resp.getD 9 0 + resp.getD 10 0 ∧
          256 * resp.getD 9 0 + resp.getD 10 0 ≤ 1350 ∧
          256 * resp.getD 11 0 + resp.getD 12 0 ≤ 1000 ∧
          256 * resp.getD 13 0 + resp.getD 14 0 ≤ 1000 ∧
          256 * resp.getD 15 0 + resp.getD 16 0 ≤ 1000 ∧
          resp.getD 5 0 ≤ 3) } := by
  have hlen : ¬ resp.length < 25 := by
    have := hresp.1
    omega
  have hb : ∀ i, resp.getD i 0 < 256 := getD_lt_of_response hresp
  have hhum := humidity_check (256 * resp.getD 7 0 + resp.getD 8 0)
    (by have := hb 7; have := hb 8; omega)
  have htemp := temperature_check (256 * resp.getD 9 0 + resp.getD 10 0)
    (by have := hb 9; have := hb 10; omega)
  unfold readAM1008Data
  simp only [if_neg haddr, if_neg hlen, byteAt_response hresp, h0, h1, and_self, if_true,
    be16_eq (hb 3) (hb 4), be16_eq (hb 7) (hb 8), be16_eq (hb 9) (hb 10),
    be16_eq (hb 11) (hb 12), be16_eq (hb 13) (hb 14), be16_eq (hb 15) (hb 16)]
  congr 1
  rw [decide_eq_decide]
  rw [htemp.1, htemp.2, hhum.2]
  simp only [hhum.1, true_and]


/-- C15: numeric decoding of the I2C variant.  For a detected sensor and every 25-byte response
with header 0x16 0x19, the fields are decoded big-endian: CO2 from bytes 3-4, the VOC level from
byte 5, PM1.0, PM2.5 and PM10 from bytes 11-12, 13-14 and 15-16; humidity and temperature are
the `float` results of `(256*b7 + b8) / 10.0` and `(256*b9 + b10 - 500) / 10.0`, each within
`2^-10` of the exact quotient.  The seven values are those of Method 3 of the parsing test.
When every field is in range the reading is valid, and a response beginning 16 19 00 00 C8 has
a gas concentration of 200 ppm. -/
theorem readAM1008Data_decoding (addr : Nat) (resp : List Nat) (haddr : addr ≠ 0)
    (hresp : IsResponse resp) (h0 : resp.getD 0 0 = 0x16) (h1 : resp.getD 1 0 = 0x19) :
    (readAM1008Data addr resp).co2 = 256 * resp.getD 3 0 + resp.getD 4 0 ∧
    (readAM1008Data addr resp).voc_level = resp.getD 5 0 ∧
    (readAM1008Data addr resp).humidity =
      F32.ofIntDiv10 ((256 * resp.getD 7 0 + resp.getD 8 0 : Nat) : Int) ∧
    (readAM1008Data addr resp).temperature =
      F32.ofIntDiv10 (((256 * resp.getD 9 0 + resp.getD 10 0 : Nat) : Int) - 500) ∧
    (readAM1008Data addr resp).pm1_0 = 256 * resp.getD 11 0 + resp.getD 12 0 ∧
    (readAM1008Data addr resp).pm2_5 = 256 * resp.getD 13 0 + resp.getD 14 0 ∧
    (readAM1008Data addr resp).pm10 = 256 * resp.getD 15 0 + resp.getD 16 0 ∧
    (∃ h : Int, (readAM1008Data addr resp).humidity = F32.fin h ∧
      |F32.val h - (256 * (resp.getD 7 0 : ℚ) + (resp.getD 8 0 : ℚ)) / 10| ≤ 1 / 1024) ∧
    (∃ t : Int, (readAM1008Data addr resp).temperature = F32.fin t ∧
      |F32.val t - (256 * (resp.getD 9 0 : ℚ) + (resp.getD 10 0 : ℚ) - 500) / 10|
        ≤ 1 / 1024) ∧
    (∃ m : AM1008Data, ParsingTest.method3 resp = some m ∧
      m.co2 = (readAM1008Data addr resp).co2 ∧
      m.voc_level = (readAM1008Data addr resp).voc_level ∧
      m.humidity = (readAM1008Data addr resp).humidity ∧
      m.temperature = (readAM1008Data addr resp).temperature ∧
      m.pm1_0 = (readAM1008Data addr resp).pm1_0 ∧
      m.pm2_5 = (readAM1008Data addr resp).pm2_5 ∧
      m.pm10 = (readAM1008Data addr resp).pm10) ∧
    ((256 * resp.getD 3 0 + resp.getD 4 0 ≤ 5000 ∧
        256 * resp.getD 7 0 + resp.getD 8 0 ≤ 1000 ∧
        100 ≤ 256 * resp.getD 9 0 + resp.getD 10 0 ∧
        256 * resp.getD 9 0 + resp.getD 10 0 ≤ 1350 ∧
        256 * resp.getD 11 0 + resp.getD 12 0 ≤ 1000 ∧
        256 * resp.getD 13 0 + resp.getD 14 0 ≤ 1000 ∧
        256 * resp.getD 15 0 + resp.getD 16 0 ≤ 1000 ∧
        resp.getD 5 0 ≤ 3) →
      (readAM1008Data addr resp).valid = true) ∧
    (resp.getD 3 0 = 0x00 → resp.getD 4 0 = 0xC8 → (readAM1008Data addr resp).co2 = 200) := by
  have hb : ∀ i, resp.getD i 0 < 256 := getD_lt_of_response hresp
  have hlen : resp.length ≥ 25 := by
    have := hresp.1
    omega
  rw [readAM1008Data_eq addr resp haddr hresp h0 h1]
  refine ⟨rfl, rfl, rfl, rfl, rfl, rfl, rfl, ?_, ?_, ?_, ?_, ?_⟩
  · obtain ⟨n, hn, hclose⟩ := F32.ofIntDiv10_close
      ((256 * resp.getD 7 0 + resp.getD 8 0 : Nat) : Int)
      (by have := hb 7; have := hb 8; omega)
    refine ⟨n, hn, ?_⟩
    have e : (((256 * resp.getD 7 0 + resp.getD 8 0 : Nat) : Int) : ℚ) =
        256 * (resp.getD 7 0 : ℚ) + (resp.getD 8 0 : ℚ) := by push_cast; ring
    rw [← e]
    exact hclose
  · obtain ⟨n, hn, hclose⟩ := F32.ofIntDiv10_close
      (((256 * resp.getD 9 0 + resp.getD 10 0 : Nat) : Int) - 500)
      (by have := hb 9; have := hb 10; omega)
    refine ⟨n, hn, ?_⟩
    have e : ((((256 * resp.getD 9 0 + resp.getD 10 0 : Nat) : Int) - 500 : Int) : ℚ) =
        256 * (resp.getD 9 0 : ℚ) + (resp.getD 10 0 : ℚ) - 500 := by push_cast; ring
    rw [← e]
    exact hclose
  · unfold ParsingTest.method3
    simp only [hlen, if_true, byteAt_response hresp,
      be16_eq (hb 3) (hb 4), be16_eq (hb 7) (hb 8), be16_eq (hb 9) (hb 10),
      be16_eq (hb 11) (hb 12), be16_eq (hb 13) (hb 14), be16_eq (hb 15) (hb 16)]
    have h5 : resp.getD 5 0 % 65536 = resp.getD 5 0 := by
      have := hb 5
      omega
    exact ⟨_, rfl, rfl, h5, rfl, rfl, rfl, rfl, rfl⟩
  · intro hall
    simpa using hall
  · intro h3 h4
    show 256 * resp.getD 3 0 + resp.getD 4 0 = 200
    rw [h3, h4]

theorem readAM1008Data_decoding_witness :
    (0x28 : Nat) ≠ 0 ∧ IsResponse responseScenario ∧ responseScenario.getD 0 0 = 0x16 ∧
    responseScenario.getD 1 0 = 0x19 ∧
    (readAM1008Data 0x28 responseScenario).valid = true ∧
    (readAM1008Data 0x28 responseScenario).co2 = 200 :=
  have h := readAM1008Data_decoding 0x28 responseScenario (by decide) (by decide) (by decide)
    (by decide)
  ⟨by decide, by decide, by decide, by decide, h.2.2.2.2.2.2.2.2.2.2.1 (by decide),
    h.2.2.2.2.2.2.2.2.2.2.2 (by decide) (by decide)⟩


/-! ## The duty cycle -/

theorem forceRejoin_true_failures (lib : RadioLib) (env : RejoinEnv) (g : Globals)
    (h : (forceRejoin lib env g).result = true) :
    (forceRejoin lib env g).globals.consecutive_send_failures = 0 := by
  unfold forceRejoin at h ⊢
  split_ifs at h ⊢
  all_goals simp_all

theorem Stabilize.forceRejoin_resets_failures (lib : RadioLib) (env : RejoinEnv) (g : Globals)
    (h : (Stabilize.forceRejoin lib env g).result = true) :
    (Stabilize.forceRejoin lib env g).globals.consecutive_send_failures = 0 := by
  unfold Stabilize.forceRejoin at h ⊢
  split_ifs at h ⊢
  all_goals simp_all

theorem rejoinLoop_true_failures (rejoinFn : RejoinEnv → Globals → Outcome)
    (hfn : ∀ e g, (rejoinFn e g).result = true →
      (rejoinFn e g).globals.consecutive_send_failures = 0)
    (env : Nat → RejoinEnv) :
    ∀ (l : List Nat) (g : Globals) (trace : List Event),
      (rejoinLoop rejoinFn env l g trace).result = true →
      (rejoinLoop rejoinFn env l g trace).globals.consecutive_send_failures = 0 := by
  intro l
  induction l with
  | nil => intro g trace h; simp [rejoinLoop] at h
  | cons a rest ih =>
    intro g trace h
    unfold rejoinLoop at h ⊢
    by_cases hr : (rejoinFn (env a) g).result = true
    · simp only [hr, if_true] at h ⊢
      exact hfn _ _ hr
    · simp only [hr] at h ⊢
      exact ih _ _ h

theorem forcedRejoin_true_failures (rejoinFn : RejoinEnv → Globals → Outcome)
    (hfn : ∀ e g, (rejoinFn e g).result = true →
      (rejoinFn e g).globals.consecutive_send_failures = 0)
    (env : ReconnectEnv) (g : Globals) (trace : List Event)
    (h : (forcedRejoin rejoinFn env g trace).result = true) :
    (forcedRejoin rejoinFn env g trace).globals.consecutive_send_failures = 0 := by
  unfold forcedRejoin at h ⊢
  simp only at h ⊢
  by_cases hr : (rejoinLoop rejoinFn env.rejoin rejoinAttempts
      { g with lorawan_status := LoRaWANStatus.LORAWAN_REJOIN_NEEDED } trace).result = true
  · rw [if_pos hr] at h ⊢
    exact rejoinLoop_true_failures rejoinFn hfn _ _ _ _ hr
  · rw [if_neg hr] at h
    simp at h

theorem smartReconnect_true_failures (lib : RadioLib) (env : ReconnectEnv) (g : Globals)
    (h : (smartReconnect lib env g).result = true) :
    (smartReconnect lib env g).globals.consecutive_send_failures = 0 := by
  unfold smartReconnect at h ⊢
  simp only at h ⊢
  split_ifs at h ⊢
  all_goals first
    | (simp at h; done)
    | rfl
    | exact forcedRejoin_true_failures _ (forceRejoin_true_failures lib) _ _ _ h

theorem Stabilize.smartReconnect_resets_failures (lib : RadioLib) (env : ReconnectEnv)
    (g : Globals) (h : (Stabilize.smartReconnect lib env g).result = true) :
    (Stabilize.smartReconnect lib env g).globals.consecutive_send_failures = 0 := by
  unfold Stabilize.smartReconnect at h ⊢
  simp only at h ⊢
  split_ifs at h ⊢
  all_goals first
    | (simp at h; done)
    | rfl
    | exact forcedRejoin_true_failures _ (Stabilize.forceRejoin_resets_failures lib) _ _ _ h

/-! ## Sensor discovery -/

theorem detectLoop_probed_prefix (bus : Nat → ProbeEnv) :
    ∀ (l probed : List Nat), List.IsPrefix (detectLoop bus l probed).probed (probed ++ l) := by
  intro l
  induction l with
  | nil => intro probed; simp [detectLoop]
  | cons a rest ih =>
    intro probed
    unfold detectLoop
    by_cases h : probeAddress (bus a) = true
    · simp only [h, if_true]
      exact ⟨rest, by simp⟩
    · simp only [h]
      have := ih (probed ++ [a])
      simpa using this

theorem detectLoop_not_found (bus : Nat → ProbeEnv) :
    ∀ (l probed : List Nat), (detectLoop bus l probed).info.found = false →
      (detectLoop bus l probed).probed = probed ++ l := by
  intro l
  induction l with
  | nil => intro probed _; simp [detectLoop]
  | cons a rest ih =>
    intro probed hf
    unfold detectLoop at hf ⊢
    by_cases h : probeAddress (bus a) = true
    · simp [h] at hf
    · simp only [h] at hf ⊢
      have := ih (probed ++ [a]) hf
      simpa using this

theorem detectLoop_found (bus : Nat → ProbeEnv) :
    ∀ (l probed : List Nat), (detectLoop bus l probed).info.found = true →
      (detectLoop bus l probed).probed.getLast? = some (detectLoop bus l probed).info.address ∧
      probeAddress (bus (detectLoop bus l probed).info.address) = true := by
  intro l
  induction l with
  | nil => intro probed hf; simp [detectLoop] at hf
  | cons a rest ih =>
    intro probed hf
    unfold detectLoop at hf ⊢
    by_cases h : probeAddress (bus a) = true
    · rw [if_pos h]
      exact ⟨by simp, h⟩
    · simp only [h] at hf ⊢
      exact ih (probed ++ [a]) hf

/-- C20, counterexample: on a bus where nothing answers, `detectAM1008Sensor` tests 0x28 to
0x2F, then 0x50 to 0x57, then 0x30 to 0x37; the sequence is not strictly increasing, since 0x57
is followed by 0x30. -/
theorem detectAM1008Sensor_order_not_increasing :
    (detectAM1008Sensor silentBus).probed =
      [0x28, 0x29, 0x2A, 0x2B, 0x2C, 0x2D, 0x2E, 0x2F,
       0x50, 0x51, 0x52, 0x53, 0x54, 0x55, 0x56, 0x57,
       0x30, 0x31, 0x32, 0x33, 0x34, 0x35, 0x36, 0x37] ∧
    ¬ List.Pairwise (fun a b => a < b) (detectAM1008Sensor silentBus).probed ∧
    (detectAM1008Sensor silentBus).probed.getD 15 0 = 0x57 ∧
    (detectAM1008Sensor silentBus).probed.getD 16 0 = 0x30 := by
  decide

/-- C20, amended: whatever the bus answers, the addresses `detectAM1008Sensor` tests are an
initial part of the fixed sequence 0x28 to 0x2F, 0x50 to 0x57, 0x30 to 0x37 (the ranges in the
order of the table, each range in strictly increasing order); the whole sequence is tested
when no sensor is found, and when a sensor is found the address returned is the last one
tested and it passed the test. -/
theorem detectAM1008Sensor_probe_order (bus : Nat → ProbeEnv) :
    List.IsPrefix (detectAM1008Sensor bus).probed candidateAddresses ∧
    candidateAddresses =
      [0x28, 0x29, 0x2A, 0x2B, 0x2C, 0x2D, 0x2E, 0x2F,
       0x50, 0x51, 0x52, 0x53, 0x54, 0x55, 0x56, 0x57,
       0x30, 0x31, 0x32, 0x33, 0x34, 0x35, 0x36, 0x37] ∧
    (∀ r ∈ address_ranges, List.Pairwise (fun a b => a < b) (rangeAddresses r)) ∧
    ((detectAM1008Sensor bus).info.found = false →
      (detectAM1008Sensor bus).probed = candidateAddresses) ∧
    ((detectAM1008Sensor bus).info.found = true →
      (detectAM1008Sensor bus).probed.getLast? = some (detectAM1008Sensor bus).info.address ∧
      probeAddress (bus (detectAM1008Sensor bus).info.address) = true) := by
  refine ⟨?_, by decide, by decide, ?_, ?_⟩
  · simpa [detectAM1008Sensor] using detectLoop_probed_prefix bus candidateAddresses []
  · intro h
    simpa [detectAM1008Sensor] using detectLoop_not_found bus candidateAddresses [] h
  · intro h
    exact detectLoop_found bus candidateAddresses [] h

/-- On a bus where only 0x50 answers, with a valid response, the addresses tested are 0x28 to
0x2F and then 0x50, where the discovery stops. -/
theorem detectAM1008Sensor_probe_order_witness :
    (detectAM1008Sensor busAt0x50).info.found = true ∧
    (detectAM1008Sensor busAt0x50).probed =
      [0x28, 0x29, 0x2A, 0x2B, 0x2C, 0x2D, 0x2E, 0x2F, 0x50] ∧
    (detectAM1008Sensor busAt0x50).probed.getLast? =
      some (detectAM1008Sensor busAt0x50).info.address ∧
    List.IsPrefix (detectAM1008Sensor busAt0x50).probed candidateAddresses := by
  have hf : (detectAM1008Sensor busAt0x50).info.found = true := by decide!
  have hp : (detectAM1008Sensor busAt0x50).probed =
      [0x28, 0x29, 0x2A, 0x2B, 0x2C, 0x2D, 0x2E, 0x2F, 0x50] := by decide!
  exact ⟨hf, hp, ((detectAM1008Sensor_probe_order busAt0x50).2.2.2.2 hf).1,
    (detectAM1008Sensor_probe_order busAt0x50).1⟩


/-! ## Session restore and forced rejoin -/

/-- C21: session-restore path.  When `smartReconnect` passes the cooldown gate, the hardware
reset (required from two failures on) succeeds, the session is not active and the restore
attempt makes it active (AM1008W variants: `node.isActivated()` after `beginOTAA`;
LoRa_Stabilize: `beginOTAA` returns the session-restored or the new-session status), it returns
true with `consecutive_send_failures = 0`, `last_successful_send` stamped with the clock of
that moment and the status connected.  Its actions are the reset (if any), the activation
query and `beginOTAA` (and the second query in the AM1008W variants): `forceRejoin` is not
called and no join is made. -/
theorem smartReconnect_session_restore (lib : RadioLib) (env : ReconnectEnv) (g : Globals)
    (hcool : ¬ (((env.currentTime : Int) - (g.last_rejoin_attempt : Int)) % 4294967296 <
      REJOIN_DELAY_MS))
    (hreset : g.consecutive_send_failures ≥ 2 → env.resetRadioState = lib.RADIOLIB_ERR_NONE)
    (hinactive : env.activatedBefore = false) :
    (env.activatedAfter = true →
      (smartReconnect lib env g).result = true ∧
      (smartReconnect lib env g).globals =
        { consecutive_send_failures := 0
          last_successful_send := env.restoreTime % 4294967296
          last_rejoin_attempt := env.currentTime % 4294967296
          lorawan_status := LoRaWANStatus.LORAWAN_CONNECTED } ∧
      (smartReconnect lib env g).trace =
        (if g.consecutive_send_failures ≥ 2 then resetRadioHardwareTrace else []) ++
          [Event.isActivated, Event.beginOTAA, Event.isActivated] ∧
      Event.forceRejoin ∉ (smartReconnect lib env g).trace ∧
      Event.activateOTAA ∉ (smartReconnect lib env g).trace) ∧
    ((env.restoreState = lib.RADIOLIB_LORAWAN_SESSION_RESTORED ∨
        env.restoreState = lib.RADIOLIB_LORAWAN_NEW_SESSION) →
      (Stabilize.smartReconnect lib env g).result = true ∧
      (Stabilize.smartReconnect lib env g).globals =
        { consecutive_send_failures := 0
          last_successful_send := env.restoreTime % 4294967296
          last_rejoin_attempt := env.currentTime % 4294967296
          lorawan_status := LoRaWANStatus.LORAWAN_CONNECTED } ∧
      (Stabilize.smartReconnect lib env g).trace =
        (if g.consecutive_send_failures ≥ 2 then resetRadioHardwareTrace else []) ++
          [Event.isActivated, Event.beginOTAA] ∧
      Event.forceRejoin ∉ (Stabilize.smartReconnect lib env g).trace ∧
      Event.activateOTAA ∉ (Stabilize.smartReconnect lib env g).trace) := by
  have hmem1 : Event.forceRejoin ∉ resetRadioHardwareTrace := by decide
  have hmem2 : Event.activateOTAA ∉ resetRadioHardwareTrace := by decide
  constructor
  · intro hact
    unfold smartReconnect
    rw [if_neg hcool]
    by_cases h2 : g.consecutive_send_failures ≥ 2
    · have hr := hreset h2
      simp [h2, resetRadioHardware, hr, hinactive, hact, hmem1, hmem2]
    · simp [h2, hinactive, hact]
  · intro hres
    unfold Stabilize.smartReconnect
    rw [if_neg hcool]
    by_cases h2 : g.consecutive_send_failures ≥ 2
    · have hr := hreset h2
      simp [h2, resetRadioHardware, hr, hinactive, hres, hmem1, hmem2]
    · simp [h2, hinactive, hres]

/-- With one failure on record (no reset needed) and a restore that makes the session active,
both variants return true with the count reset and without a join. -/
theorem smartReconnect_session_restore_witness :
    ¬ ((((envRestore.currentTime : Int) -
        ((globalsAfterFailures 1 0).last_rejoin_attempt : Int)) % 4294967296 <
      REJOIN_DELAY_MS)) ∧
    envRestore.activatedBefore = false ∧ envRestore.activatedAfter = true ∧
    (smartReconnect sampleLib envRestore (globalsAfterFailures 1 0)).result = true ∧
    (smartReconnect sampleLib envRestore (globalsAfterFailures 1 0)).trace =
      [Event.isActivated, Event.beginOTAA, Event.isActivated] ∧
    (Stabilize.smartReconnect sampleLib envRestore (globalsAfterFailures 1 0)).globals =
      { consecutive_send_failures := 0
        last_successful_send := 100050
        last_rejoin_attempt := 100000
        lorawan_status := LoRaWANStatus.LORAWAN_CONNECTED } := by
  have hcool : ¬ ((((envRestore.currentTime : Int) -
        ((globalsAfterFailures 1 0).last_rejoin_attempt : Int)) % 4294967296 <
      REJOIN_DELAY_MS)) := by decide
  have h := smartReconnect_session_restore sampleLib envRestore (globalsAfterFailures 1 0)
    hcool (fun h2 => absurd h2 (by decide)) rfl
  refine ⟨hcool, rfl, rfl, (h.1 rfl).1, ?_, ?_⟩
  · rw [(h.1 rfl).2.2.1]; rfl
  · rw [(h.2 (Or.inl rfl)).2.1]; rfl


theorem forceRejoin_trace_counts (lib : RadioLib) (e : RejoinEnv) (g : Globals) :
    (forceRejoin lib e g).trace.count Event.forceRejoin = 1 ∧
    (forceRejoin lib e g).trace.count (Event.delay 10000) = 0 ∧
    (forceRejoin lib e g).trace.count Event.restart = 0 := by
  have c1 : [Event.forceRejoin, Event.radioBegin].count Event.forceRejoin = 1 ∧
      [Event.forceRejoin, Event.radioBegin].count (Event.delay 10000) = 0 ∧
      [Event.forceRejoin, Event.radioBegin].count Event.restart = 0 := by decide
  have c2 : [Event.forceRejoin, Event.radioBegin, Event.beginOTAA,
        Event.activateOTAA].count Event.forceRejoin = 1 ∧
      [Event.forceRejoin, Event.radioBegin, Event.beginOTAA,
        Event.activateOTAA].count (Event.delay 10000) = 0 ∧
      [Event.forceRejoin, Event.radioBegin, Event.beginOTAA,
        Event.activateOTAA].count Event.restart = 0 := by decide
  unfold forceRejoin
  by_cases h1 : e.radioState ≠ lib.RADIOLIB_ERR_NONE
  · rw [if_pos h1]; exact c1
  · rw [if_neg h1]
    by_cases h2 : e.joinState = lib.RADIOLIB_LORAWAN_NEW_SESSION
    · rw [if_pos h2]; exact c2
    · rw [if_neg h2]; exact c2

theorem rejoinLoop_cons_success (rejoinFn : RejoinEnv → Globals → Outcome)
    (env : Nat → RejoinEnv) (a : Nat) (rest : List Nat) (g : Globals) (trace : List Event)
    (hr : (rejoinFn (env a) g).result = true) :
    rejoinLoop rejoinFn env (a :: rest) g trace =
      { result := true
        globals := { (rejoinFn (env a) g).globals with
          lorawan_status := LoRaWANStatus.LORAWAN_CONNECTED }
        trace := trace ++ (rejoinFn (env a) g).trace } := by
  rw [rejoinLoop]
  simp only [hr, if_true]

theorem rejoinLoop_cons_fail (rejoinFn : RejoinEnv → Globals → Outcome)
    (env : Nat → RejoinEnv) (a : Nat) (rest : List Nat) (g : Globals) (trace : List Event)
    (hr : (rejoinFn (env a) g).result = false) :
    rejoinLoop rejoinFn env (a :: rest) g trace =
      rejoinLoop rejoinFn env rest (rejoinFn (env a) g).globals
        (trace ++ (rejoinFn (env a) g).trace ++
          (if a < MAX_REJOIN_ATTEMPTS then [Event.delay 10000] else [])) := by
  rw [rejoinLoop]
  simp only [hr, Bool.false_eq_true, if_false]

theorem rejoinLoop_count_le (lib : RadioLib) (env : Nat → RejoinEnv) :
    ∀ (l : List Nat) (g : Globals) (trace : List Event),
      (rejoinLoop (forceRejoin lib) env l g trace).trace.count Event.forceRejoin ≤
        trace.count Event.forceRejoin + l.length := by
  intro l
  induction l with
  | nil => intro g trace; simp [rejoinLoop]
  | cons a rest ih =>
    intro g trace
    have hc := (forceRejoin_trace_counts lib (env a) g).1
    by_cases hr : (forceRejoin lib (env a) g).result = true
    · rw [rejoinLoop_cons_success _ _ _ _ _ _ hr]
      simp only [List.count_append, hc, List.length_cons]
      omega
    · have hr' : (forceRejoin lib (env a) g).result = false := by simpa using hr
      rw [rejoinLoop_cons_fail _ _ _ _ _ _ hr']
      refine le_trans (ih _ _) ?_
      have hw : (if a < MAX_REJOIN_ATTEMPTS then [Event.delay 10000] else []).count
          Event.forceRejoin = 0 := by
        split_ifs
        · decide
        · rfl
      simp only [List.count_append, hc, hw, List.length_cons]
      omega

/-- The rejoin loop over `pre ++ k :: post` when the attempts of `pre` (all below the maximum)
fail and attempt `k` succeeds. -/
theorem rejoinLoop_first_success (lib : RadioLib) (env : Nat → RejoinEnv) (k : Nat)
    (post : List Nat) (hsucc : ∀ g, (forceRejoin lib (env k) g).result = true) :
    ∀ (pre : List Nat) (g : Globals) (trace : List Event),
      (∀ j ∈ pre, j < MAX_REJOIN_ATTEMPTS ∧ ∀ g, (forceRejoin lib (env j) g).result = false) →
      (rejoinLoop (forceRejoin lib) env (pre ++ k :: post) g trace).result = true ∧
      (rejoinLoop (forceRejoin lib) env (pre ++ k :: post) g trace).globals.consecutive_send_failures
        = 0 ∧
      (rejoinLoop (forceRejoin lib) env (pre ++ k :: post) g trace).globals.lorawan_status =
        LoRaWANStatus.LORAWAN_CONNECTED ∧
      (rejoinLoop (forceRejoin lib) env (pre ++ k :: post) g trace).trace.count
        Event.forceRejoin = trace.count Event.forceRejoin + pre.length + 1 ∧
      (rejoinLoop (forceRejoin lib) env (pre ++ k :: post) g trace).trace.count
        (Event.delay 10000) = trace.count (Event.delay 10000) + pre.length ∧
      (rejoinLoop (forceRejoin lib) env (pre ++ k :: post) g trace).trace.count
        Event.restart = trace.count Event.restart := by
  intro pre
  induction pre with
  | nil =>
    intro g trace _
    have hc := forceRejoin_trace_counts lib (env k) g
    have hr := hsucc g
    have h0 := forceRejoin_true_failures lib (env k) g hr
    rw [List.nil_append, rejoinLoop_cons_success _ _ _ _ _ _ hr]
    refine ⟨rfl, h0, rfl, ?_, ?_, ?_⟩
    · simp only [List.count_append, hc.1, List.length_nil]
    · simp only [List.count_append, hc.2.1, List.length_nil]
    · simp only [List.count_append, hc.2.2]
      omega
  | cons a rest ih =>
    intro g trace hpre
    have ha := hpre a (List.mem_cons_self _ _)
    have hc := forceRejoin_trace_counts lib (env a) g
    have hr := ha.2 g
    have hlt : a < MAX_REJOIN_ATTEMPTS := ha.1
    have hrest := ih (forceRejoin lib (env a) g).globals
      (trace ++ (forceRejoin lib (env a) g).trace ++ [Event.delay 10000])
      (fun j hj => hpre j (List.mem_cons_of_mem _ hj))
    rw [List.cons_append, rejoinLoop_cons_fail _ _ _ _ _ _ hr, if_pos hlt]
    obtain ⟨h1, h2, h3, h4, h5, h6⟩ := hrest
    have d1 : [Event.delay 10000].count Event.forceRejoin = 0 := by decide
    have d2 : [Event.delay 10000].count (Event.delay 10000) = 1 := by decide
    have d3 : [Event.delay 10000].count Event.restart = 0 := by decide
    refine ⟨h1, h2, h3, ?_, ?_, ?_⟩
    · rw [h4]
      simp only [List.count_append, hc.1, d1, List.length_cons]
      omega
    · rw [h5]
      simp only [List.count_append, hc.2.1, d2, List.length_cons]
      omega
    · rw [h6]
      simp only [List.count_append, hc.2.2, d3]
      omega


theorem forcedRejoin_count_le (lib : RadioLib) (env : ReconnectEnv) (g : Globals)
    (trace : List Event) :
    (forcedRejoin (forceRejoin lib) env g trace).trace.count Event.forceRejoin ≤
      trace.count Event.forceRejoin + 3 := by
  have h := rejoinLoop_count_le lib env.rejoin rejoinAttempts
    { g with lorawan_status := LoRaWANStatus.LORAWAN_REJOIN_NEEDED } trace
  have hl : rejoinAttempts.length = 3 := by decide
  rw [hl] at h
  unfold forcedRejoin
  simp only
  by_cases hr : (rejoinLoop (forceRejoin lib) env.rejoin rejoinAttempts
      { g with lorawan_status := LoRaWANStatus.LORAWAN_REJOIN_NEEDED } trace).result = true
  · rw [if_pos hr]; exact h
  · rw [if_neg hr]
    have d : [Event.restart].count Event.forceRejoin = 0 := by decide
    simp only [List.count_append, d]
    omega

theorem forcedRejoin_first_success (lib : RadioLib) (env : ReconnectEnv) (g : Globals)
    (trace : List Event) (k : Nat) (hk1 : 1 ≤ k) (hk3 : k ≤ 3)
    (hfail : ∀ j, 1 ≤ j → j < k → ∀ g, (forceRejoin lib (env.rejoin j) g).result = false)
    (hsucc : ∀ g, (forceRejoin lib (env.rejoin k) g).result = true) :
    (forcedRejoin (forceRejoin lib) env g trace).result = true ∧
    (forcedRejoin (forceRejoin lib) env g trace).globals.consecutive_send_failures = 0 ∧
    (forcedRejoin (forceRejoin lib) env g trace).globals.lorawan_status =
      LoRaWANStatus.LORAWAN_CONNECTED ∧
    (forcedRejoin (forceRejoin lib) env g trace).trace.count Event.forceRejoin =
      trace.count Event.forceRejoin + k ∧
    (forcedRejoin (forceRejoin lib) env g trace).trace.count (Event.delay 10000) =
      trace.count (Event.delay 10000) + (k - 1) ∧
    (forcedRejoin (forceRejoin lib) env g trace).trace.count Event.restart =
      trace.count Event.restart := by
  have hloop : ∃ pre post, rejoinAttempts = pre ++ k :: post ∧ pre.length = k - 1 ∧
      ∀ j ∈ pre, j < MAX_REJOIN_ATTEMPTS ∧ 1 ≤ j ∧ j < k := by
    rw [rejoinAttempts_eq]
    have hk : k = 1 ∨ k = 2 ∨ k = 3 := by omega
    rcases hk with rfl | rfl | rfl
    · exact ⟨[], [2, 3], rfl, rfl, by simp⟩
    · exact ⟨[1], [3], rfl, rfl, by simp [MAX_REJOIN_ATTEMPTS]⟩
    · refine ⟨[1, 2], [], rfl, rfl, ?_⟩
      intro j hj
      simp only [List.mem_cons, List.mem_singleton, List.not_mem_nil, or_false] at hj
      rcases hj with rfl | rfl <;> simp [MAX_REJOIN_ATTEMPTS]
  obtain ⟨pre, post, hsplit, hlen, hpre⟩ := hloop
  have h := rejoinLoop_first_success lib env.rejoin k post hsucc pre
    { g with lorawan_status := LoRaWANStatus.LORAWAN_REJOIN_NEEDED } trace
    (fun j hj => ⟨(hpre j hj).1, hfail j (hpre j hj).2.1 (hpre j hj).2.2⟩)
  rw [← hsplit] at h
  unfold forcedRejoin
  simp only
  rw [if_pos h.1]
  obtain ⟨h1, h2, h3, h4, h5, h6⟩ := h
  refine ⟨h1, h2, h3, ?_, ?_, h6⟩
  · rw [h4, hlen]; omega
  · rw [h5, hlen]

/-- C22: forced rejoin is bounded and stops at the first success.  Every call of
`smartReconnect` makes at most 3 `forceRejoin` attempts.  When the call reaches the forced
rejoin (cooldown passed, reset successful if required, session not restored) and attempt `k`,
`1 <= k <= 3`, is the first that succeeds, exactly `k` attempts and exactly `k - 1` delays of
10 s occur, `consecutive_send_failures` is 0, the status is connected, true is returned and no
restart is issued. -/
theorem smartReconnect_forced_rejoin (lib : RadioLib) (env : ReconnectEnv) (g : Globals) :
    (smartReconnect lib env g).trace.count Event.forceRejoin ≤ 3 ∧
    ∀ k, 1 ≤ k → k ≤ 3 →
      ¬ (((env.currentTime : Int) - (g.last_rejoin_attempt : Int)) % 4294967296 <
        REJOIN_DELAY_MS) →
      (g.consecutive_send_failures ≥ 2 → env.resetRadioState = lib.RADIOLIB_ERR_NONE) →
      (env.activatedBefore = true ∨ env.activatedAfter = false) →
      (∀ j, 1 ≤ j → j < k → ∀ g, (forceRejoin lib (env.rejoin j) g).result = false) →
      (∀ g, (forceRejoin lib (env.rejoin k) g).result = true) →
      (smartReconnect lib env g).result = true ∧
      (smartReconnect lib env g).trace.count Event.forceRejoin = k ∧
      (smartReconnect lib env g).trace.count (Event.delay 10000) = k - 1 ∧
      (smartReconnect lib env g).globals.consecutive_send_failures = 0 ∧
      (smartReconnect lib env g).globals.lorawan_status = LoRaWANStatus.LORAWAN_CONNECTED ∧
      (smartReconnect lib env g).trace.count Event.restart = 0 := by
  have r1 : resetRadioHardwareTrace.count Event.forceRejoin = 0 := by decide
  have r2 : resetRadioHardwareTrace.count (Event.delay 10000) = 0 := by decide
  have r3 : resetRadioHardwareTrace.count Event.restart = 0 := by decide
  have hreset2 : ∀ s, (resetRadioHardware lib s).2 = resetRadioHardwareTrace := by
    intro s
    unfold resetRadioHardware
    split_ifs <;> rfl
  have hpre : ∀ (reset : Bool × List Event),
      reset.2 = resetRadioHardwareTrace ∨ reset.2 = [] →
      ∀ (more : List Event), more = [Event.isActivated, Event.beginOTAA, Event.isActivated] ∨
        more = [Event.isActivated] →
      (reset.2 ++ more).count Event.forceRejoin = 0 ∧
      (reset.2 ++ more).count (Event.delay 10000) = 0 ∧
      (reset.2 ++ more).count Event.restart = 0 := by
    intro reset h1 more h2
    rcases h1 with h1 | h1 <;> rcases h2 with h2 | h2 <;> rw [h1, h2] <;> decide
  constructor
  · unfold smartReconnect
    by_cases hcool : ((env.currentTime : Int) - (g.last_rejoin_attempt : Int)) % 4294967296 <
        REJOIN_DELAY_MS
    · rw [if_pos hcool]; simp
    · rw [if_neg hcool]
      simp only
      generalize hres : (if g.consecutive_send_failures ≥ 2 then
        resetRadioHardware lib env.resetRadioState else (true, [])) = reset
      have hr2 : reset.2 = resetRadioHardwareTrace ∨ reset.2 = [] := by
        rw [← hres]
        split_ifs
        · exact Or.inl (hreset2 _)
        · exact Or.inr rfl
      by_cases hf : reset.1 = false
      · rw [if_pos hf]
        rcases hr2 with h | h <;> simp [h, r1]
      · rw [if_neg hf]
        by_cases hb : env.activatedBefore = false
        · rw [if_pos hb]
          have hp := hpre reset hr2 _ (Or.inl rfl)
          by_cases ha : env.activatedAfter = true
          · simp only [ha, if_true]
            rw [hp.1]; omega
          · simp only [ha]
            refine le_trans (forcedRejoin_count_le lib env _ _) ?_
            rw [hp.1]
        · rw [if_neg hb]
          have hp := hpre reset hr2 _ (Or.inr rfl)
          refine le_trans (forcedRejoin_count_le lib env _ _) ?_
          rw [hp.1]
  · intro k hk1 hk3 hcool hreset hnores hfail hsucc
    unfold smartReconnect
    rw [if_neg hcool]
    simp only
    generalize hres : (if g.consecutive_send_failures ≥ 2 then
      resetRadioHardware lib env.resetRadioState else (true, [])) = reset
    have hr2 : reset.2 = resetRadioHardwareTrace ∨ reset.2 = [] := by
      rw [← hres]
      split_ifs
      · exact Or.inl (hreset2 _)
      · exact Or.inr rfl
    have hr1 : ¬ reset.1 = false := by
      rw [← hres]
      split_ifs with h2
      · unfold resetRadioHardware
        simp [hreset h2]
      · simp
    rw [if_neg hr1]
    by_cases hb : env.activatedBefore = false
    · rw [if_pos hb]
      have ha : ¬ env.activatedAfter = true := by
        rcases hnores with h | h
        · rw [hb] at h; exact absurd h (by decide)
        · simp [h]
      simp only [ha]
      have hp := hpre reset hr2 _ (Or.inl rfl)
      have h := forcedRejoin_first_success lib env
        { g with last_rejoin_attempt := env.currentTime % 4294967296
                 lorawan_status := LoRaWANStatus.LORAWAN_CONNECTING }
        (reset.2 ++ [Event.isActivated, Event.beginOTAA, Event.isActivated]) k hk1 hk3
        hfail hsucc
      rw [hp.1, hp.2.1, hp.2.2] at h
      simp only [zero_add] at h
      obtain ⟨a1, a2, a3, a4, a5, a6⟩ := h
      exact ⟨a1, a4, a5, a2, a3, a6⟩
    · rw [if_neg hb]
      have hp := hpre reset hr2 _ (Or.inr rfl)
      have h := forcedRejoin_first_success lib env
        { g with last_rejoin_attempt := env.currentTime % 4294967296
                 lorawan_status := LoRaWANStatus.LORAWAN_CONNECTING }
        (reset.2 ++ [Event.isActivated]) k hk1 hk3 hfail hsucc
      rw [hp.1, hp.2.1, hp.2.2] at h
      simp only [zero_add] at h
      obtain ⟨a1, a2, a3, a4, a5, a6⟩ := h
      exact ⟨a1, a4, a5, a2, a3, a6⟩

/-- With one failure on record, no session restore, a first join attempt that is refused and a
second one that succeeds: two attempts, one delay, no restart. -/
theorem smartReconnect_forced_rejoin_witness :
    (smartReconnect sampleLib envSecondJoin (globalsAfterFailures 1 0)).result = true ∧
    (smartReconnect sampleLib envSecondJoin (globalsAfterFailures 1 0)).trace.count
      Event.forceRejoin = 2 ∧
    (smartReconnect sampleLib envSecondJoin (globalsAfterFailures 1 0)).trace.count
      (Event.delay 10000) = 2 - 1 ∧
    (smartReconnect sampleLib envSecondJoin
      (globalsAfterFailures 1 0)).globals.consecutive_send_failures = 0 ∧
    (smartReconnect sampleLib envSecondJoin (globalsAfterFailures 1 0)).globals.lorawan_status =
      LoRaWANStatus.LORAWAN_CONNECTED ∧
    (smartReconnect sampleLib envSecondJoin (globalsAfterFailures 1 0)).trace.count
      Event.restart = 0 :=
  (smartReconnect_forced_rejoin sampleLib envSecondJoin (globalsAfterFailures 1 0)).2 2
    (by decide) (by decide) (by decide) (fun h => absurd h (by decide)) (Or.inr rfl)
    (fun j h1 h2 g => by
      have hj : j = 1 := by omega
      subst hj
      rfl)
    (fun g => rfl)


/-! ## Validity of a response -/

/-- C23: exact validity characterisation of the I2C variant.  For a detected sensor and every
25-byte response `b`, `readAM1008Data` returns `valid = true` if and only if `b0 = 0x16`,
`b1 = 0x19`, `256*b3 + b4 <= 5000`, `256*b7 + b8 <= 1000`, `100 <= 256*b9 + b10 <= 1350`, each
of `256*b11 + b12`, `256*b13 + b14`, `256*b15 + b16` is at most 1000, and `b5 <= 3`. -/
theorem readAM1008Data_valid_iff (addr : Nat) (resp : List Nat) (haddr : addr ≠ 0)
    (hresp : IsResponse resp) :
    (readAM1008Data addr resp).valid = true ↔
      (resp.getD 0 0 = 0x16 ∧ resp.getD 1 0 = 0x19 ∧
       256 * resp.getD 3 0 + resp.getD 4 0 ≤ 5000 ∧
       256 * resp.getD 7 0 + resp.getD 8 0 ≤ 1000 ∧
       100 ≤ 256 * resp.getD 9 0 + resp.getD 10 0 ∧
       256 * resp.getD 9 0 + resp.getD 10 0 ≤ 1350 ∧
       256 * resp.getD 11 0 + resp.getD 12 0 ≤ 1000 ∧
       256 * resp.getD 13 0 + resp.getD 14 0 ≤ 1000 ∧
       256 * resp.getD 15 0 + resp.getD 16 0 ≤ 1000 ∧
       resp.getD 5 0 ≤ 3) := by
  by_cases hh : resp.getD 0 0 = 0x16 ∧ resp.getD 1 0 = 0x19
  · rw [readAM1008Data_eq addr resp haddr hresp hh.1 hh.2]
    simp only [decide_eq_true_eq]
    constructor
    · intro h
      exact ⟨hh.1, hh.2, h⟩
    · intro h
      exact h.2.2
  · have hlen : ¬ resp.length < 25 := by
      have := hresp.1
      omega
    have hv : (readAM1008Data addr resp).valid = false := by
      unfold readAM1008Data
      rw [if_neg haddr, if_neg hlen]
      simp only [byteAt_response hresp]
      rw [if_neg hh]
      rfl
    rw [hv]
    constructor
    · intro h
      exact absurd h (by decide)
    · intro h
      exact absurd ⟨h.1, h.2.1⟩ hh

/-- The response of the scenario (CO2 200, humidity 50.0 %, 25.0 degrees, PM 5/8/12, VOC 0)
meets every condition, so it is valid. -/
theorem readAM1008Data_valid_iff_witness :
    (0x28 : Nat) ≠ 0 ∧ IsResponse responseScenario ∧
    (readAM1008Data 0x28 responseScenario).valid = true ∧
    IsResponse responseTooHot ∧
    ¬ (readAM1008Data 0x28 responseTooHot).valid = true :=
  ⟨by decide, by decide,
   (readAM1008Data_valid_iff 0x28 responseScenario (by decide) (by decide)).2 (by decide),
   by decide,
   fun h => absurd
     ((readAM1008Data_valid_iff 0x28 responseTooHot (by decide) (by decide)).1 h).2.2.2.2.2.1
     (by decide)⟩


/-! ## Adoption of the first working candidate -/

theorem detectLoop_find (bus : Nat → ProbeEnv) :
    ∀ (l probed : List Nat),
      (∀ a, l.find? (fun x => probeAddress (bus x)) = some a →
        (detectLoop bus l probed).info =
          { address := a, found := true, valid_data := true
            parsing_method := "Standard AM1008W-K-P" } ∧
        (detectLoop bus l probed).probed =
          probed ++ l.takeWhile (fun x => !probeAddress (bus x)) ++ [a]) ∧
      (l.find? (fun x => probeAddress (bus x)) = none →
        (detectLoop bus l probed).info =
          { address := 0, found := false, valid_data := false, parsing_method := "none" } ∧
        (detectLoop bus l probed).probed = probed ++ l) := by
  intro l
  induction l with
  | nil =>
    intro probed
    constructor
    · intro a h
      simp at h
    · intro _
      simp [detectLoop]
  | cons b rest ih =>
    intro probed
    by_cases hp : probeAddress (bus b) = true
    · constructor
      · intro a h
        simp only [List.find?_cons, hp] at h
        have hab : b = a := by simpa using h
        subst hab
        unfold detectLoop
        rw [if_pos hp]
        simp [List.takeWhile_cons, hp]
      · intro h
        simp only [List.find?_cons, hp] at h
        exact absurd h (by simp)
    · have hp' : probeAddress (bus b) = false := by simpa using hp
      have hstep : detectLoop bus (b :: rest) probed = detectLoop bus rest (probed ++ [b]) := by
        rw [detectLoop]
        simp only [hp', Bool.false_eq_true, if_false]
      rw [hstep]
      constructor
      · intro a h
        simp only [List.find?_cons, hp'] at h
        have := (ih (probed ++ [b])).1 a h
        refine ⟨this.1, ?_⟩
        rw [this.2]
        simp [List.takeWhile_cons, hp']
      · intro h
        simp only [List.find?_cons, hp'] at h
        have := (ih (probed ++ [b])).2 h
        refine ⟨this.1, ?_⟩
        rw [this.2]
        simp

/-- C24: discovery adopts the first working candidate.  With the test of one address (it
acknowledges, accepts the command, returns 25 bytes that pass `testDataValidity`) as a
predicate of the address, the candidates being 0x28 to 0x2F, 0x50 to 0x57, 0x30 to 0x37 in this
order: if `a` is the first candidate that passes, `detectAM1008Sensor` returns `found = true`
with address `a`, having tested exactly the candidates before `a` and then `a`, and
`initializeAM1008PMSensor` returns true and sets `detected_sensor_address` to `a`; if no
candidate passes, it returns `found = false` with address 0 after testing all of them, and
`initializeAM1008PMSensor` returns false and sets `detected_sensor_address` to 0. -/
theorem detectAM1008Sensor_first_candidate (bus : Nat → ProbeEnv) :
    candidateAddresses =
      [0x28, 0x29, 0x2A, 0x2B, 0x2C, 0x2D, 0x2E, 0x2F,
       0x50, 0x51, 0x52, 0x53, 0x54, 0x55, 0x56, 0x57,
       0x30, 0x31, 0x32, 0x33, 0x34, 0x35, 0x36, 0x37] ∧
    (∀ a, candidateAddresses.find? (fun x => probeAddress (bus x)) = some a →
      (detectAM1008Sensor bus).info.found = true ∧
      (detectAM1008Sensor bus).info.valid_data = true ∧
      (detectAM1008Sensor bus).info.address = a ∧
      (detectAM1008Sensor bus).probed =
        candidateAddresses.takeWhile (fun x => !probeAddress (bus x)) ++ [a] ∧
      initializeAM1008PMSensor bus = (true, a)) ∧
    (candidateAddresses.find? (fun x => probeAddress (bus x)) = none →
      (detectAM1008Sensor bus).info.found = false ∧
      (detectAM1008Sensor bus).info.address = 0 ∧
      (detectAM1008Sensor bus).probed = candidateAddresses ∧
      initializeAM1008PMSensor bus = (false, 0)) := by
  have h := detectLoop_find bus candidateAddresses []
  refine ⟨by decide, ?_, ?_⟩
  · intro a ha
    have h1 := h.1 a ha
    have hinfo : (detectAM1008Sensor bus).info =
        { address := a, found := true, valid_data := true
          parsing_method := "Standard AM1008W-K-P" } := h1.1
    refine ⟨?_, ?_, ?_, ?_, ?_⟩
    · rw [hinfo]
    · rw [hinfo]
    · rw [hinfo]
    · have := h1.2
      simpa [detectAM1008Sensor] using this
    · unfold initializeAM1008PMSensor
      simp only [hinfo, Bool.and_self, if_true]
  · intro hn
    have h2 := h.2 hn
    have hinfo : (detectAM1008Sensor bus).info =
        { address := 0, found := false, valid_data := false, parsing_method := "none" } := h2.1
    refine ⟨?_, ?_, ?_, ?_⟩
    · rw [hinfo]
    · rw [hinfo]
    · have := h2.2
      simpa [detectAM1008Sensor] using this
    · unfold initializeAM1008PMSensor
      simp only [hinfo, Bool.and_self, Bool.false_eq_true, if_false]

/-- On a bus where only 0x50 answers (with a valid response) the first candidate that passes
is 0x50, which is adopted after 0x28 to 0x2F have been tested; on a silent bus nothing is
adopted. -/
theorem detectAM1008Sensor_first_candidate_witness :
    candidateAddresses.find? (fun x => probeAddress (busAt0x50 x)) = some 0x50 ∧
    (detectAM1008Sensor busAt0x50).info.address = 0x50 ∧
    initializeAM1008PMSensor busAt0x50 = (true, 0x50) ∧
    candidateAddresses.find? (fun x => probeAddress (silentBus x)) = none ∧
    initializeAM1008PMSensor silentBus = (false, 0) := by
  have h1 : candidateAddresses.find? (fun x => probeAddress (busAt0x50 x)) = some 0x50 := by
    decide!
  have h2 : candidateAddresses.find? (fun x => probeAddress (silentBus x)) = none := by
    decide
  exact ⟨h1, ((detectAM1008Sensor_first_candidate busAt0x50).2.1 0x50 h1).2.2.1,
    ((detectAM1008Sensor_first_candidate busAt0x50).2.1 0x50 h1).2.2.2.2, h2,
    ((detectAM1008Sensor_first_candidate silentBus).2.2 h2).2.2.2⟩


/-! ## Availability is not touched by a read -/

/-- C25: a failed read leaves availability untouched.  For every state of the globals and every
response (short, bad header, out of range or valid), the frame `readSensors` returns carries
the boot-time flag `am1008_available`, and after `readSensors`, `readAM1008Data` and
`encodeSensorData` the globals `am1008_available` and `detected_sensor_address` have the values
they had before; the values returned are those of the functions on the globals they read. -/
theorem readSensors_preserves_availability (s : SensorGlobals) (wire : List Nat)
    (data : SensorData) :
    (Stateful.readSensors s wire).1.am1008_available = s.am1008_available ∧
    (Stateful.readSensors s wire).2.am1008_available = s.am1008_available ∧
    (Stateful.readSensors s wire).2.detected_sensor_address = s.detected_sensor_address ∧
    (Stateful.readAM1008Data s wire).2.am1008_available = s.am1008_available ∧
    (Stateful.readAM1008Data s wire).2.detected_sensor_address = s.detected_sensor_address ∧
    (Stateful.encodeSensorData s data).2 = s ∧
    (Stateful.readSensors s wire).1 =
      readSensors s.am1008_available (readAM1008Data s.detected_sensor_address wire) ∧
    (Stateful.readAM1008Data s wire).1 = readAM1008Data s.detected_sensor_address wire ∧
    (Stateful.encodeSensorData s data).1 = encodeSensorData data s.consecutive_send_failures := by
  have hread : (Stateful.readAM1008Data s wire).2.am1008_available = s.am1008_available ∧
      (Stateful.readAM1008Data s wire).2.detected_sensor_address = s.detected_sensor_address ∧
      (Stateful.readAM1008Data s wire).1 = readAM1008Data s.detected_sensor_address wire := by
    unfold Stateful.readAM1008Data
    simp only
    split_ifs <;> exact ⟨rfl, rfl, rfl⟩
  refine ⟨?_, ?_, ?_, hread.1, hread.2.1, rfl, ?_, hread.2.2, rfl⟩
  · unfold Stateful.readSensors
    split_ifs <;> rfl
  · unfold Stateful.readSensors
    split_ifs
    · exact hread.1
    · rfl
  · unfold Stateful.readSensors
    split_ifs
    · exact hread.2.1
    · rfl
  · unfold Stateful.readSensors readSensors
    split_ifs
    · simp only [hread.2.2]
    · rfl


/-! ## Postcondition of the reconnection -/

theorem forceRejoin_false_globals (lib : RadioLib) (env : RejoinEnv) (g : Globals)
    (h : (forceRejoin lib env g).result = false) : (forceRejoin lib env g).globals = g := by
  unfold forceRejoin at h ⊢
  split_ifs at h ⊢
  all_goals simp_all

theorem Stabilize.forceRejoin_keeps_globals (lib : RadioLib) (env : RejoinEnv) (g : Globals)
    (h : (Stabilize.forceRejoin lib env g).result = false) :
    (Stabilize.forceRejoin lib env g).globals = g := by
  unfold Stabilize.forceRejoin at h ⊢
  split_ifs at h ⊢
  all_goals simp_all

theorem rejoinLoop_post (rejoinFn : RejoinEnv → Globals → Outcome)
    (htrue : ∀ e g, (rejoinFn e g).result = true →
      (rejoinFn e g).globals.consecutive_send_failures = 0)
    (hfalse : ∀ e g, (rejoinFn e g).result = false → (rejoinFn e g).globals = g)
    (env : Nat → RejoinEnv) :
    ∀ (l : List Nat) (g : Globals) (trace : List Event),
      ((rejoinLoop rejoinFn env l g trace).result = true →
        (rejoinLoop rejoinFn env l g trace).globals.consecutive_send_failures = 0 ∧
        (rejoinLoop rejoinFn env l g trace).globals.lorawan_status =
          LoRaWANStatus.LORAWAN_CONNECTED) ∧
      ((rejoinLoop rejoinFn env l g trace).result = false →
        (rejoinLoop rejoinFn env l g trace).globals = g) := by
  intro l
  induction l with
  | nil =>
    intro g trace
    simp [rejoinLoop]
  | cons a rest ih =>
    intro g trace
    by_cases hr : (rejoinFn (env a) g).result = true
    · rw [rejoinLoop_cons_success _ _ _ _ _ _ hr]
      exact ⟨fun _ => ⟨htrue _ _ hr, rfl⟩, fun h => absurd h (by simp)⟩
    · have hr' : (rejoinFn (env a) g).result = false := by simpa using hr
      rw [rejoinLoop_cons_fail _ _ _ _ _ _ hr', hfalse _ _ hr']
      exact ih _ _

theorem forcedRejoin_post (rejoinFn : RejoinEnv → Globals → Outcome)
    (htrue : ∀ e g, (rejoinFn e g).result = true →
      (rejoinFn e g).globals.consecutive_send_failures = 0)
    (hfalse : ∀ e g, (rejoinFn e g).result = false → (rejoinFn e g).globals = g)
    (env : ReconnectEnv) (g : Globals) (trace : List Event) :
    ((forcedRejoin rejoinFn env g trace).result = true →
      (forcedRejoin rejoinFn env g trace).globals.consecutive_send_failures = 0 ∧
      (forcedRejoin rejoinFn env g trace).globals.lorawan_status =
        LoRaWANStatus.LORAWAN_CONNECTED) ∧
    ((forcedRejoin rejoinFn env g trace).result = false →
      (forcedRejoin rejoinFn env g trace).globals =
        { g with lorawan_status := LoRaWANStatus.LORAWAN_DISCONNECTED }) := by
  have h := rejoinLoop_post rejoinFn htrue hfalse env.rejoin rejoinAttempts
    { g with lorawan_status := LoRaWANStatus.LORAWAN_REJOIN_NEEDED } trace
  unfold forcedRejoin
  simp only
  by_cases hr : (rejoinLoop rejoinFn env.rejoin rejoinAttempts
      { g with lorawan_status := LoRaWANStatus.LORAWAN_REJOIN_NEEDED } trace).result = true
  · rw [if_pos hr]
    exact ⟨fun _ => h.1 hr, fun hf => absurd hr (by simp [hf])⟩
  · have hr' : (rejoinLoop rejoinFn env.rejoin rejoinAttempts
        { g with lorawan_status := LoRaWANStatus.LORAWAN_REJOIN_NEEDED } trace).result = false := by
      simpa using hr
    rw [if_neg hr]
    refine ⟨fun ht => absurd ht (by simp), fun _ => ?_⟩
    simp only [h.2 hr']

/-- What `smartReconnect` of the AM1008W variants guarantees on return. -/
theorem smartReconnect_on_return (lib : RadioLib) (env : ReconnectEnv) (g : Globals) :
    ((smartReconnect lib env g).result = true →
      (smartReconnect lib env g).globals.lorawan_status = LoRaWANStatus.LORAWAN_CONNECTED ∧
      (smartReconnect lib env g).globals.consecutive_send_failures = 0) ∧
    ((smartReconnect lib env g).result = false →
      (smartReconnect lib env g).globals.consecutive_send_failures =
        g.consecutive_send_failures ∧
      ((smartReconnect lib env g).globals = g ∨
        (smartReconnect lib env g).globals.lorawan_status =
          LoRaWANStatus.LORAWAN_DISCONNECTED)) := by
  have hforced := fun g trace => forcedRejoin_post (forceRejoin lib)
    (forceRejoin_true_failures lib) (forceRejoin_false_globals lib) env g trace
  unfold smartReconnect
  by_cases hcool : ((env.currentTime : Int) - (g.last_rejoin_attempt : Int)) % 4294967296 <
      REJOIN_DELAY_MS
  · rw [if_pos hcool]
    exact ⟨fun h => absurd h (by simp), fun _ => ⟨rfl, Or.inl rfl⟩⟩
  · rw [if_neg hcool]
    simp only
    generalize (if g.consecutive_send_failures ≥ 2 then
      resetRadioHardware lib env.resetRadioState else (true, [])) = reset
    by_cases hf : reset.1 = false
    · rw [if_pos hf]
      exact ⟨fun h => absurd h (by simp), fun _ => ⟨rfl, Or.inr rfl⟩⟩
    · rw [if_neg hf]
      by_cases hb : env.activatedBefore = false
      · rw [if_pos hb]
        by_cases ha : env.activatedAfter = true
        · rw [if_pos ha]
          exact ⟨fun _ => ⟨rfl, rfl⟩, fun h => absurd h (by simp)⟩
        · rw [if_neg ha]
          have h := hforced
            { g with last_rejoin_attempt := env.currentTime % 4294967296
                     lorawan_status := LoRaWANStatus.LORAWAN_CONNECTING }
            (reset.2 ++ [Event.isActivated, Event.beginOTAA, Event.isActivated])
          refine ⟨fun ht => ⟨(h.1 ht).2, (h.1 ht).1⟩, fun hfl => ?_⟩
          rw [h.2 hfl]
          exact ⟨rfl, Or.inr rfl⟩
      · rw [if_neg hb]
        have h := hforced
          { g with last_rejoin_attempt := env.currentTime % 4294967296
                   lorawan_status := LoRaWANStatus.LORAWAN_CONNECTING }
          (reset.2 ++ [Event.isActivated])
        refine ⟨fun ht => ⟨(h.1 ht).2, (h.1 ht).1⟩, fun hfl => ?_⟩
        rw [h.2 hfl]
        exact ⟨rfl, Or.inr rfl⟩

/-- What `smartReconnect` of LoRa_Stabilize guarantees on return. -/
theorem Stabilize.smartReconnect_guarantees (lib : RadioLib) (env : ReconnectEnv) (g : Globals) :
    ((Stabilize.smartReconnect lib env g).result = true →
      (Stabilize.smartReconnect lib env g).globals.lorawan_status =
        LoRaWANStatus.LORAWAN_CONNECTED ∧
      (Stabilize.smartReconnect lib env g).globals.consecutive_send_failures = 0) ∧
    ((Stabilize.smartReconnect lib env g).result = false →
      (Stabilize.smartReconnect lib env g).globals.consecutive_send_failures =
        g.consecutive_send_failures ∧
      ((Stabilize.smartReconnect lib env g).globals = g ∨
        (Stabilize.smartReconnect lib env g).globals.lorawan_status =
          LoRaWANStatus.LORAWAN_DISCONNECTED)) := by
  have hforced := fun g trace => forcedRejoin_post (Stabilize.forceRejoin lib)
    (Stabilize.forceRejoin_resets_failures lib) (Stabilize.forceRejoin_keeps_globals lib)
    env g trace
  unfold Stabilize.smartReconnect
  by_cases hcool : ((env.currentTime : Int) - (g.last_rejoin_attempt : Int)) % 4294967296 <
      REJOIN_DELAY_MS
  · rw [if_pos hcool]
    exact ⟨fun h => absurd h (by simp), fun _ => ⟨rfl, Or.inl rfl⟩⟩
  · rw [if_neg hcool]
    simp only
    generalize (if g.consecutive_send_failures ≥ 2 then
      resetRadioHardware lib env.resetRadioState else (true, [])) = reset
    by_cases hf : reset.1 = false
    · rw [if_pos hf]
      exact ⟨fun h => absurd h (by simp), fun _ => ⟨rfl, Or.inr rfl⟩⟩
    · rw [if_neg hf]
      by_cases hb : env.activatedBefore = false
      · rw [if_pos hb]
        by_cases ha : env.restoreState = lib.RADIOLIB_LORAWAN_SESSION_RESTORED ∨
            env.restoreState = lib.RADIOLIB_LORAWAN_NEW_SESSION
        · rw [if_pos ha]
          exact ⟨fun _ => ⟨rfl, rfl⟩, fun h => absurd h (by simp)⟩
        · rw [if_neg ha]
          have h := hforced
            { g with last_rejoin_attempt := env.currentTime % 4294967296
                     lorawan_status := LoRaWANStatus.LORAWAN_CONNECTING }
            (reset.2 ++ [Event.isActivated, Event.beginOTAA])
          refine ⟨fun ht => ⟨(h.1 ht).2, (h.1 ht).1⟩, fun hfl => ?_⟩
          rw [h.2 hfl]
          exact ⟨rfl, Or.inr rfl⟩
      · rw [if_neg hb]
        have h := hforced
          { g with last_rejoin_attempt := env.currentTime % 4294967296
                   lorawan_status := LoRaWANStatus.LORAWAN_CONNECTING }
          (reset.2 ++ [Event.isActivated])
        refine ⟨fun ht => ⟨(h.1 ht).2, (h.1 ht).1⟩, fun hfl => ?_⟩
        rw [h.2 hfl]
        exact ⟨rfl, Or.inr rfl⟩


/-! ## Discovery against acquisition -/

/-- C29 (evaluation at the failing input): the response `responseVoc3` (VOC level 3 in byte 5,
byte 6 = 0x53, every field in range) is marked valid by `readAM1008Data`, but
`testDataValidity` reads bytes 5-6 as a temperature of 85.1 degrees and returns false; a
sensor that answers every probe with this response is not adopted, and
`detected_sensor_address` stays 0. -/
theorem testDataValidity_rejects_valid_reading :
    IsResponse responseVoc3 ∧
    (readAM1008Data 0x28 responseVoc3).valid = true ∧
    toInt16 (be16 (byteAt (responseVoc3.take 25) 5) (byteAt (responseVoc3.take 25) 6)) = 851 ∧
    testDataValidity (byteAt (responseVoc3.take 25)) = false ∧
    probeAddress (busVoc3 0x28) = false ∧
    (detectAM1008Sensor busVoc3).info.found = false ∧
    initializeAM1008PMSensor busVoc3 = (false, 0) := by
  refine ⟨by decide, by decide!, by decide, by decide!, by decide!, by decide!, by decide!⟩


/-! ## Ranges of the two-sensor variant -/

/-- A float that passes the validation `!(isnan(x) || x < lo || x > hi)` is finite and lies
between `lo` and `hi`. -/
theorem Stabilize.invalid_false (x : F32) (lo hi : Int) (hlo : lo.natAbs < 2 ^ 24)
    (hhi : hi.natAbs < 2 ^ 24) (h : Stabilize.invalid x lo hi = false) :
    ∃ n : Int, x = F32.fin n ∧ lo * 2 ^ 149 ≤ n ∧ n ≤ hi * 2 ^ 149 := by
  unfold Stabilize.invalid at h
  rw [F32.ofInt_small lo hlo, F32.ofInt_small hi hhi] at h
  generalize lo * 2 ^ 149 = L at h ⊢
  generalize hi * 2 ^ 149 = H at h ⊢
  cases x with
  | nan => exact absurd h (by simp [F32.isnan])
  | inf s =>
    cases s
    · exact absurd h (by simp [F32.isnan, F32.lt])
    · exact absurd h (by simp [F32.isnan, F32.lt])
  | fin n =>
    simp only [F32.isnan, F32.lt, Bool.false_or, Bool.or_eq_false_iff,
      decide_eq_false_iff_not, not_lt] at h
    exact ⟨n, rfl, h.1, h.2⟩

/-- A finite float between `lo` and `hi` compares accordingly. -/
theorem F32.le_of_bounds (n lo hi : Int) (hlo : lo.natAbs < 2 ^ 24) (hhi : hi.natAbs < 2 ^ 24)
    (h1 : lo * 2 ^ 149 ≤ n) (h2 : n ≤ hi * 2 ^ 149) :
    F32.le (F32.ofInt lo) (F32.fin n) = true ∧ F32.le (F32.fin n) (F32.ofInt hi) = true := by
  rw [F32.ofInt_small lo hlo, F32.ofInt_small hi hhi]
  generalize lo * 2 ^ 149 = L at h1 ⊢
  generalize hi * 2 ^ 149 = H at h2 ⊢
  simp only [F32.le, decide_eq_true_eq]
  exact ⟨h1, h2⟩

/-- The encoder's expression `(x + b) * k` for a finite `x` with `0 <= x + b <= c`: the result
is finite, non-negative and at most `c * k`, and so is its conversion to `uint16_t`. -/
theorem F32.affine_le (n b : Int) (c k : Nat) (hck : c * k < 65536) (hc : c < 2 ^ 24)
    (h0 : 0 ≤ n + b) (h1 : n + b ≤ (c : Int) * 2 ^ 149) :
    ∃ m : Nat, F32.mul (F32.add (F32.fin n) (F32.fin b)) (F32.fin ((k : Int) * 2 ^ 149)) =
        F32.fin (m : Int) ∧ m ≤ c * k * 2 ^ 149 ∧
      F32.toUInt16 (F32.mul (F32.add (F32.fin n) (F32.fin b))
        (F32.fin ((k : Int) * 2 ^ 149))) ≤ c * k := by
  obtain ⟨m1, hm1, hle1⟩ := F32.add_le n b hc h0 h1
  obtain ⟨m2, hm2, hle2⟩ := F32.mul_le m1 k (c := c)
    (lt_of_lt_of_le hck (by norm_num)) hle1
  refine ⟨m2, ?_, hle2, ?_⟩
  · rw [hm1, hm2]
  · rw [hm1, hm2]
    exact F32.toUInt16_le m2 hck hle2


/-- The pattern of `readSensors`: a reading that is taken only under `cond` and replaced by
`dflt` when it fails validation lies in the range as soon as `dflt` does. -/
theorem Stabilize.validated_in_range (cond : Bool) (x dflt : F32) (lo hi : Int)
    (hlo : lo.natAbs < 2 ^ 24) (hhi : hi.natAbs < 2 ^ 24)
    (hd : ∃ n : Int, dflt = F32.fin n ∧ lo * 2 ^ 149 ≤ n ∧ n ≤ hi * 2 ^ 149) :
    ∃ n : Int, (if cond then (if Stabilize.invalid x lo hi then dflt else x) else dflt) =
      F32.fin n ∧ lo * 2 ^ 149 ≤ n ∧ n ≤ hi * 2 ^ 149 := by
  by_cases hc : cond = true
  · rw [if_pos hc]
    by_cases hi' : Stabilize.invalid x lo hi = true
    · rw [if_pos hi']; exact hd
    · rw [if_neg hi']
      exact Stabilize.invalid_false x lo hi hlo hhi (by simpa using hi')
  · rw [if_neg hc]; exact hd

/-- The fields of the frame `readSensors` of LoRa_Stabilize returns are finite and within the
validation ranges. -/
theorem Stabilize.readSensors_bounds (bme bmp : Bool) (r : Stabilize.Readings) :
    (∃ n : Int, (Stabilize.readSensors bme bmp r).temperature_bme = F32.fin n ∧
      (-40) * 2 ^ 149 ≤ n ∧ n ≤ 85 * 2 ^ 149) ∧
    (∃ n : Int, (Stabilize.readSensors bme bmp r).humidity = F32.fin n ∧
      0 * 2 ^ 149 ≤ n ∧ n ≤ 100 * 2 ^ 149) ∧
    (∃ n : Int, (Stabilize.readSensors bme bmp r).pressure_bme = F32.fin n ∧
      800 * 2 ^ 149 ≤ n ∧ n ≤ 1200 * 2 ^ 149) ∧
    (∃ n : Int, (Stabilize.readSensors bme bmp r).temperature_bmp = F32.fin n ∧
      (-40) * 2 ^ 149 ≤ n ∧ n ≤ 85 * 2 ^ 149) ∧
    (∃ n : Int, (Stabilize.readSensors bme bmp r).pressure_bmp = F32.fin n ∧
      800 * 2 ^ 149 ≤ n ∧ n ≤ 1200 * 2 ^ 149) ∧
    (∃ n : Int, (Stabilize.readSensors bme bmp r).altitude = F32.fin n ∧
      (-500) * 2 ^ 149 ≤ n ∧ n ≤ 4000 * 2 ^ 149) := by
  have z1 : ∃ n : Int, F32.fin 0 = F32.fin n ∧ (-40) * 2 ^ 149 ≤ n ∧ n ≤ 85 * 2 ^ 149 :=
    ⟨0, rfl, by norm_num, by norm_num⟩
  have z2 : ∃ n : Int, F32.fin 0 = F32.fin n ∧ 0 * 2 ^ 149 ≤ n ∧ n ≤ 100 * 2 ^ 149 :=
    ⟨0, rfl, by norm_num, by norm_num⟩
  have z3 : ∃ n : Int, Stabilize.defaultPressure = F32.fin n ∧ 800 * 2 ^ 149 ≤ n ∧
      n ≤ 1200 * 2 ^ 149 :=
    ⟨4053 * 2 ^ 147, rfl, by norm_num, by norm_num⟩
  have z4 : ∃ n : Int, F32.fin 0 = F32.fin n ∧ (-500) * 2 ^ 149 ≤ n ∧ n ≤ 4000 * 2 ^ 149 :=
    ⟨0, rfl, by norm_num, by norm_num⟩
  have t1 := Stabilize.validated_in_range bme r.bme_temperature (F32.fin 0) (-40) 85
    (by decide) (by decide) z1
  have t2 := Stabilize.validated_in_range bme r.bme_humidity (F32.fin 0) 0 100
    (by decide) (by decide) z2
  have t3 := Stabilize.validated_in_range bme r.bme_pressure Stabilize.defaultPressure 800 1200
    (by decide) (by decide) z3
  have t4 := Stabilize.validated_in_range (bmp && r.bmp_performReading) r.bmp_temperature
    (if bme then (if Stabilize.invalid r.bme_temperature (-40) 85 then F32.fin 0
      else r.bme_temperature) else F32.fin 0) (-40) 85 (by decide) (by decide) t1
  have t5 := Stabilize.validated_in_range (bmp && r.bmp_performReading) r.bmp_pressure
    (if bme then (if Stabilize.invalid r.bme_pressure 800 1200 then Stabilize.defaultPressure
      else r.bme_pressure) else Stabilize.defaultPressure) 800 1200 (by decide) (by decide) t3
  have t6 := Stabilize.validated_in_range (bmp && r.bmp_performReading) r.bmp_altitude
    (F32.fin 0) (-500) 4000 (by decide) (by decide) z4
  exact ⟨t1, t2, t3, t4, t5, t6⟩


/-- C30: ranges of the two-sensor variant.  For every combination of sensor availability and
raw sensor outputs (NaN, infinite and out-of-range values included), the frame `readSensors`
of LoRa_Stabilize returns has both temperatures in [-40, 85], the humidity in [0, 100], both
pressures in [800, 1200] and the altitude in [-500, 4000].  Hence every value `encodeSensorData`
converts to `uint16_t` is a finite non-negative number, and the encoded fields are at most
1250 (temperatures), 1000 (humidity), 4000 (pressures) and 4500 (altitude). -/
theorem Stabilize.readSensors_in_range (bme bmp : Bool) (r : Stabilize.Readings) (c : Nat) :
    (F32.le (F32.ofInt (-40)) (Stabilize.readSensors bme bmp r).temperature_bme = true ∧
      F32.le (Stabilize.readSensors bme bmp r).temperature_bme (F32.ofInt 85) = true) ∧
    (F32.le (F32.ofInt 0) (Stabilize.readSensors bme bmp r).humidity = true ∧
      F32.le (Stabilize.readSensors bme bmp r).humidity (F32.ofInt 100) = true) ∧
    (F32.le (F32.ofInt 800) (Stabilize.readSensors bme bmp r).pressure_bme = true ∧
      F32.le (Stabilize.readSensors bme bmp r).pressure_bme (F32.ofInt 1200) = true) ∧
    (F32.le (F32.ofInt (-40)) (Stabilize.readSensors bme bmp r).temperature_bmp = true ∧
      F32.le (Stabilize.readSensors bme bmp r).temperature_bmp (F32.ofInt 85) = true) ∧
    (F32.le (F32.ofInt 800) (Stabilize.readSensors bme bmp r).pressure_bmp = true ∧
      F32.le (Stabilize.readSensors bme bmp r).pressure_bmp (F32.ofInt 1200) = true) ∧
    (F32.le (F32.ofInt (-500)) (Stabilize.readSensors bme bmp r).altitude = true ∧
      F32.le (Stabilize.readSensors bme bmp r).altitude (F32.ofInt 4000) = true) ∧
    (∃ m : Nat, F32.mul (F32.add (Stabilize.readSensors bme bmp r).temperature_bme
        (F32.ofInt 40)) (F32.ofInt 10) = F32.fin (m : Int) ∧ m ≤ 1250 * 2 ^ 149) ∧
    (∃ m : Nat, F32.mul (Stabilize.readSensors bme bmp r).humidity (F32.ofInt 10) =
        F32.fin (m : Int) ∧ m ≤ 1000 * 2 ^ 149) ∧
    (∃ m : Nat, F32.mul (F32.sub (Stabilize.readSensors bme bmp r).pressure_bme
        (F32.ofInt 800)) (F32.ofInt 10) = F32.fin (m : Int) ∧ m ≤ 4000 * 2 ^ 149) ∧
    (∃ m : Nat, F32.mul (F32.add (Stabilize.readSensors bme bmp r).temperature_bmp
        (F32.ofInt 40)) (F32.ofInt 10) = F32.fin (m : Int) ∧ m ≤ 1250 * 2 ^ 149) ∧
    (∃ m : Nat, F32.mul (F32.sub (Stabilize.readSensors bme bmp r).pressure_bmp
        (F32.ofInt 800)) (F32.ofInt 10) = F32.fin (m : Int) ∧ m ≤ 4000 * 2 ^ 149) ∧
    (∃ m : Nat, F32.add (Stabilize.readSensors bme bmp r).altitude (F32.ofInt 500) =
        F32.fin (m : Int) ∧ m ≤ 4500 * 2 ^ 149) ∧
    field16 (Stabilize.encodeSensorData (Stabilize.readSensors bme bmp r) c) 0 ≤ 1250 ∧
    field16 (Stabilize.encodeSensorData (Stabilize.readSensors bme bmp r) c) 2 ≤ 1000 ∧
    field16 (Stabilize.encodeSensorData (Stabilize.readSensors bme bmp r) c) 4 ≤ 4000 ∧
    field16 (Stabilize.encodeSensorData (Stabilize.readSensors bme bmp r) c) 6 ≤ 1250 ∧
    field16 (Stabilize.encodeSensorData (Stabilize.readSensors bme bmp r) c) 8 ≤ 4000 ∧
    field16 (Stabilize.encodeSensorData (Stabilize.readSensors bme bmp r) c) 10 ≤ 4500 := by
  obtain ⟨⟨n1, e1, l1, u1⟩, ⟨n2, e2, l2, u2⟩, ⟨n3, e3, l3, u3⟩, ⟨n4, e4, l4, u4⟩,
    ⟨n5, e5, l5, u5⟩, ⟨n6, e6, l6, u6⟩⟩ := Stabilize.readSensors_bounds bme bmp r
  obtain ⟨f0, f2, f4, f6, f8, f10⟩ :=
    Stabilize.encodeSensorData_fields (Stabilize.readSensors bme bmp r) c
  have k10 : ((10 : Nat) : Int) * 2 ^ 149 = 10 * 2 ^ 149 := by norm_num
  have o10 := F32.ofInt_small 10 (by decide)
  have o40 := F32.ofInt_small 40 (by decide)
  have o500 := F32.ofInt_small 500 (by decide)
  have o800 := F32.ofInt_small 800 (by decide)
  -- temperatures
  have temp : ∀ n : Int, (-40) * 2 ^ 149 ≤ n → n ≤ 85 * 2 ^ 149 →
      ∃ m : Nat, F32.mul (F32.add (F32.fin n) (F32.ofInt 40)) (F32.ofInt 10) =
          F32.fin (m : Int) ∧ m ≤ 1250 * 2 ^ 149 ∧
        F32.toUInt16 (F32.mul (F32.add (F32.fin n) (F32.ofInt 40)) (F32.ofInt 10)) ≤ 1250 := by
    intro n hl hu
    have h := F32.affine_le n (40 * 2 ^ 149) 125 10 (by norm_num) (by norm_num)
      (by linarith) (by push_cast; linarith)
    rw [k10] at h
    rw [o40, o10]
    exact h
  -- pressures
  have press : ∀ n : Int, 800 * 2 ^ 149 ≤ n → n ≤ 1200 * 2 ^ 149 →
      ∃ m : Nat, F32.mul (F32.sub (F32.fin n) (F32.ofInt 800)) (F32.ofInt 10) =
          F32.fin (m : Int) ∧ m ≤ 4000 * 2 ^ 149 ∧
        F32.toUInt16 (F32.mul (F32.sub (F32.fin n) (F32.ofInt 800)) (F32.ofInt 10)) ≤ 4000 := by
    intro n hl hu
    have h := F32.affine_le n (-(800 * 2 ^ 149)) 400 10 (by norm_num) (by norm_num)
      (by linarith) (by push_cast; linarith)
    rw [k10] at h
    rw [o800, o10]
    exact h
  -- humidity
  have hum : ∃ m : Nat, F32.mul (F32.fin n2) (F32.ofInt 10) = F32.fin (m : Int) ∧
      m ≤ 1000 * 2 ^ 149 ∧
      F32.toUInt16 (F32.mul (F32.fin n2) (F32.ofInt 10)) ≤ 1000 := by
    have hn : 0 ≤ n2 := by linarith
    obtain ⟨k, rfl⟩ : ∃ k : Nat, n2 = (k : Int) := ⟨n2.toNat, (Int.toNat_of_nonneg hn).symm⟩
    have hk : k ≤ 100 * 2 ^ 149 := by exact_mod_cast u2
    obtain ⟨m2, hm2, hle2⟩ := F32.mul_le k 10 (c := 100) (by norm_num) hk
    rw [k10] at hm2
    rw [o10, hm2]
    exact ⟨m2, rfl, hle2, F32.toUInt16_le m2 (by norm_num) hle2⟩
  -- altitude
  have alt : ∃ m : Nat, F32.add (F32.fin n6) (F32.ofInt 500) = F32.fin (m : Int) ∧
      m ≤ 4500 * 2 ^ 149 ∧ F32.toUInt16 (F32.add (F32.fin n6) (F32.ofInt 500)) ≤ 4500 := by
    obtain ⟨m, hm, hle⟩ := F32.add_le n6 (500 * 2 ^ 149) (c := 4500) (by norm_num)
      (by linarith) (by push_cast; linarith)
    rw [o500, hm]
    exact ⟨m, rfl, hle, F32.toUInt16_le m (by norm_num) hle⟩
  have r1 := F32.le_of_bounds n1 (-40) 85 (by decide) (by decide) l1 u1
  have r2 := F32.le_of_bounds n2 0 100 (by decide) (by decide) l2 u2
  have r3 := F32.le_of_bounds n3 800 1200 (by decide) (by decide) l3 u3
  have r4 := F32.le_of_bounds n4 (-40) 85 (by decide) (by decide) l4 u4
  have r5 := F32.le_of_bounds n5 800 1200 (by decide) (by decide) l5 u5
  have r6 := F32.le_of_bounds n6 (-500) 4000 (by decide) (by decide) l6 u6
  obtain ⟨m1, a1, b1, c1⟩ := temp n1 l1 u1
  obtain ⟨m2, a2, b2, c2⟩ := hum
  obtain ⟨m3, a3, b3, c3⟩ := press n3 l3 u3
  obtain ⟨m4, a4, b4, c4⟩ := temp n4 l4 u4
  obtain ⟨m5, a5, b5, c5⟩ := press n5 l5 u5
  obtain ⟨m6, a6, b6, c6⟩ := alt
  rw [f0, f2, f4, f6, f8, f10, e1, e2, e3, e4, e5, e6]
  exact ⟨r1, r2, r3, r4, r5, r6, ⟨m1, a1, b1⟩, ⟨m2, a2, b2⟩, ⟨m3, a3, b3⟩, ⟨m4, a4, b4⟩,
    ⟨m5, a5, b5⟩, ⟨m6, a6, b6⟩, c1, c2, c3, c4, c5, c6⟩


/-! ## A reconnection that restarts the device -/

theorem forceRejoin_no_restart (lib : RadioLib) (e : RejoinEnv) (g : Globals) :
    ∀ ev ∈ (forceRejoin lib e g).trace, ev ≠ Event.restart :=
  forceRejoin_trace_forall lib e g (fun ev => ev ≠ Event.restart) (by decide) (by decide)
    (by decide) (by decide)

theorem Stabilize.forceRejoin_without_restart (lib : RadioLib) (e : RejoinEnv) (g : Globals) :
    ∀ ev ∈ (Stabilize.forceRejoin lib e g).trace, ev ≠ Event.restart := by
  intro ev hev
  unfold Stabilize.forceRejoin at hev
  split_ifs at hev
  all_goals
    simp only [List.mem_cons, List.mem_singleton, List.not_mem_nil, or_false] at hev
    rcases hev with rfl | rfl | rfl | rfl <;> decide

/-- The forced rejoin contains a restart only when every attempt failed; it then returns false
with the status disconnected. -/
theorem forcedRejoin_restart (rejoinFn : RejoinEnv → Globals → Outcome)
    (hfn : ∀ e g, ∀ ev ∈ (rejoinFn e g).trace, ev ≠ Event.restart)
    (env : ReconnectEnv) (g : Globals) (trace : List Event)
    (htrace : ∀ ev ∈ trace, ev ≠ Event.restart)
    (h : Event.restart ∈ (forcedRejoin rejoinFn env g trace).trace) :
    (forcedRejoin rejoinFn env g trace).result = false ∧
    (forcedRejoin rejoinFn env g trace).globals.lorawan_status =
      LoRaWANStatus.LORAWAN_DISCONNECTED := by
  have hloop := rejoinLoop_trace_forall rejoinFn env.rejoin (fun ev => ev ≠ Event.restart)
    hfn (by decide) rejoinAttempts
    { g with lorawan_status := LoRaWANStatus.LORAWAN_REJOIN_NEEDED } trace htrace
  unfold forcedRejoin at h ⊢
  simp only at h ⊢
  by_cases hr : (rejoinLoop rejoinFn env.rejoin rejoinAttempts
      { g with lorawan_status := LoRaWANStatus.LORAWAN_REJOIN_NEEDED } trace).result = true
  · rw [if_pos hr] at h
    exact absurd rfl (hloop _ h)
  · rw [if_neg hr]
    exact ⟨rfl, rfl⟩

theorem resetRadioHardware_no_restart (lib : RadioLib) (s : Int) :
    ∀ ev ∈ (resetRadioHardware lib s).2, ev ≠ Event.restart := by
  have h : ∀ ev ∈ resetRadioHardwareTrace, ev ≠ Event.restart := by decide
  unfold resetRadioHardware
  split_ifs <;> exact h

/-- When `smartReconnect` of the AM1008W variants restarts the device, it had set the status to
disconnected, and the model's return value is false. -/
theorem smartReconnect_restart (lib : RadioLib) (env : ReconnectEnv) (g : Globals)
    (h : Event.restart ∈ (smartReconnect lib env g).trace) :
    (smartReconnect lib env g).result = false ∧
    (smartReconnect lib env g).globals.lorawan_status = LoRaWANStatus.LORAWAN_DISCONNECTED := by
  have hforced := fun g trace => forcedRejoin_restart (forceRejoin lib)
    (forceRejoin_no_restart lib) env g trace
  unfold smartReconnect at h ⊢
  by_cases hcool : ((env.currentTime : Int) - (g.last_rejoin_attempt : Int)) % 4294967296 <
      REJOIN_DELAY_MS
  · rw [if_pos hcool] at h
    simp at h
  · rw [if_neg hcool] at h ⊢
    simp only at h ⊢
    have hres : ∀ ev ∈ (if g.consecutive_send_failures ≥ 2 then
        resetRadioHardware lib env.resetRadioState else (true, [])).2, ev ≠ Event.restart := by
      split_ifs
      · exact resetRadioHardware_no_restart lib _
      · simp
    generalize (if g.consecutive_send_failures ≥ 2 then
      resetRadioHardware lib env.resetRadioState else (true, [])) = reset at h hres ⊢
    by_cases hf : reset.1 = false
    · rw [if_pos hf] at h ⊢
      exact ⟨rfl, rfl⟩
    · rw [if_neg hf] at h ⊢
      by_cases hb : env.activatedBefore = false
      · rw [if_pos hb] at h ⊢
        have hpre : ∀ ev ∈ reset.2 ++ [Event.isActivated, Event.beginOTAA, Event.isActivated],
            ev ≠ Event.restart := by
          intro ev hev
          rcases List.mem_append.1 hev with hev | hev
          · exact hres ev hev
          · simp only [List.mem_cons, List.mem_singleton, List.not_mem_nil, or_false] at hev
            rcases hev with rfl | rfl | rfl <;> decide
        by_cases ha : env.activatedAfter = true
        · rw [if_pos ha] at h
          exact absurd rfl (hpre _ h)
        · rw [if_neg ha] at h ⊢
          exact hforced _ _ hpre h
      · rw [if_neg hb] at h ⊢
        have hpre : ∀ ev ∈ reset.2 ++ [Event.isActivated], ev ≠ Event.restart := by
          intro ev hev
          rcases List.mem_append.1 hev with hev | hev
          · exact hres ev hev
          · simp only [List.mem_singleton] at hev
            rw [hev]; decide
        exact hforced _ _ hpre h

/-- When `smartReconnect` of LoRa_Stabilize restarts the device, it had set the status to
disconnected, and the model's return value is false. -/
theorem Stabilize.smartReconnect_restarting (lib : RadioLib) (env : ReconnectEnv) (g : Globals)
    (h : Event.restart ∈ (Stabilize.smartReconnect lib env g).trace) :
    (Stabilize.smartReconnect lib env g).result = false ∧
    (Stabilize.smartReconnect lib env g).globals.lorawan_status =
      LoRaWANStatus.LORAWAN_DISCONNECTED := by
  have hforced := fun g trace => forcedRejoin_restart (Stabilize.forceRejoin lib)
    (Stabilize.forceRejoin_without_restart lib) env g trace
  unfold Stabilize.smartReconnect at h ⊢
  by_cases hcool : ((env.currentTime : Int) - (g.last_rejoin_attempt : Int)) % 4294967296 <
      REJOIN_DELAY_MS
  · rw [if_pos hcool] at h
    simp at h
  · rw [if_neg hcool] at h ⊢
    simp only at h ⊢
    have hres : ∀ ev ∈ (if g.consecutive_send_failures ≥ 2 then
        resetRadioHardware lib env.resetRadioState else (true, [])).2, ev ≠ Event.restart := by
      split_ifs
      · exact resetRadioHardware_no_restart lib _
      · simp
    generalize (if g.consecutive_send_failures ≥ 2 then
      resetRadioHardware lib env.resetRadioState else (true, [])) = reset at h hres ⊢
    by_cases hf : reset.1 = false
    · rw [if_pos hf] at h ⊢
      exact ⟨rfl, rfl⟩
    · rw [if_neg hf] at h ⊢
      by_cases hb : env.activatedBefore = false
      · rw [if_pos hb] at h ⊢
        have hpre : ∀ ev ∈ reset.2 ++ [Event.isActivated, Event.beginOTAA],
            ev ≠ Event.restart := by
          intro ev hev
          rcases List.mem_append.1 hev with hev | hev
          · exact hres ev hev
          · simp only [List.mem_cons, List.mem_singleton, List.not_mem_nil, or_false] at hev
            rcases hev with rfl | rfl <;> decide
        by_cases ha : env.restoreState = lib.RADIOLIB_LORAWAN_SESSION_RESTORED ∨
            env.restoreState = lib.RADIOLIB_LORAWAN_NEW_SESSION
        · rw [if_pos ha] at h
          exact absurd rfl (hpre _ h)
        · rw [if_neg ha] at h ⊢
          exact hforced _ _ hpre h
      · rw [if_neg hb] at h ⊢
        have hpre : ∀ ev ∈ reset.2 ++ [Event.isActivated], ev ≠ Event.restart := by
          intro ev hev
          rcases List.mem_append.1 hev with hev | hev
          · exact hres ev hev
          · simp only [List.mem_singleton] at hev
            rw [hev]; decide
        exact hforced _ _ hpre h


/-! ## One cycle of the duty cycle -/

theorem loopCore_decided (reconnectFn : ReconnectEnv → Globals → Outcome) (lib : RadioLib)
    (isCritical : Int → Bool) (encode : Nat → List Nat) (interval : Nat) (env : LoopEnv)
    (g : Globals) :
    (loopCore reconnectFn lib isCritical encode interval env g).decided =
      (loopReconnect reconnectFn env g).globals := by
  unfold loopCore
  simp only
  split_ifs <;> rfl

/-- The cycle when the reconnection decision restarted the device: it ends there. -/
theorem loopCore_of_restarted (reconnectFn : ReconnectEnv → Globals → Outcome) (lib : RadioLib)
    (isCritical : Int → Bool) (encode : Nat → List Nat) (interval : Nat) (env : LoopEnv)
    (g : Globals) (hd : (loopReconnect reconnectFn env g).restarted = true) :
    loopCore reconnectFn lib isCritical encode interval env g =
      { decided := (loopReconnect reconnectFn env g).globals
        afterSend := (loopReconnect reconnectFn env g).globals
        globals := (loopReconnect reconnectFn env g).globals
        trace := (loopReconnect reconnectFn env g).trace
        restarted := true } := by
  unfold loopCore
  simp only [hd, if_true]

/-- The cycle when the reconnection decision did not restart the device: the transmission
block follows, and the delay and the sleep unless the immediate reconnection restarted. -/
theorem loopCore_of_not_restarted (reconnectFn : ReconnectEnv → Globals → Outcome)
    (lib : RadioLib) (isCritical : Int → Bool) (encode : Nat → List Nat) (interval : Nat)
    (env : LoopEnv) (g : Globals) (hd : (loopReconnect reconnectFn env g).restarted = false) :
    loopCore reconnectFn lib isCritical encode interval env g =
      { decided := (loopReconnect reconnectFn env g).globals
        afterSend := (loopTransmit reconnectFn lib isCritical encode env
          (loopReconnect reconnectFn env g).globals).afterSend
        globals := (loopTransmit reconnectFn lib isCritical encode env
          (loopReconnect reconnectFn env g).globals).globals
        trace := (loopReconnect reconnectFn env g).trace ++
          (loopTransmit reconnectFn lib isCritical encode env
            (loopReconnect reconnectFn env g).globals).trace ++
          (if (loopTransmit reconnectFn lib isCritical encode env
              (loopReconnect reconnectFn env g).globals).restarted then []
           else [LoopEvent.delay 5000,
             LoopEvent.enterLightSleep ((interval + 4294967296 - 5) % 4294967296)])
        restarted := (loopTransmit reconnectFn lib isCritical encode env
          (loopReconnect reconnectFn env g).globals).restarted } := by
  unfold loopCore
  simp only [hd, Bool.false_eq_true, if_false]
  by_cases ht : (loopTransmit reconnectFn lib isCritical encode env
      (loopReconnect reconnectFn env g).globals).restarted = true
  · simp only [ht, if_true, List.append_nil]
  · have ht' : (loopTransmit reconnectFn lib isCritical encode env
        (loopReconnect reconnectFn env g).globals).restarted = false := by simpa using ht
    simp only [ht', Bool.false_eq_true, if_false]

/-- The transmission block from a connected state. -/
theorem loopTransmit_connected (reconnectFn : ReconnectEnv → Globals → Outcome)
    (lib : RadioLib) (isCritical : Int → Bool) (encode : Nat → List Nat) (env : LoopEnv)
    (g : Globals) (hc : g.lorawan_status = LoRaWANStatus.LORAWAN_CONNECTED) :
    ((env.sendState = lib.RADIOLIB_ERR_NONE ∨
        env.sendState = lib.RADIOLIB_LORAWAN_NEW_SESSION) →
      loopTransmit reconnectFn lib isCritical encode env g =
        { afterSend := { g with consecutive_send_failures := 0
                                last_successful_send := env.currentTime % 4294967296
                                lorawan_status := LoRaWANStatus.LORAWAN_CONNECTED }
          globals := { g with consecutive_send_failures := 0
                              last_successful_send := env.currentTime % 4294967296
                              lorawan_status := LoRaWANStatus.LORAWAN_CONNECTED }
          trace := [LoopEvent.sendReceive (encode g.consecutive_send_failures)]
          restarted := false }) ∧
    (¬ (env.sendState = lib.RADIOLIB_ERR_NONE ∨
        env.sendState = lib.RADIOLIB_LORAWAN_NEW_SESSION) →
      (isCritical env.sendState = true →
        loopTransmit reconnectFn lib isCritical encode env g =
          { afterSend := { g with
              consecutive_send_failures := (g.consecutive_send_failures + 1) % 256
              lorawan_status := LoRaWANStatus.LORAWAN_SEND_FAILED }
            globals := (reconnectFn env.reconnectAfterSend { g with
              consecutive_send_failures := (g.consecutive_send_failures + 1) % 256
              lorawan_status := LoRaWANStatus.LORAWAN_SEND_FAILED }).globals
            trace := [LoopEvent.sendReceive (encode g.consecutive_send_failures),
              LoopEvent.smartReconnect (reconnectFn env.reconnectAfterSend { g with
                consecutive_send_failures := (g.consecutive_send_failures + 1) % 256
                lorawan_status := LoRaWANStatus.LORAWAN_SEND_FAILED }).trace]
            restarted := decide (Event.restart ∈ (reconnectFn env.reconnectAfterSend { g with
              consecutive_send_failures := (g.consecutive_send_failures + 1) % 256
              lorawan_status := LoRaWANStatus.LORAWAN_SEND_FAILED }).trace) }) ∧
      (¬ isCritical env.sendState = true →
        loopTransmit reconnectFn lib isCritical encode env g =
          { afterSend := { g with
              consecutive_send_failures := (g.consecutive_send_failures + 1) % 256
              lorawan_status := LoRaWANStatus.LORAWAN_SEND_FAILED }
            globals := { g with
              consecutive_send_failures := (g.consecutive_send_failures + 1) % 256
              lorawan_status := LoRaWANStatus.LORAWAN_SEND_FAILED }
            trace := [LoopEvent.sendReceive (encode g.consecutive_send_failures)]
            restarted := false })) := by
  refine ⟨fun hs => ?_, fun hs => ⟨fun hk => ?_, fun hk => ?_⟩⟩
  · unfold loopTransmit
    rw [if_pos hc, if_pos hs]
  · unfold loopTransmit
    rw [if_pos hc, if_neg hs]
    simp only [hk, if_true]
  · unfold loopTransmit
    rw [if_pos hc, if_neg hs]
    simp only [hk, Bool.false_eq_true, if_false]

/-- The transmission block from a state that is not connected does nothing. -/
theorem loopTransmit_not_connected (reconnectFn : ReconnectEnv → Globals → Outcome)
    (lib : RadioLib) (isCritical : Int → Bool) (encode : Nat → List Nat) (env : LoopEnv)
    (g : Globals) (hc : ¬ g.lorawan_status = LoRaWANStatus.LORAWAN_CONNECTED) :
    loopTransmit reconnectFn lib isCritical encode env g =
      { afterSend := g, globals := g, trace := [], restarted := false } := by
  unfold loopTransmit
  rw [if_neg hc]

/-- The three shapes of the reconnection decision. -/
theorem loopReconnect_cases (reconnectFn : ReconnectEnv → Globals → Outcome) (env : LoopEnv)
    (g : Globals) :
    ((env.activated = false ∨ g.consecutive_send_failures ≥ MAX_SEND_FAILURES) →
      (Event.restart ∈ (reconnectFn env.reconnect g).trace →
        loopReconnect reconnectFn env g =
          { globals := (reconnectFn env.reconnect g).globals
            trace := [LoopEvent.isActivated, LoopEvent.isActivated,
              LoopEvent.smartReconnect (reconnectFn env.reconnect g).trace]
            restarted := true }) ∧
      (Event.restart ∉ (reconnectFn env.reconnect g).trace →
        loopReconnect reconnectFn env g =
          { globals := { (reconnectFn env.reconnect g).globals with
              lorawan_status := if (reconnectFn env.reconnect g).result
                then LoRaWANStatus.LORAWAN_CONNECTED else LoRaWANStatus.LORAWAN_DISCONNECTED }
            trace := [LoopEvent.isActivated, LoopEvent.isActivated,
              LoopEvent.smartReconnect (reconnectFn env.reconnect g).trace]
            restarted := false })) ∧
    (¬ (env.activated = false ∨ g.consecutive_send_failures ≥ MAX_SEND_FAILURES) →
      loopReconnect reconnectFn env g =
        { globals := { g with lorawan_status := LoRaWANStatus.LORAWAN_CONNECTED }
          trace := [LoopEvent.isActivated], restarted := false }) := by
  refine ⟨fun hc => ⟨fun hr => ?_, fun hr => ?_⟩, fun hc => ?_⟩
  · unfold loopReconnect
    rw [if_pos hc]
    simp only [hr, if_true]
  · unfold loopReconnect
    rw [if_pos hc]
    simp only [hr, if_false]
    by_cases hres : (reconnectFn env.reconnect g).result = true
    · simp only [hres, if_true]
    · simp only [hres, Bool.false_eq_true, if_false]
  · unfold loopReconnect
    rw [if_neg hc]


/-- After the reconnection decision, a connected status means that the failure count is below
`MAX_SEND_FAILURES` and that the device was not restarted, for a reconnection function that
resets the count when it succeeds and sets the status to disconnected before it restarts. -/
theorem loopReconnect_connected (reconnectFn : ReconnectEnv → Globals → Outcome)
    (hfn : ∀ e g, (reconnectFn e g).result = true →
      (reconnectFn e g).globals.consecutive_send_failures = 0)
    (hrs : ∀ e g, Event.restart ∈ (reconnectFn e g).trace →
      (reconnectFn e g).globals.lorawan_status = LoRaWANStatus.LORAWAN_DISCONNECTED)
    (env : LoopEnv) (g : Globals)
    (h : (loopReconnect reconnectFn env g).globals.lorawan_status =
      LoRaWANStatus.LORAWAN_CONNECTED) :
    (loopReconnect reconnectFn env g).globals.consecutive_send_failures < MAX_SEND_FAILURES ∧
    (loopReconnect reconnectFn env g).restarted = false := by
  have hcases := loopReconnect_cases reconnectFn env g
  by_cases hc : env.activated = false ∨ g.consecutive_send_failures ≥ MAX_SEND_FAILURES
  · by_cases hr : Event.restart ∈ (reconnectFn env.reconnect g).trace
    · rw [(hcases.1 hc).1 hr] at h
      have := hrs _ _ hr
      simp only at h
      rw [this] at h
      exact absurd h (by decide)
    · rw [(hcases.1 hc).2 hr] at h ⊢
      by_cases hres : (reconnectFn env.reconnect g).result = true
      · exact ⟨by simp only [hfn _ _ hres]; decide, rfl⟩
      · simp only [hres, Bool.false_eq_true, if_false] at h
        exact absurd h (by decide)
  · rw [hcases.2 hc]
    refine ⟨?_, rfl⟩
    simp only
    push_neg at hc
    exact hc.2

theorem loopReconnect_trace_mem (reconnectFn : ReconnectEnv → Globals → Outcome)
    (env : LoopEnv) (g : Globals) (p : List Nat) :
    LoopEvent.sendReceive p ∉ (loopReconnect reconnectFn env g).trace := by
  have hcases := loopReconnect_cases reconnectFn env g
  by_cases hc : env.activated = false ∨ g.consecutive_send_failures ≥ MAX_SEND_FAILURES
  · by_cases hr : Event.restart ∈ (reconnectFn env.reconnect g).trace
    · rw [(hcases.1 hc).1 hr]; simp
    · rw [(hcases.1 hc).2 hr]; simp
  · rw [hcases.2 hc]; simp

theorem loopReconnect_trace_no_send (reconnectFn : ReconnectEnv → Globals → Outcome)
    (env : LoopEnv) (g : Globals) :
    (loopReconnect reconnectFn env g).trace.countP LoopEvent.isSend = 0 := by
  have hcases := loopReconnect_cases reconnectFn env g
  by_cases hc : env.activated = false ∨ g.consecutive_send_failures ≥ MAX_SEND_FAILURES
  · by_cases hr : Event.restart ∈ (reconnectFn env.reconnect g).trace
    · rw [(hcases.1 hc).1 hr]; simp [LoopEvent.isSend]
    · rw [(hcases.1 hc).2 hr]; simp [LoopEvent.isSend]
  · rw [hcases.2 hc]; simp [LoopEvent.isSend]

/-- The transmission block of a cycle whose status is connected after the reconnection
decision. -/
theorem loopCore_normal_cycle (reconnectFn : ReconnectEnv → Globals → Outcome)
    (hfn : ∀ e g, (reconnectFn e g).result = true →
      (reconnectFn e g).globals.consecutive_send_failures = 0)
    (hrs : ∀ e g, Event.restart ∈ (reconnectFn e g).trace →
      (reconnectFn e g).globals.lorawan_status = LoRaWANStatus.LORAWAN_DISCONNECTED)
    (lib : RadioLib) (isCritical : Int → Bool) (encode : Nat → List Nat) (interval : Nat)
    (env : LoopEnv) (g : Globals)
    (hc : (loopCore reconnectFn lib isCritical encode interval env g).decided.lorawan_status =
      LoRaWANStatus.LORAWAN_CONNECTED) :
    (loopCore reconnectFn lib isCritical encode interval env g).trace.countP
        LoopEvent.isSend = 1 ∧
    LoopEvent.sendReceive (encode
        (loopCore reconnectFn lib isCritical encode interval env g).decided.consecutive_send_failures) ∈
      (loopCore reconnectFn lib isCritical encode interval env g).trace ∧
    ((env.sendState = lib.RADIOLIB_ERR_NONE ∨
        env.sendState = lib.RADIOLIB_LORAWAN_NEW_SESSION) →
      (loopCore reconnectFn lib isCritical encode interval env g).afterSend =
        { (loopCore reconnectFn lib isCritical encode interval env g).decided with
          consecutive_send_failures := 0
          last_successful_send := env.currentTime % 4294967296
          lorawan_status := LoRaWANStatus.LORAWAN_CONNECTED } ∧
      (loopCore reconnectFn lib isCritical encode interval env g).globals =
        (loopCore reconnectFn lib isCritical encode interval env g).afterSend) ∧
    (¬ (env.sendState = lib.RADIOLIB_ERR_NONE ∨
        env.sendState = lib.RADIOLIB_LORAWAN_NEW_SESSION) →
      (loopCore reconnectFn lib isCritical encode interval env g).afterSend =
        { (loopCore reconnectFn lib isCritical encode interval env g).decided with
          consecutive_send_failures :=
            (loopCore reconnectFn lib isCritical encode interval env g).decided.consecutive_send_failures + 1
          lorawan_status := LoRaWANStatus.LORAWAN_SEND_FAILED }) := by
  rw [loopCore_decided] at hc ⊢
  have hconn := loopReconnect_connected reconnectFn hfn hrs env g hc
  have hns := loopReconnect_trace_no_send reconnectFn env g
  rw [loopCore_of_not_restarted reconnectFn lib isCritical encode interval env g hconn.2]
  simp only
  have hlt := hconn.1
  generalize loopReconnect reconnectFn env g = d at hc hlt hns ⊢
  have h5 : d.globals.consecutive_send_failures < 5 := hlt
  have hmod : (d.globals.consecutive_send_failures + 1) % 256 =
      d.globals.consecutive_send_failures + 1 := Nat.mod_eq_of_lt (by omega)
  have ht := loopTransmit_connected reconnectFn lib isCritical encode env d.globals hc
  have ctail : ∀ b : Bool, (if b = true then ([] : List LoopEvent)
      else [LoopEvent.delay 5000,
        LoopEvent.enterLightSleep ((interval + 4294967296 - 5) % 4294967296)]).countP
        LoopEvent.isSend = 0 := by
    intro b
    cases b <;> simp [LoopEvent.isSend]
  by_cases hs : env.sendState = lib.RADIOLIB_ERR_NONE ∨
        env.sendState = lib.RADIOLIB_LORAWAN_NEW_SESSION
  · rw [ht.1 hs]
    refine ⟨?_, ?_, fun _ => ⟨rfl, rfl⟩, fun h => absurd hs h⟩
    · simp [List.countP_append, hns, LoopEvent.isSend]
    · simp
  · by_cases hk : isCritical env.sendState = true
    · rw [(ht.2 hs).1 hk]
      refine ⟨?_, ?_, fun h => absurd h hs, fun _ => ?_⟩
      · simp only [List.countP_append, hns, ctail, zero_add, add_zero]
        simp [LoopEvent.isSend]
      · simp
      · simp only [hmod]
    · rw [(ht.2 hs).2 hk]
      refine ⟨?_, ?_, fun h => absurd h hs, fun _ => ?_⟩
      · simp [List.countP_append, hns, LoopEvent.isSend]
      · simp
      · simp only [hmod]


/-- C17: normal cycle.  In `loop()` of the AM1008W variants and of LoRa_Stabilize, when the
status is connected after the reconnection decision, exactly one transmission is attempted, of
the packet encoded with the current failure count.  If it returns `RADIOLIB_ERR_NONE` or
`RADIOLIB_LORAWAN_NEW_SESSION`, the failure count is 0, `last_successful_send` is the start
time of the cycle (as `uint32_t`), the status stays connected, and nothing else changes until
the end of the cycle.  For every other result the failure count is the previous one plus
exactly 1 (no wrap-around of the `uint8_t` counter is possible here) and the status is
send-failed, before any immediate reconnection. -/
theorem loop_normal_cycle (lib : RadioLib) (RADIOLIB_ERR_NO_JOIN_ACCEPT : Int)
    (interval : Nat) (env : LoopEnv) (sensorData : SensorData)
    (stabilizeData : Stabilize.SensorData) (g : Globals) :
    ((loop lib interval env sensorData g).decided.lorawan_status =
        LoRaWANStatus.LORAWAN_CONNECTED →
      (loop lib interval env sensorData g).trace.countP LoopEvent.isSend = 1 ∧
      LoopEvent.sendReceive (encodeSensorData sensorData
          (loop lib interval env sensorData g).decided.consecutive_send_failures) ∈
        (loop lib interval env sensorData g).trace ∧
      ((env.sendState = lib.RADIOLIB_ERR_NONE ∨
          env.sendState = lib.RADIOLIB_LORAWAN_NEW_SESSION) →
        (loop lib interval env sensorData g).afterSend =
          { (loop lib interval env sensorData g).decided with
            consecutive_send_failures := 0
            last_successful_send := env.currentTime % 4294967296
            lorawan_status := LoRaWANStatus.LORAWAN_CONNECTED } ∧
        (loop lib interval env sensorData g).globals =
          (loop lib interval env sensorData g).afterSend) ∧
      (¬ (env.sendState = lib.RADIOLIB_ERR_NONE ∨
          env.sendState = lib.RADIOLIB_LORAWAN_NEW_SESSION) →
        (loop lib interval env sensorData g).afterSend =
          { (loop lib interval env sensorData g).decided with
            consecutive_send_failures :=
              (loop lib interval env sensorData g).decided.consecutive_send_failures + 1
            lorawan_status := LoRaWANStatus.LORAWAN_SEND_FAILED })) ∧
    ((Stabilize.loop lib RADIOLIB_ERR_NO_JOIN_ACCEPT interval env stabilizeData
          g).decided.lorawan_status = LoRaWANStatus.LORAWAN_CONNECTED →
      (Stabilize.loop lib RADIOLIB_ERR_NO_JOIN_ACCEPT interval env stabilizeData
          g).trace.countP LoopEvent.isSend = 1 ∧
      LoopEvent.sendReceive (Stabilize.encodeSensorData stabilizeData
          (Stabilize.loop lib RADIOLIB_ERR_NO_JOIN_ACCEPT interval env stabilizeData
            g).decided.consecutive_send_failures) ∈
        (Stabilize.loop lib RADIOLIB_ERR_NO_JOIN_ACCEPT interval env stabilizeData g).trace ∧
      ((env.sendState = lib.RADIOLIB_ERR_NONE ∨
          env.sendState = lib.RADIOLIB_LORAWAN_NEW_SESSION) →
        (Stabilize.loop lib RADIOLIB_ERR_NO_JOIN_ACCEPT interval env stabilizeData
            g).afterSend =
          { (Stabilize.loop lib RADIOLIB_ERR_NO_JOIN_ACCEPT interval env stabilizeData
              g).decided with
            consecutive_send_failures := 0
            last_successful_send := env.currentTime % 4294967296
            lorawan_status := LoRaWANStatus.LORAWAN_CONNECTED } ∧
        (Stabilize.loop lib RADIOLIB_ERR_NO_JOIN_ACCEPT interval env stabilizeData
            g).globals =
          (Stabilize.loop lib RADIOLIB_ERR_NO_JOIN_ACCEPT interval env stabilizeData
            g).afterSend) ∧
      (¬ (env.sendState = lib.RADIOLIB_ERR_NONE ∨
          env.sendState = lib.RADIOLIB_LORAWAN_NEW_SESSION) →
        (Stabilize.loop lib RADIOLIB_ERR_NO_JOIN_ACCEPT interval env stabilizeData
            g).afterSend =
          { (Stabilize.loop lib RADIOLIB_ERR_NO_JOIN_ACCEPT interval env stabilizeData
              g).decided with
            consecutive_send_failures :=
              (Stabilize.loop lib RADIOLIB_ERR_NO_JOIN_ACCEPT interval env stabilizeData
                g).decided.consecutive_send_failures + 1
            lorawan_status := LoRaWANStatus.LORAWAN_SEND_FAILED })) :=
  ⟨fun hc => loopCore_normal_cycle (smartReconnect lib) (smartReconnect_true_failures lib)
      (fun e g h => (smartReconnect_restart lib e g h).2)
      lib (isCriticalError lib) (encodeSensorData sensorData) interval env g hc,
   fun hc => loopCore_normal_cycle (Stabilize.smartReconnect lib)
      (Stabilize.smartReconnect_resets_failures lib)
      (fun e g h => (Stabilize.smartReconnect_restarting lib e g h).2) lib
      (Stabilize.isCriticalError lib RADIOLIB_ERR_NO_JOIN_ACCEPT)
      (Stabilize.encodeSensorData stabilizeData) interval env g hc⟩

/-- A cycle with an active session whose transmission is refused with status -1116: one send,
and the failure count goes from 3 to 4 with the status send-failed; the same cycle of
LoRa_Stabilize with a successful transmission resets the count and stamps the start time. -/
theorem loop_normal_cycle_witness :
    (loop sampleLib 60 (cycleEnv true (-1116)) frameRoom
        (globalsAfterFailures 3 0)).decided.lorawan_status = LoRaWANStatus.LORAWAN_CONNECTED ∧
    ¬ ((cycleEnv true (-1116)).sendState = sampleLib.RADIOLIB_ERR_NONE ∨
        (cycleEnv true (-1116)).sendState = sampleLib.RADIOLIB_LORAWAN_NEW_SESSION) ∧
    (loop sampleLib 60 (cycleEnv true (-1116)) frameRoom
        (globalsAfterFailures 3 0)).trace.countP LoopEvent.isSend = 1 ∧
    (loop sampleLib 60 (cycleEnv true (-1116)) frameRoom (globalsAfterFailures 3 0)).afterSend =
      { consecutive_send_failures := 4, last_successful_send := 0, last_rejoin_attempt := 0,
        lorawan_status := LoRaWANStatus.LORAWAN_SEND_FAILED } ∧
    (Stabilize.loop sampleLib (-1116) 10 (cycleEnv true 0) Stabilize.frameRoom
        (globalsAfterFailures 3 0)).decided.lorawan_status = LoRaWANStatus.LORAWAN_CONNECTED ∧
    (Stabilize.loop sampleLib (-1116) 10 (cycleEnv true 0) Stabilize.frameRoom
        (globalsAfterFailures 3 0)).afterSend =
      { consecutive_send_failures := 0, last_successful_send := 100000, last_rejoin_attempt := 0,
        lorawan_status := LoRaWANStatus.LORAWAN_CONNECTED } := by
  have h := loop_normal_cycle sampleLib (-1116) 60 (cycleEnv true (-1116)) frameRoom
    Stabilize.frameRoom (globalsAfterFailures 3 0)
  have h2 := loop_normal_cycle sampleLib (-1116) 10 (cycleEnv true 0) frameRoom
    Stabilize.frameRoom (globalsAfterFailures 3 0)
  have hc1 : (loop sampleLib 60 (cycleEnv true (-1116)) frameRoom
        (globalsAfterFailures 3 0)).decided.lorawan_status =
      LoRaWANStatus.LORAWAN_CONNECTED := rfl
  have hc2 : (Stabilize.loop sampleLib (-1116) 10 (cycleEnv true 0) Stabilize.frameRoom
        (globalsAfterFailures 3 0)).decided.lorawan_status =
      LoRaWANStatus.LORAWAN_CONNECTED := rfl
  have hf : ¬ ((cycleEnv true (-1116)).sendState = sampleLib.RADIOLIB_ERR_NONE ∨
        (cycleEnv true (-1116)).sendState = sampleLib.RADIOLIB_LORAWAN_NEW_SESSION) := by
    decide
  have hs : (cycleEnv true 0).sendState = sampleLib.RADIOLIB_ERR_NONE ∨
        (cycleEnv true 0).sendState = sampleLib.RADIOLIB_LORAWAN_NEW_SESSION :=
    Or.inl rfl
  refine ⟨hc1, hf, (h.1 hc1).1, ?_, hc2, ?_⟩
  · rw [(h.1 hc1).2.2.2 hf]; rfl
  · rw [((h2.2 hc2).2.2.1 hs).1]; rfl


theorem Globals.with_status_self (g : Globals) (s : LoRaWANStatus)
    (h : g.lorawan_status = s) : g = { g with lorawan_status := s } := by
  cases g
  simp only at h
  subst h
  rfl

/-- C18: reconnection trigger.  In every cycle of `loop()`: if the session is not active or
the failure count is at least 5, `smartReconnect` is called before anything is encoded or sent
(the cycle starts with the two activation queries and the call), and the status after the
decision is connected or disconnected according to its result; otherwise the status is set to
connected, nothing else changes, and the first action after the activation query is the
transmission, so `smartReconnect` is not called before it.  After a failed reconnection the
cycle contains no transmission: it consists of the decision and, unless the reconnection
restarted the device, the delay and the sleep. -/
theorem loop_reconnection_trigger (lib : RadioLib) (interval : Nat) (env : LoopEnv)
    (sensorData : SensorData) (g : Globals) :
    ((env.activated = false ∨ g.consecutive_send_failures ≥ 5) →
      (∃ rest, (loop lib interval env sensorData g).trace =
          [LoopEvent.isActivated, LoopEvent.isActivated,
           LoopEvent.smartReconnect (smartReconnect lib env.reconnect g).trace] ++ rest) ∧
      (loop lib interval env sensorData g).decided =
        { (smartReconnect lib env.reconnect g).globals with
          lorawan_status :=
            if (smartReconnect lib env.reconnect g).result
            then LoRaWANStatus.LORAWAN_CONNECTED
            else LoRaWANStatus.LORAWAN_DISCONNECTED } ∧
      ((smartReconnect lib env.reconnect g).result = false →
        (loop lib interval env sensorData g).trace.countP LoopEvent.isSend = 0 ∧
        (loop lib interval env sensorData g).trace =
          [LoopEvent.isActivated, LoopEvent.isActivated,
           LoopEvent.smartReconnect (smartReconnect lib env.reconnect g).trace] ++
          (if Event.restart ∈ (smartReconnect lib env.reconnect g).trace then []
           else [LoopEvent.delay 5000,
             LoopEvent.enterLightSleep ((interval + 4294967296 - 5) % 4294967296)]) ∧
        (loop lib interval env sensorData g).globals =
          (loop lib interval env sensorData g).decided)) ∧
    (¬ (env.activated = false ∨ g.consecutive_send_failures ≥ 5) →
      (loop lib interval env sensorData g).decided =
        { g with lorawan_status := LoRaWANStatus.LORAWAN_CONNECTED } ∧
      ∃ rest, (loop lib interval env sensorData g).trace =
        LoopEvent.isActivated ::
          LoopEvent.sendReceive (encodeSensorData sensorData g.consecutive_send_failures) ::
          rest) := by
  have hcases := loopReconnect_cases (smartReconnect lib) env g
  constructor
  · intro hc
    have hc' : env.activated = false ∨ g.consecutive_send_failures ≥ MAX_SEND_FAILURES := hc
    by_cases hrs : Event.restart ∈ (smartReconnect lib env.reconnect g).trace
    · have hd := (hcases.1 hc').1 hrs
      have hres := smartReconnect_restart lib env.reconnect g hrs
      have hl : loop lib interval env sensorData g = _ :=
        loopCore_of_restarted (smartReconnect lib) lib (isCriticalError lib)
          (encodeSensorData sensorData) interval env g (by rw [hd])
      rw [hl, hd]
      simp only [hres.1, Bool.false_eq_true, if_false, if_pos hrs, List.append_nil]
      refine ⟨⟨[], rfl⟩, Globals.with_status_self _ _ hres.2,
        fun _ => ⟨?_, trivial, trivial⟩⟩
      simp [LoopEvent.isSend]
    · have hd := (hcases.1 hc').2 hrs
      have hl : loop lib interval env sensorData g = _ :=
        loopCore_of_not_restarted (smartReconnect lib) lib (isCriticalError lib)
          (encodeSensorData sensorData) interval env g (by rw [hd])
      rw [hl, hd]
      simp only [if_neg hrs]
      refine ⟨⟨_, by rw [List.append_assoc]⟩, trivial, fun hf => ?_⟩
      have hnc : ¬ ({ (smartReconnect lib env.reconnect g).globals with
          lorawan_status := if (smartReconnect lib env.reconnect g).result = true
            then LoRaWANStatus.LORAWAN_CONNECTED
            else LoRaWANStatus.LORAWAN_DISCONNECTED } : Globals).lorawan_status =
          LoRaWANStatus.LORAWAN_CONNECTED := by
        simp [hf]
      rw [loopTransmit_not_connected _ _ _ _ _ _ hnc]
      simp only [List.append_nil, Bool.false_eq_true, if_false]
      refine ⟨?_, trivial, trivial⟩
      simp [LoopEvent.isSend]
  · intro hc
    have hc' : ¬ (env.activated = false ∨ g.consecutive_send_failures ≥ MAX_SEND_FAILURES) := hc
    have hd := hcases.2 hc'
    have hl : loop lib interval env sensorData g = _ :=
      loopCore_of_not_restarted (smartReconnect lib) lib (isCriticalError lib)
        (encodeSensorData sensorData) interval env g (by rw [hd])
    rw [hl, hd]
    simp only
    refine ⟨trivial, ?_⟩
    have ht := loopTransmit_connected (smartReconnect lib) lib (isCriticalError lib)
      (encodeSensorData sensorData) env
      { g with lorawan_status := LoRaWANStatus.LORAWAN_CONNECTED } rfl
    by_cases hs : env.sendState = lib.RADIOLIB_ERR_NONE ∨
        env.sendState = lib.RADIOLIB_LORAWAN_NEW_SESSION
    · rw [ht.1 hs]
      exact ⟨_, rfl⟩
    · by_cases hk : isCriticalError lib env.sendState = true
      · rw [(ht.2 hs).1 hk]
        exact ⟨_, rfl⟩
      · rw [(ht.2 hs).2 hk]
        exact ⟨_, rfl⟩

/-- A cycle that starts with the session inactive, five failures on record and a reconnection
that fails (radio dead): the reconnection is called and nothing is sent. -/
theorem loop_reconnection_trigger_witness :
    ((cycleEnv false 0).activated = false ∨
      (globalsAfterFailures 5 0).consecutive_send_failures ≥ 5) ∧
    (smartReconnect sampleLib (cycleEnv false 0).reconnect (globalsAfterFailures 5 0)).result =
      false ∧
    (loop sampleLib 60 (cycleEnv false 0) frameRoom (globalsAfterFailures 5 0)).trace.countP
      LoopEvent.isSend = 0 ∧
    (loop sampleLib 60 (cycleEnv false 0) frameRoom
      (globalsAfterFailures 5 0)).decided.lorawan_status =
        LoRaWANStatus.LORAWAN_DISCONNECTED ∧
    ¬ ((cycleEnv true 0).activated = false ∨
      (globalsAfterFailures 4 0).consecutive_send_failures ≥ 5) ∧
    (loop sampleLib 60 (cycleEnv true 0) frameRoom (globalsAfterFailures 4 0)).decided =
      { globalsAfterFailures 4 0 with lorawan_status := LoRaWANStatus.LORAWAN_CONNECTED } := by
  have h := loop_reconnection_trigger sampleLib 60 (cycleEnv false 0) frameRoom
    (globalsAfterFailures 5 0)
  have h2 := loop_reconnection_trigger sampleLib 60 (cycleEnv true 0) frameRoom
    (globalsAfterFailures 4 0)
  have hc : (cycleEnv false 0).activated = false ∨
      (globalsAfterFailures 5 0).consecutive_send_failures ≥ 5 := Or.inl rfl
  have hr : (smartReconnect sampleLib (cycleEnv false 0).reconnect
      (globalsAfterFailures 5 0)).result = false := by decide
  have hn : ¬ ((cycleEnv true 0).activated = false ∨
      (globalsAfterFailures 4 0).consecutive_send_failures ≥ 5) := by decide
  refine ⟨hc, hr, ((h.1 hc).2.2 hr).1, ?_, hn, (h2.2 hn).1⟩
  rw [(h.1 hc).2.1, hr]; rfl


/-- C19: critical-error bypass of the AM1008W variants.  In a cycle of `loop()` in which a
transmission is attempted and fails, whatever the failure count: if the send result is
`RADIOLIB_ERR_NETWORK_NOT_JOINED`, `RADIOLIB_ERR_JOIN_NONCE_INVALID` or
`RADIOLIB_ERR_CHIP_NOT_FOUND`, the transmission is followed at once by a call of
`smartReconnect` (run on the globals with the incremented count), then (unless that call
restarted the device) the delay and the sleep; for every other error code the transmission is
followed by the delay and the sleep only, and no reconnection is invoked after it. -/
theorem loop_critical_error_bypass (lib : RadioLib) (interval : Nat) (env : LoopEnv)
    (sensorData : SensorData) (g : Globals)
    (hconn : (loop lib interval env sensorData g).decided.lorawan_status =
      LoRaWANStatus.LORAWAN_CONNECTED)
    (hfail : ¬ (env.sendState = lib.RADIOLIB_ERR_NONE ∨
      env.sendState = lib.RADIOLIB_LORAWAN_NEW_SESSION)) :
    ((env.sendState = lib.RADIOLIB_ERR_NETWORK_NOT_JOINED ∨
        env.sendState = lib.RADIOLIB_ERR_JOIN_NONCE_INVALID ∨
        env.sendState = lib.RADIOLIB_ERR_CHIP_NOT_FOUND) →
      (loop lib interval env sensorData g).trace =
        (loopReconnect (smartReconnect lib) env g).trace ++
        [LoopEvent.sendReceive (encodeSensorData sensorData
            (loop lib interval env sensorData g).decided.consecutive_send_failures),
         LoopEvent.smartReconnect (smartReconnect lib env.reconnectAfterSend
            (loop lib interval env sensorData g).afterSend).trace] ++
        (if Event.restart ∈ (smartReconnect lib env.reconnectAfterSend
            (loop lib interval env sensorData g).afterSend).trace then []
         else [LoopEvent.delay 5000,
           LoopEvent.enterLightSleep ((interval + 4294967296 - 5) % 4294967296)]) ∧
      (loop lib interval env sensorData g).globals =
        (smartReconnect lib env.reconnectAfterSend
          (loop lib interval env sensorData g).afterSend).globals) ∧
    (¬ (env.sendState = lib.RADIOLIB_ERR_NETWORK_NOT_JOINED ∨
        env.sendState = lib.RADIOLIB_ERR_JOIN_NONCE_INVALID ∨
        env.sendState = lib.RADIOLIB_ERR_CHIP_NOT_FOUND) →
      (loop lib interval env sensorData g).trace =
        (loopReconnect (smartReconnect lib) env g).trace ++
        [LoopEvent.sendReceive (encodeSensorData sensorData
            (loop lib interval env sensorData g).decided.consecutive_send_failures),
         LoopEvent.delay 5000,
         LoopEvent.enterLightSleep ((interval + 4294967296 - 5) % 4294967296)] ∧
      (loop lib interval env sensorData g).globals =
        (loop lib interval env sensorData g).afterSend) := by
  have hconn' : (loopReconnect (smartReconnect lib) env g).globals.lorawan_status =
      LoRaWANStatus.LORAWAN_CONNECTED := by
    have := loopCore_decided (smartReconnect lib) lib (isCriticalError lib)
      (encodeSensorData sensorData) interval env g
    unfold loop at hconn
    rw [this] at hconn
    exact hconn
  have hd := (loopReconnect_connected (smartReconnect lib) (smartReconnect_true_failures lib)
    (fun e g h => (smartReconnect_restart lib e g h).2) env g hconn').2
  have hl : loop lib interval env sensorData g = _ :=
    loopCore_of_not_restarted (smartReconnect lib) lib (isCriticalError lib)
      (encodeSensorData sensorData) interval env g hd
  have ht := (loopTransmit_connected (smartReconnect lib) lib (isCriticalError lib)
    (encodeSensorData sensorData) env (loopReconnect (smartReconnect lib) env g).globals
    hconn').2 hfail
  rw [hl]
  constructor
  · intro hk
    have hk' : isCriticalError lib env.sendState = true := by
      simp only [isCriticalError, decide_eq_true_eq]; exact hk
    rw [ht.1 hk']
    simp only [decide_eq_true_eq]
    refine ⟨?_, ?_⟩
    · first | rfl | simp
    · trivial
  · intro hk
    have hk' : ¬ isCriticalError lib env.sendState = true := by
      simp only [isCriticalError, decide_eq_true_eq]; exact hk
    rw [ht.2 hk']
    simp only [Bool.false_eq_true, if_false]
    exact ⟨by simp, trivial⟩

/-- A cycle with one failure on record whose transmission returns
`RADIOLIB_ERR_NETWORK_NOT_JOINED`: the reconnection is invoked once, right after the send; it
fails at the hardware reset without restarting, so the delay and the sleep follow. -/
theorem loop_critical_error_bypass_witness :
    (loop sampleLib 60 (cycleEnv true (-1101)) frameRoom
      (globalsAfterFailures 1 0)).decided.lorawan_status = LoRaWANStatus.LORAWAN_CONNECTED ∧
    ¬ ((cycleEnv true (-1101)).sendState = sampleLib.RADIOLIB_ERR_NONE ∨
      (cycleEnv true (-1101)).sendState = sampleLib.RADIOLIB_LORAWAN_NEW_SESSION) ∧
    (cycleEnv true (-1101)).sendState = sampleLib.RADIOLIB_ERR_NETWORK_NOT_JOINED ∧
    (loop sampleLib 60 (cycleEnv true (-1101)) frameRoom (globalsAfterFailures 1 0)).trace =
      (loopReconnect (smartReconnect sampleLib) (cycleEnv true (-1101))
        (globalsAfterFailures 1 0)).trace ++
      [LoopEvent.sendReceive (encodeSensorData frameRoom
          (loop sampleLib 60 (cycleEnv true (-1101)) frameRoom
            (globalsAfterFailures 1 0)).decided.consecutive_send_failures),
       LoopEvent.smartReconnect (smartReconnect sampleLib
          (cycleEnv true (-1101)).reconnectAfterSend
          (loop sampleLib 60 (cycleEnv true (-1101)) frameRoom
            (globalsAfterFailures 1 0)).afterSend).trace,
       LoopEvent.delay 5000,
       LoopEvent.enterLightSleep ((60 + 4294967296 - 5) % 4294967296)] := by
  have hc : (loop sampleLib 60 (cycleEnv true (-1101)) frameRoom
      (globalsAfterFailures 1 0)).decided.lorawan_status = LoRaWANStatus.LORAWAN_CONNECTED := rfl
  have h := ((loop_critical_error_bypass sampleLib 60 (cycleEnv true (-1101)) frameRoom
      (globalsAfterFailures 1 0) hc (by decide)).1 (Or.inl rfl)).1
  have hno : Event.restart ∉ (smartReconnect sampleLib
      (cycleEnv true (-1101)).reconnectAfterSend
      (loop sampleLib 60 (cycleEnv true (-1101)) frameRoom
        (globalsAfterFailures 1 0)).afterSend).trace := by decide
  rw [if_neg hno] at h
  refine ⟨hc, by decide, rfl, ?_⟩
  rw [h, List.append_assoc]
  rfl


/-! ## Sleep duration -/

/-- The restart flag of the reconnection decision: it is set exactly when the reconnection it
made issued a restart, which is then the last action; the decision never delays or sleeps. -/
theorem loopReconnect_restarted (reconnectFn : ReconnectEnv → Globals → Outcome)
    (env : LoopEnv) (g : Globals) :
    ((loopReconnect reconnectFn env g).restarted = true →
      ∃ pre tr, (loopReconnect reconnectFn env g).trace = pre ++ [LoopEvent.smartReconnect tr] ∧
        Event.restart ∈ tr) ∧
    ((loopReconnect reconnectFn env g).restarted = false →
      ∀ tr, LoopEvent.smartReconnect tr ∈ (loopReconnect reconnectFn env g).trace →
        Event.restart ∉ tr) ∧
    (loopReconnect reconnectFn env g).trace.countP LoopEvent.isDelay = 0 ∧
    (loopReconnect reconnectFn env g).trace.countP LoopEvent.isSleep = 0 := by
  have hcases := loopReconnect_cases reconnectFn env g
  by_cases hc : env.activated = false ∨ g.consecutive_send_failures ≥ MAX_SEND_FAILURES
  · by_cases hr : Event.restart ∈ (reconnectFn env.reconnect g).trace
    · rw [(hcases.1 hc).1 hr]
      refine ⟨fun _ => ⟨[LoopEvent.isActivated, LoopEvent.isActivated], _, rfl, hr⟩,
        fun h => absurd h (by simp), by simp [LoopEvent.isDelay], by simp [LoopEvent.isSleep]⟩
    · rw [(hcases.1 hc).2 hr]
      refine ⟨fun h => absurd h (by simp), fun _ tr htr => ?_, by simp [LoopEvent.isDelay],
        by simp [LoopEvent.isSleep]⟩
      simp only [List.mem_cons, List.mem_singleton, reduceCtorEq, false_or,
        LoopEvent.smartReconnect.injEq, List.not_mem_nil, or_false] at htr
      rw [htr]; exact hr
  · rw [hcases.2 hc]
    refine ⟨fun h => absurd h (by simp), fun _ tr htr => ?_, by simp [LoopEvent.isDelay],
      by simp [LoopEvent.isSleep]⟩
    simp at htr

/-- The restart flag of the transmission block: it is set exactly when the immediate
reconnection issued a restart, which is then the last action; the block never delays or
sleeps. -/
theorem loopTransmit_restarted (reconnectFn : ReconnectEnv → Globals → Outcome)
    (lib : RadioLib) (isCritical : Int → Bool) (encode : Nat → List Nat) (env : LoopEnv)
    (g : Globals) :
    ((loopTransmit reconnectFn lib isCritical encode env g).restarted = true →
      ∃ pre tr, (loopTransmit reconnectFn lib isCritical encode env g).trace =
        pre ++ [LoopEvent.smartReconnect tr] ∧ Event.restart ∈ tr) ∧
    ((loopTransmit reconnectFn lib isCritical encode env g).restarted = false →
      ∀ tr, LoopEvent.smartReconnect tr ∈
          (loopTransmit reconnectFn lib isCritical encode env g).trace →
        Event.restart ∉ tr) ∧
    (loopTransmit reconnectFn lib isCritical encode env g).trace.countP LoopEvent.isDelay = 0 ∧
    (loopTransmit reconnectFn lib isCritical encode env g).trace.countP LoopEvent.isSleep = 0 := by
  by_cases hc : g.lorawan_status = LoRaWANStatus.LORAWAN_CONNECTED
  · have ht := loopTransmit_connected reconnectFn lib isCritical encode env g hc
    by_cases hs : env.sendState = lib.RADIOLIB_ERR_NONE ∨
        env.sendState = lib.RADIOLIB_LORAWAN_NEW_SESSION
    · rw [ht.1 hs]
      refine ⟨fun h => absurd h (by simp), fun _ tr htr => ?_, by simp [LoopEvent.isDelay],
        by simp [LoopEvent.isSleep]⟩
      simp at htr
    · by_cases hk : isCritical env.sendState = true
      · rw [(ht.2 hs).1 hk]
        refine ⟨fun h => ⟨[LoopEvent.sendReceive (encode g.consecutive_send_failures)], _, rfl,
            by simpa using h⟩,
          fun h tr htr => ?_, by simp [LoopEvent.isDelay], by simp [LoopEvent.isSleep]⟩
        simp only [List.mem_cons, List.mem_singleton, reduceCtorEq, false_or,
          LoopEvent.smartReconnect.injEq, List.not_mem_nil, or_false] at htr
        rw [htr]
        simpa using h
      · rw [(ht.2 hs).2 hk]
        refine ⟨fun h => absurd h (by simp), fun _ tr htr => ?_, by simp [LoopEvent.isDelay],
          by simp [LoopEvent.isSleep]⟩
        simp at htr
  · rw [loopTransmit_not_connected reconnectFn lib isCritical encode env g hc]
    refine ⟨fun h => absurd h (by simp), fun _ tr htr => ?_, by simp [LoopEvent.isDelay],
      by simp [LoopEvent.isSleep]⟩
    simp at htr

/-- How a cycle ends.  A cycle in which no reconnection restarted the device ends with the 5 s
delay and the light sleep; a cycle in which one did ends with that reconnection, without any
delay or sleep. -/
theorem loopCore_trace_end (reconnectFn : ReconnectEnv → Globals → Outcome) (lib : RadioLib)
    (isCritical : Int → Bool) (encode : Nat → List Nat) (interval : Nat) (env : LoopEnv)
    (g : Globals) :
    ((loopCore reconnectFn lib isCritical encode interval env g).restarted = false →
      (∃ pre, (loopCore reconnectFn lib isCritical encode interval env g).trace =
        pre ++ [LoopEvent.delay 5000,
          LoopEvent.enterLightSleep ((interval + 4294967296 - 5) % 4294967296)]) ∧
      ∀ tr, LoopEvent.smartReconnect tr ∈
          (loopCore reconnectFn lib isCritical encode interval env g).trace →
        Event.restart ∉ tr) ∧
    ((loopCore reconnectFn lib isCritical encode interval env g).restarted = true →
      (∃ pre tr, (loopCore reconnectFn lib isCritical encode interval env g).trace =
        pre ++ [LoopEvent.smartReconnect tr] ∧ Event.restart ∈ tr) ∧
      (loopCore reconnectFn lib isCritical encode interval env g).trace.countP
        LoopEvent.isDelay = 0 ∧
      (loopCore reconnectFn lib isCritical encode interval env g).trace.countP
        LoopEvent.isSleep = 0) := by
  have hd := loopReconnect_restarted reconnectFn env g
  have ht := loopTransmit_restarted reconnectFn lib isCritical encode env
    (loopReconnect reconnectFn env g).globals
  by_cases hdr : (loopReconnect reconnectFn env g).restarted = true
  · rw [loopCore_of_restarted reconnectFn lib isCritical encode interval env g hdr]
    exact ⟨fun h => absurd h (by simp), fun _ => ⟨hd.1 hdr, hd.2.2.1, hd.2.2.2⟩⟩
  · have hdr' : (loopReconnect reconnectFn env g).restarted = false := by simpa using hdr
    rw [loopCore_of_not_restarted reconnectFn lib isCritical encode interval env g hdr']
    simp only
    constructor
    · intro htr
      rw [htr]
      simp only [Bool.false_eq_true, if_false]
      refine ⟨⟨_, rfl⟩, fun tr hmem => ?_⟩
      simp only [List.mem_append, List.mem_cons, List.mem_singleton, reduceCtorEq,
        List.not_mem_nil, or_false] at hmem
      rcases hmem with hmem | hmem
      · exact hd.2.1 hdr' tr hmem
      · exact ht.2.1 htr tr hmem
    · intro htr
      rw [htr]
      simp only [if_true, List.append_nil, List.countP_append, hd.2.2.1, hd.2.2.2,
        ht.2.2.1, ht.2.2.2]
      obtain ⟨pre, tr, hpre, hmem⟩ := ht.1 htr
      refine ⟨⟨(loopReconnect reconnectFn env g).trace ++ pre, tr, ?_, hmem⟩, trivial, trivial⟩
      rw [hpre, List.append_assoc]


/-- C26: sleep duration.  For every configured interval of at least 5 seconds (a `uint32_t`),
every cycle of `loop()` (AM1008W variants and LoRa_Stabilize) that reaches its end, i.e. in
which no reconnection restarted the device, ends with the 5 s observation delay followed by
`enterLightSleep(uplinkIntervalSeconds - 5)`, so the window plus the sleep equals the interval;
a cycle in which `smartReconnect` restarted the device ends with that call and has neither the
delay nor the sleep.  `enterLightSleep` arms the timer with `seconds * 1000000` microseconds,
and for every 32-bit number of seconds this product is below `2^64`, so it is computed without
overflow. -/
theorem loop_sleep_duration (lib : RadioLib) (RADIOLIB_ERR_NO_JOIN_ACCEPT : Int)
    (interval : Nat) (env : LoopEnv) (sensorData : SensorData)
    (stabilizeData : Stabilize.SensorData) (g : Globals)
    (h5 : 5 ≤ interval) (h32 : interval < 4294967296) :
    ((loop lib interval env sensorData g).restarted = false →
      ∃ pre, (loop lib interval env sensorData g).trace =
        pre ++ [LoopEvent.delay 5000, LoopEvent.enterLightSleep (interval - 5)]) ∧
    ((loop lib interval env sensorData g).restarted = true →
      (∃ pre tr, (loop lib interval env sensorData g).trace =
        pre ++ [LoopEvent.smartReconnect tr] ∧ Event.restart ∈ tr) ∧
      (loop lib interval env sensorData g).trace.countP LoopEvent.isDelay = 0 ∧
      (loop lib interval env sensorData g).trace.countP LoopEvent.isSleep = 0) ∧
    ((Stabilize.loop lib RADIOLIB_ERR_NO_JOIN_ACCEPT interval env stabilizeData
        g).restarted = false →
      ∃ pre, (Stabilize.loop lib RADIOLIB_ERR_NO_JOIN_ACCEPT interval env stabilizeData
          g).trace =
        pre ++ [LoopEvent.delay 5000, LoopEvent.enterLightSleep (interval - 5)]) ∧
    ((Stabilize.loop lib RADIOLIB_ERR_NO_JOIN_ACCEPT interval env stabilizeData
        g).restarted = true →
      (∃ pre tr, (Stabilize.loop lib RADIOLIB_ERR_NO_JOIN_ACCEPT interval env stabilizeData
          g).trace = pre ++ [LoopEvent.smartReconnect tr] ∧ Event.restart ∈ tr) ∧
      (Stabilize.loop lib RADIOLIB_ERR_NO_JOIN_ACCEPT interval env stabilizeData
        g).trace.countP LoopEvent.isDelay = 0 ∧
      (Stabilize.loop lib RADIOLIB_ERR_NO_JOIN_ACCEPT interval env stabilizeData
        g).trace.countP LoopEvent.isSleep = 0) ∧
    5 + (interval - 5) = interval ∧
    5000 * 1000 + enterLightSleep (interval - 5) = interval * 1000000 ∧
    ∀ seconds, seconds < 4294967296 →
      enterLightSleep seconds = seconds * 1000000 ∧
      seconds * 1000000 < 18446744073709551616 := by
  have hsub : (interval + 4294967296 - 5) % 4294967296 = interval - 5 := by omega
  have hsleep : ∀ seconds, seconds < 4294967296 →
      enterLightSleep seconds = seconds * 1000000 ∧
      seconds * 1000000 < 18446744073709551616 := by
    intro seconds hs
    have hlt : seconds * 1000000 < 18446744073709551616 := by omega
    unfold enterLightSleep
    rw [Nat.mod_eq_of_lt hs, Nat.mod_eq_of_lt hlt]
    exact ⟨rfl, hlt⟩
  have h1 := loopCore_trace_end (smartReconnect lib) lib (isCriticalError lib)
    (encodeSensorData sensorData) interval env g
  have h2 := loopCore_trace_end (Stabilize.smartReconnect lib) lib
    (Stabilize.isCriticalError lib RADIOLIB_ERR_NO_JOIN_ACCEPT)
    (Stabilize.encodeSensorData stabilizeData) interval env g
  rw [hsub] at h1 h2
  refine ⟨fun h => (h1.1 h).1, h1.2, fun h => (h2.1 h).1, h2.2, by omega, ?_, hsleep⟩
  rw [(hsleep (interval - 5) (by omega)).1]
  omega

/-- The 60 s configuration sleeps 55 s (55000000 microseconds) and the 10 s configuration 5 s
after the 5 s window; a cycle in which all three joins are refused restarts the device and
does not sleep. -/
theorem loop_sleep_duration_witness :
    (5 ≤ 60 ∧ 60 < 4294967296) ∧
    (loop sampleLib 60 (cycleEnv true 0) frameRoom (globalsAfterFailures 0 0)).restarted =
      false ∧
    (∃ pre, (loop sampleLib 60 (cycleEnv true 0) frameRoom (globalsAfterFailures 0 0)).trace =
      pre ++ [LoopEvent.delay 5000, LoopEvent.enterLightSleep (60 - 5)]) ∧
    enterLightSleep 55 = 55000000 ∧
    (∃ pre, (Stabilize.loop sampleLib (-1116) 10 (cycleEnv true 0) Stabilize.frameRoom
        (globalsAfterFailures 0 0)).trace =
      pre ++ [LoopEvent.delay 5000, LoopEvent.enterLightSleep (10 - 5)]) ∧
    enterLightSleep 5 = 5000000 ∧
    (loop sampleLib 60 cycleEnvRestart frameRoom (globalsAfterFailures 0 0)).restarted = true ∧
    (loop sampleLib 60 cycleEnvRestart frameRoom (globalsAfterFailures 0 0)).trace.countP
      LoopEvent.isSleep = 0 := by
  have hn : (loop sampleLib 60 (cycleEnv true 0) frameRoom
      (globalsAfterFailures 0 0)).restarted = false := rfl
  have hn2 : (Stabilize.loop sampleLib (-1116) 10 (cycleEnv true 0) Stabilize.frameRoom
      (globalsAfterFailures 0 0)).restarted = false := rfl
  have hr : (loop sampleLib 60 cycleEnvRestart frameRoom
      (globalsAfterFailures 0 0)).restarted = true := by decide
  exact ⟨⟨by decide, by decide⟩, hn,
   (loop_sleep_duration sampleLib (-1116) 60 (cycleEnv true 0) frameRoom Stabilize.frameRoom
      (globalsAfterFailures 0 0) (by decide) (by decide)).1 hn,
   by decide,
   (loop_sleep_duration sampleLib (-1116) 10 (cycleEnv true 0) frameRoom Stabilize.frameRoom
      (globalsAfterFailures 0 0) (by decide) (by decide)).2.2.1 hn2,
   by decide, hr,
   ((loop_sleep_duration sampleLib (-1116) 60 cycleEnvRestart frameRoom Stabilize.frameRoom
      (globalsAfterFailures 0 0) (by decide) (by decide)).2.1 hr).2.2⟩


/-! ## Postcondition of the reconnection, at the calls the firmware makes -/

/-- The condition on the status at entry in the postcondition below is needed: a call made
within the cooldown from a state whose status is already connecting returns false and leaves
that status (AM1008W variants and LoRa_Stabilize).  The firmware never makes such a call. -/
theorem smartReconnect_returns_connecting :
    (smartReconnect sampleLib envAllFail globalsConnecting).result = false ∧
    (smartReconnect sampleLib envAllFail globalsConnecting).globals.lorawan_status =
      LoRaWANStatus.LORAWAN_CONNECTING ∧
    (Stabilize.smartReconnect sampleLib envAllFail globalsConnecting).result = false ∧
    (Stabilize.smartReconnect sampleLib envAllFail globalsConnecting).globals.lorawan_status =
      LoRaWANStatus.LORAWAN_CONNECTING := by
  decide

/-- C28: postcondition of `smartReconnect` (AM1008W variants and LoRa_Stabilize), for every
pre-state and every outcome of the hardware and network calls.  If it returns true, the status
is connected and `consecutive_send_failures` is 0.  If it returns false,
`consecutive_send_failures` is unchanged and either the whole state is unchanged (cooldown
abort) or the status is disconnected.  From every pre-state the firmware can have at a call
(the statuses connecting and rejoin-needed are assigned only inside `smartReconnect`), it never
returns leaving the status at connecting or rejoin-needed; in general it can return with such a
status only by returning false with the whole state unchanged. -/
theorem smartReconnect_postcondition (lib : RadioLib) (env : ReconnectEnv) (g : Globals) :
    (((smartReconnect lib env g).result = true →
        (smartReconnect lib env g).globals.lorawan_status = LoRaWANStatus.LORAWAN_CONNECTED ∧
        (smartReconnect lib env g).globals.consecutive_send_failures = 0) ∧
      ((smartReconnect lib env g).result = false →
        (smartReconnect lib env g).globals.consecutive_send_failures =
          g.consecutive_send_failures ∧
        ((smartReconnect lib env g).globals = g ∨
          (smartReconnect lib env g).globals.lorawan_status =
            LoRaWANStatus.LORAWAN_DISCONNECTED)) ∧
      (g.lorawan_status ≠ LoRaWANStatus.LORAWAN_CONNECTING →
        g.lorawan_status ≠ LoRaWANStatus.LORAWAN_REJOIN_NEEDED →
        (smartReconnect lib env g).globals.lorawan_status ≠
          LoRaWANStatus.LORAWAN_CONNECTING ∧
        (smartReconnect lib env g).globals.lorawan_status ≠
          LoRaWANStatus.LORAWAN_REJOIN_NEEDED) ∧
      (((smartReconnect lib env g).globals.lorawan_status = LoRaWANStatus.LORAWAN_CONNECTING ∨
          (smartReconnect lib env g).globals.lorawan_status =
            LoRaWANStatus.LORAWAN_REJOIN_NEEDED) →
        (smartReconnect lib env g).result = false ∧ (smartReconnect lib env g).globals = g)) ∧
    (((Stabilize.smartReconnect lib env g).result = true →
        (Stabilize.smartReconnect lib env g).globals.lorawan_status =
          LoRaWANStatus.LORAWAN_CONNECTED ∧
        (Stabilize.smartReconnect lib env g).globals.consecutive_send_failures = 0) ∧
      ((Stabilize.smartReconnect lib env g).result = false →
        (Stabilize.smartReconnect lib env g).globals.consecutive_send_failures =
          g.consecutive_send_failures ∧
        ((Stabilize.smartReconnect lib env g).globals = g ∨
          (Stabilize.smartReconnect lib env g).globals.lorawan_status =
            LoRaWANStatus.LORAWAN_DISCONNECTED)) ∧
      (g.lorawan_status ≠ LoRaWANStatus.LORAWAN_CONNECTING →
        g.lorawan_status ≠ LoRaWANStatus.LORAWAN_REJOIN_NEEDED →
        (Stabilize.smartReconnect lib env g).globals.lorawan_status ≠
          LoRaWANStatus.LORAWAN_CONNECTING ∧
        (Stabilize.smartReconnect lib env g).globals.lorawan_status ≠
          LoRaWANStatus.LORAWAN_REJOIN_NEEDED) ∧
      (((Stabilize.smartReconnect lib env g).globals.lorawan_status =
            LoRaWANStatus.LORAWAN_CONNECTING ∨
          (Stabilize.smartReconnect lib env g).globals.lorawan_status =
            LoRaWANStatus.LORAWAN_REJOIN_NEEDED) →
        (Stabilize.smartReconnect lib env g).result = false ∧
        (Stabilize.smartReconnect lib env g).globals = g)) := by
  have key : ∀ o : Outcome,
      (o.result = true → o.globals.lorawan_status = LoRaWANStatus.LORAWAN_CONNECTED ∧
        o.globals.consecutive_send_failures = 0) →
      (o.result = false → o.globals.consecutive_send_failures = g.consecutive_send_failures ∧
        (o.globals = g ∨ o.globals.lorawan_status = LoRaWANStatus.LORAWAN_DISCONNECTED)) →
      ((o.globals.lorawan_status = LoRaWANStatus.LORAWAN_CONNECTING ∨
          o.globals.lorawan_status = LoRaWANStatus.LORAWAN_REJOIN_NEEDED) →
        o.result = false ∧ o.globals = g) := by
    intro o ht hf hs
    by_cases hr : o.result = true
    · have := (ht hr).1
      rcases hs with hs | hs <;> rw [this] at hs <;> exact absurd hs (by decide)
    · have hr' : o.result = false := by simpa using hr
      refine ⟨hr', ?_⟩
      rcases (hf hr').2 with h | h
      · exact h
      · rcases hs with hs | hs <;> rw [h] at hs <;> exact absurd hs (by decide)
  have key2 : ∀ o : Outcome,
      ((o.globals.lorawan_status = LoRaWANStatus.LORAWAN_CONNECTING ∨
          o.globals.lorawan_status = LoRaWANStatus.LORAWAN_REJOIN_NEEDED) →
        o.result = false ∧ o.globals = g) →
      (g.lorawan_status ≠ LoRaWANStatus.LORAWAN_CONNECTING →
        g.lorawan_status ≠ LoRaWANStatus.LORAWAN_REJOIN_NEEDED →
        o.globals.lorawan_status ≠ LoRaWANStatus.LORAWAN_CONNECTING ∧
        o.globals.lorawan_status ≠ LoRaWANStatus.LORAWAN_REJOIN_NEEDED) := by
    intro o hk h1 h2
    constructor
    · intro hs
      have := (hk (Or.inl hs)).2
      rw [this] at hs
      exact h1 hs
    · intro hs
      have := (hk (Or.inr hs)).2
      rw [this] at hs
      exact h2 hs
  have h1 := smartReconnect_on_return lib env g
  have h2 := Stabilize.smartReconnect_guarantees lib env g
  exact ⟨⟨h1.1, h1.2, key2 _ (key _ h1.1 h1.2), key _ h1.1 h1.2⟩,
    ⟨h2.1, h2.2, key2 _ (key _ h2.1 h2.2), key _ h2.1 h2.2⟩⟩

/-- From a send-failed state: a restore that succeeds returns true with the status connected
and the count 0; a call with five failures on record whose hardware reset fails returns false
with the count still 5 and the status disconnected, not connecting. -/
theorem smartReconnect_postcondition_witness :
    (smartReconnect sampleLib envRestore (globalsAfterFailures 1 0)).result = true ∧
    (smartReconnect sampleLib envRestore (globalsAfterFailures 1 0)).globals.lorawan_status =
      LoRaWANStatus.LORAWAN_CONNECTED ∧
    (Stabilize.smartReconnect sampleLib envAllFail (globalsAfterFailures 5 0)).result = false ∧
    (Stabilize.smartReconnect sampleLib envAllFail
      (globalsAfterFailures 5 0)).globals.consecutive_send_failures =
      (globalsAfterFailures 5 0).consecutive_send_failures ∧
    (globalsAfterFailures 5 0).lorawan_status ≠ LoRaWANStatus.LORAWAN_CONNECTING ∧
    (globalsAfterFailures 5 0).lorawan_status ≠ LoRaWANStatus.LORAWAN_REJOIN_NEEDED ∧
    (smartReconnect sampleLib envAllFail (globalsAfterFailures 5 0)).globals.lorawan_status ≠
      LoRaWANStatus.LORAWAN_CONNECTING ∧
    (smartReconnect sampleLib envAllFail (globalsAfterFailures 5 0)).globals.lorawan_status ≠
      LoRaWANStatus.LORAWAN_REJOIN_NEEDED := by
  have ht : (smartReconnect sampleLib envRestore (globalsAfterFailures 1 0)).result = true := by
    decide
  have hf : (Stabilize.smartReconnect sampleLib envAllFail
      (globalsAfterFailures 5 0)).result = false := by decide
  have hp1 : (globalsAfterFailures 5 0).lorawan_status ≠ LoRaWANStatus.LORAWAN_CONNECTING := by
    decide
  have hp2 : (globalsAfterFailures 5 0).lorawan_status ≠
      LoRaWANStatus.LORAWAN_REJOIN_NEEDED := by decide
  exact ⟨ht,
    ((smartReconnect_postcondition sampleLib envRestore (globalsAfterFailures 1 0)).1.1 ht).1,
    hf,
    ((smartReconnect_postcondition sampleLib envAllFail (globalsAfterFailures 5 0)).2.2.1 hf).1,
    hp1, hp2,
    (smartReconnect_postcondition sampleLib envAllFail (globalsAfterFailures 5 0)).1.2.2.1
      hp1 hp2⟩


/-! ## Invariant of the failure counter -/

theorem smartReconnect_failures_le (lib : RadioLib) (env : ReconnectEnv) (g : Globals) :
    (smartReconnect lib env g).globals.consecutive_send_failures ≤
      g.consecutive_send_failures := by
  have h := smartReconnect_on_return lib env g
  by_cases hr : (smartReconnect lib env g).result = true
  · rw [(h.1 hr).2]; exact Nat.zero_le _
  · have hr' : (smartReconnect lib env g).result = false := by simpa using hr
    rw [(h.2 hr').1]

theorem loopReconnect_failures_le (reconnectFn : ReconnectEnv → Globals → Outcome)
    (hle : ∀ e g, (reconnectFn e g).globals.consecutive_send_failures ≤
      g.consecutive_send_failures)
    (env : LoopEnv) (g : Globals) :
    (loopReconnect reconnectFn env g).globals.consecutive_send_failures ≤
      g.consecutive_send_failures := by
  have hcases := loopReconnect_cases reconnectFn env g
  by_cases hc : env.activated = false ∨ g.consecutive_send_failures ≥ MAX_SEND_FAILURES
  · by_cases hr : Event.restart ∈ (reconnectFn env.reconnect g).trace
    · rw [(hcases.1 hc).1 hr]; exact hle _ _
    · rw [(hcases.1 hc).2 hr]; exact hle _ _
  · rw [hcases.2 hc]

/-- A transmission occurs in a cycle only when the status is connected after the decision, and
its payload is the packet encoded with the failure count of that moment. -/
theorem loopCore_send_mem (reconnectFn : ReconnectEnv → Globals → Outcome) (lib : RadioLib)
    (isCritical : Int → Bool) (encode : Nat → List Nat) (interval : Nat) (env : LoopEnv)
    (g : Globals) (p : List Nat)
    (hp : LoopEvent.sendReceive p ∈
      (loopCore reconnectFn lib isCritical encode interval env g).trace) :
    (loopCore reconnectFn lib isCritical encode interval env g).decided.lorawan_status =
      LoRaWANStatus.LORAWAN_CONNECTED ∧
    p = encode
      (loopCore reconnectFn lib isCritical encode interval env g).decided.consecutive_send_failures := by
  have hd := loopReconnect_trace_mem reconnectFn env g p
  rw [loopCore_decided]
  by_cases hdr : (loopReconnect reconnectFn env g).restarted = true
  · rw [loopCore_of_restarted reconnectFn lib isCritical encode interval env g hdr] at hp
    exact absurd hp hd
  · have hdr' : (loopReconnect reconnectFn env g).restarted = false := by simpa using hdr
    rw [loopCore_of_not_restarted reconnectFn lib isCritical encode interval env g hdr'] at hp
    simp only [List.mem_append, hd, false_or] at hp
    have htail : LoopEvent.sendReceive p ∉
        (if (loopTransmit reconnectFn lib isCritical encode env
            (loopReconnect reconnectFn env g).globals).restarted = true then []
         else [LoopEvent.delay 5000,
           LoopEvent.enterLightSleep ((interval + 4294967296 - 5) % 4294967296)]) := by
      split_ifs <;> simp
    have hp' := hp.resolve_right htail
    by_cases hc : (loopReconnect reconnectFn env g).globals.lorawan_status =
        LoRaWANStatus.LORAWAN_CONNECTED
    · refine ⟨hc, ?_⟩
      have ht := loopTransmit_connected reconnectFn lib isCritical encode env
        (loopReconnect reconnectFn env g).globals hc
      by_cases hs : env.sendState = lib.RADIOLIB_ERR_NONE ∨
          env.sendState = lib.RADIOLIB_LORAWAN_NEW_SESSION
      · rw [ht.1 hs] at hp'
        simpa using hp'
      · by_cases hk : isCritical env.sendState = true
        · rw [(ht.2 hs).1 hk] at hp'
          simpa using hp'
        · rw [(ht.2 hs).2 hk] at hp'
          simpa using hp'
    · rw [loopTransmit_not_connected reconnectFn lib isCritical encode env _ hc] at hp'
      simp at hp'

/-- One cycle keeps the failure counter at or below 5, for a reconnection function that resets
the counter when it succeeds, never increases it, and sets the status to disconnected before it
restarts. -/
theorem loopCore_failures_le_five (reconnectFn : ReconnectEnv → Globals → Outcome)
    (hfn : ∀ e g, (reconnectFn e g).result = true →
      (reconnectFn e g).globals.consecutive_send_failures = 0)
    (hrs : ∀ e g, Event.restart ∈ (reconnectFn e g).trace →
      (reconnectFn e g).globals.lorawan_status = LoRaWANStatus.LORAWAN_DISCONNECTED)
    (hle : ∀ e g, (reconnectFn e g).globals.consecutive_send_failures ≤
      g.consecutive_send_failures)
    (lib : RadioLib) (isCritical : Int → Bool) (encode : Nat → List Nat) (interval : Nat)
    (env : LoopEnv) (g : Globals) (hg : g.consecutive_send_failures ≤ 5) :
    (loopCore reconnectFn lib isCritical encode interval env g).decided.consecutive_send_failures
      ≤ 5 ∧
    (loopCore reconnectFn lib isCritical encode interval env g).afterSend.consecutive_send_failures
      ≤ 5 ∧
    (loopCore reconnectFn lib isCritical encode interval env g).globals.consecutive_send_failures
      ≤ 5 := by
  have hd := loopReconnect_failures_le reconnectFn hle env g
  have hd5 : (loopReconnect reconnectFn env g).globals.consecutive_send_failures ≤ 5 :=
    le_trans hd hg
  by_cases hdr : (loopReconnect reconnectFn env g).restarted = true
  · rw [loopCore_of_restarted reconnectFn lib isCritical encode interval env g hdr]
    exact ⟨hd5, hd5, hd5⟩
  · have hdr' : (loopReconnect reconnectFn env g).restarted = false := by simpa using hdr
    rw [loopCore_of_not_restarted reconnectFn lib isCritical encode interval env g hdr']
    simp only
    refine ⟨hd5, ?_⟩
    by_cases hc : (loopReconnect reconnectFn env g).globals.lorawan_status =
        LoRaWANStatus.LORAWAN_CONNECTED
    · have h4 : (loopReconnect reconnectFn env g).globals.consecutive_send_failures < 5 :=
        (loopReconnect_connected reconnectFn hfn hrs env g hc).1
      have hmod : ((loopReconnect reconnectFn env g).globals.consecutive_send_failures + 1)
          % 256 = (loopReconnect reconnectFn env g).globals.consecutive_send_failures + 1 :=
        Nat.mod_eq_of_lt (by omega)
      have ht := loopTransmit_connected reconnectFn lib isCritical encode env
        (loopReconnect reconnectFn env g).globals hc
      by_cases hs : env.sendState = lib.RADIOLIB_ERR_NONE ∨
          env.sendState = lib.RADIOLIB_LORAWAN_NEW_SESSION
      · rw [ht.1 hs]
        exact ⟨by simp, by simp⟩
      · by_cases hk : isCritical env.sendState = true
        · rw [(ht.2 hs).1 hk]
          simp only [hmod]
          refine ⟨by omega, le_trans (hle _ _) ?_⟩
          simp only
          omega
        · rw [(ht.2 hs).2 hk]
          simp only [hmod]
          exact ⟨by omega, by omega⟩
    · rw [loopTransmit_not_connected reconnectFn lib isCritical encode env _ hc]
      exact ⟨hd5, hd5⟩

theorem runLoop_failures_le_five (lib : RadioLib) (interval : Nat) :
    ∀ (cycles : List (LoopEnv × SensorData)) (g : Globals),
      g.consecutive_send_failures ≤ 5 →
      (runLoop lib interval cycles g).consecutive_send_failures ≤ 5 := by
  intro cycles
  induction cycles with
  | nil => intro g hg; exact hg
  | cons c rest ih =>
    intro g hg
    obtain ⟨env, sensorData⟩ := c
    have h5 := (loopCore_failures_le_five (smartReconnect lib)
      (smartReconnect_true_failures lib) (fun e g h => (smartReconnect_restart lib e g h).2)
      (smartReconnect_failures_le lib) lib (isCriticalError lib)
      (encodeSensorData sensorData) interval env g hg).2.2
    rw [runLoop]
    split_ifs
    · exact h5
    · exact ih _ h5

theorem encodeSensorData_counter (data : SensorData) (c : Nat) :
    (encodeSensorData data c).getD 14 0 = c % 256 := by
  unfold encodeSensorData
  simp only [List.getD_cons_zero, List.getD_cons_succ]

/-- C27: failure-counter invariant.  In every state reached by iterating `loop()` from a state
with `consecutive_send_failures = 0`, whatever the session, send, reset and join outcomes of
the cycles, the counter is at most 5, also after the reconnection decision, after the
bookkeeping of a send and at the end of the next cycle.  A transmission occurs only when the
counter is at most 4; its packet is encoded with that count, so byte 14 is the count and is at
most 4, and the increment after a failed send does not wrap. -/
theorem loop_failure_counter_invariant (lib : RadioLib) (interval : Nat)
    (cycles : List (LoopEnv × SensorData)) (g0 : Globals)
    (h0 : g0.consecutive_send_failures = 0) (env : LoopEnv) (sensorData : SensorData) :
    (runLoop lib interval cycles g0).consecutive_send_failures ≤ 5 ∧
    (loop lib interval env sensorData
      (runLoop lib interval cycles g0)).decided.consecutive_send_failures ≤ 5 ∧
    (loop lib interval env sensorData
      (runLoop lib interval cycles g0)).afterSend.consecutive_send_failures ≤ 5 ∧
    (loop lib interval env sensorData
      (runLoop lib interval cycles g0)).globals.consecutive_send_failures ≤ 5 ∧
    ∀ p, LoopEvent.sendReceive p ∈
        (loop lib interval env sensorData (runLoop lib interval cycles g0)).trace →
      (loop lib interval env sensorData
        (runLoop lib interval cycles g0)).decided.consecutive_send_failures ≤ 4 ∧
      p = encodeSensorData sensorData (loop lib interval env sensorData
        (runLoop lib interval cycles g0)).decided.consecutive_send_failures ∧
      p.getD 14 0 = (loop lib interval env sensorData
        (runLoop lib interval cycles g0)).decided.consecutive_send_failures ∧
      p.getD 14 0 ≤ 4 ∧
      (loop lib interval env sensorData
        (runLoop lib interval cycles g0)).afterSend.consecutive_send_failures ≤
        (loop lib interval env sensorData
          (runLoop lib interval cycles g0)).decided.consecutive_send_failures + 1 := by
  have hg := runLoop_failures_le_five lib interval cycles g0 (by omega)
  generalize runLoop lib interval cycles g0 = g at hg ⊢
  have h5 := loopCore_failures_le_five (smartReconnect lib) (smartReconnect_true_failures lib)
    (fun e g h => (smartReconnect_restart lib e g h).2)
    (smartReconnect_failures_le lib) lib (isCriticalError lib)
    (encodeSensorData sensorData) interval env g hg
  refine ⟨hg, h5.1, h5.2.1, h5.2.2, ?_⟩
  intro p hp
  have hm := loopCore_send_mem (smartReconnect lib) lib (isCriticalError lib)
    (encodeSensorData sensorData) interval env g p hp
  have hdec := loopCore_decided (smartReconnect lib) lib (isCriticalError lib)
    (encodeSensorData sensorData) interval env g
  have hlt : (loop lib interval env sensorData g).decided.consecutive_send_failures < 5 := by
    have hc := hm.1
    rw [hdec] at hc
    have := (loopReconnect_connected (smartReconnect lib) (smartReconnect_true_failures lib)
      (fun e g h => (smartReconnect_restart lib e g h).2) env g hc).1
    show (loopCore (smartReconnect lib) lib (isCriticalError lib)
      (encodeSensorData sensorData) interval env g).decided.consecutive_send_failures < 5
    rw [hdec]
    exact this
  have hn := loopCore_normal_cycle (smartReconnect lib) (smartReconnect_true_failures lib)
    (fun e g h => (smartReconnect_restart lib e g h).2)
    lib (isCriticalError lib) (encodeSensorData sensorData) interval env g hm.1
  have hb : p.getD 14 0 =
      (loop lib interval env sensorData g).decided.consecutive_send_failures := by
    have hp2 : p = encodeSensorData sensorData
        (loop lib interval env sensorData g).decided.consecutive_send_failures := hm.2
    rw [hp2, encodeSensorData_counter]
    exact Nat.mod_eq_of_lt (by omega)
  refine ⟨by omega, hm.2, hb, by omega, ?_⟩
  by_cases hs : env.sendState = lib.RADIOLIB_ERR_NONE ∨
      env.sendState = lib.RADIOLIB_LORAWAN_NEW_SESSION
  · have := (hn.2.2.1 hs).1
    have e : (loop lib interval env sensorData g).afterSend.consecutive_send_failures = 0 := by
      show (loopCore (smartReconnect lib) lib (isCriticalError lib)
        (encodeSensorData sensorData) interval env g).afterSend.consecutive_send_failures = 0
      rw [this]
    omega
  · have := hn.2.2.2 hs
    have e : (loop lib interval env sensorData g).afterSend.consecutive_send_failures =
        (loop lib interval env sensorData g).decided.consecutive_send_failures + 1 := by
      show (loopCore (smartReconnect lib) lib (isCriticalError lib)
        (encodeSensorData sensorData) interval env g).afterSend.consecutive_send_failures = _
      rw [this]
      rfl
    omega

/-- Six cycles with an active session whose transmissions are all refused with status -1116:
the counter climbs to 5 and stays there (the sixth cycle sends nothing). -/
theorem loop_failure_counter_invariant_witness :
    (globalsAfterFailures 0 0).consecutive_send_failures = 0 ∧
    (runLoop sampleLib 60
      (List.replicate 6 (cycleEnv true (-1116), frameRoom))
      (globalsAfterFailures 0 0)).consecutive_send_failures = 5 ∧
    (runLoop sampleLib 60
      (List.replicate 6 (cycleEnv true (-1116), frameRoom))
      (globalsAfterFailures 0 0)).consecutive_send_failures ≤ 5 :=
  ⟨rfl, by decide!,
   (loop_failure_counter_invariant sampleLib 60
      (List.replicate 6 (cycleEnv true (-1116), frameRoom))
      (globalsAfterFailures 0 0) rfl (cycleEnv true 0) frameRoom).1⟩


/-! ## The status with which the firmware calls the reconnection -/

/-- At the end of a cycle of `loop()` (or at the restart that cuts it short) the status is
connected, send-failed or disconnected, whatever the state at its start. -/
theorem loop_status_after (lib : RadioLib) (interval : Nat) (env : LoopEnv)
    (sensorData : SensorData) (g : Globals) :
    (loop lib interval env sensorData g).globals.lorawan_status =
        LoRaWANStatus.LORAWAN_CONNECTED ∨
    (loop lib interval env sensorData g).globals.lorawan_status =
        LoRaWANStatus.LORAWAN_SEND_FAILED ∨
    (loop lib interval env sensorData g).globals.lorawan_status =
        LoRaWANStatus.LORAWAN_DISCONNECTED := by
  have hcases := loopReconnect_cases (smartReconnect lib) env g
  have hdec : (loopReconnect (smartReconnect lib) env g).globals.lorawan_status =
        LoRaWANStatus.LORAWAN_CONNECTED ∨
      (loopReconnect (smartReconnect lib) env g).globals.lorawan_status =
        LoRaWANStatus.LORAWAN_DISCONNECTED := by
    by_cases hc : env.activated = false ∨ g.consecutive_send_failures ≥ MAX_SEND_FAILURES
    · by_cases hr : Event.restart ∈ (smartReconnect lib env.reconnect g).trace
      · rw [(hcases.1 hc).1 hr]
        exact Or.inr (smartReconnect_restart lib env.reconnect g hr).2
      · rw [(hcases.1 hc).2 hr]
        by_cases hres : (smartReconnect lib env.reconnect g).result = true
        · simp [hres]
        · simp [hres]
    · rw [hcases.2 hc]
      exact Or.inl rfl
  unfold loop
  by_cases hdr : (loopReconnect (smartReconnect lib) env g).restarted = true
  · rw [loopCore_of_restarted _ _ _ _ _ _ _ hdr]
    rcases hdec with h | h
    · exact Or.inl h
    · exact Or.inr (Or.inr h)
  · have hdr' : (loopReconnect (smartReconnect lib) env g).restarted = false := by
      simpa using hdr
    rw [loopCore_of_not_restarted _ _ _ _ _ _ _ hdr']
    simp only
    by_cases hc : (loopReconnect (smartReconnect lib) env g).globals.lorawan_status =
        LoRaWANStatus.LORAWAN_CONNECTED
    · have ht := loopTransmit_connected (smartReconnect lib) lib (isCriticalError lib)
        (encodeSensorData sensorData) env (loopReconnect (smartReconnect lib) env g).globals hc
      by_cases hs : env.sendState = lib.RADIOLIB_ERR_NONE ∨
          env.sendState = lib.RADIOLIB_LORAWAN_NEW_SESSION
      · rw [ht.1 hs]
        exact Or.inl rfl
      · by_cases hk : isCriticalError lib env.sendState = true
        · rw [(ht.2 hs).1 hk]
          simp only
          have hp := smartReconnect_on_return lib env.reconnectAfterSend
            { (loopReconnect (smartReconnect lib) env g).globals with
              consecutive_send_failures :=
                ((loopReconnect (smartReconnect lib) env g).globals.consecutive_send_failures
                  + 1) % 256
              lorawan_status := LoRaWANStatus.LORAWAN_SEND_FAILED }
          by_cases hr : (smartReconnect lib env.reconnectAfterSend
              { (loopReconnect (smartReconnect lib) env g).globals with
                consecutive_send_failures :=
                  ((loopReconnect (smartReconnect lib) env g).globals.consecutive_send_failures
                    + 1) % 256
                lorawan_status := LoRaWANStatus.LORAWAN_SEND_FAILED }).result = true
          · exact Or.inl (hp.1 hr).1
          · have hr' := hp.2 (by simpa using hr)
            rcases hr'.2 with h | h
            · right; left
              rw [h]
            · exact Or.inr (Or.inr h)
        · rw [(ht.2 hs).2 hk]
          exact Or.inr (Or.inl rfl)
    · rw [loopTransmit_not_connected _ _ _ _ _ _ hc]
      rcases hdec with h | h
      · exact absurd h hc
      · exact Or.inr (Or.inr h)

/-- In a run of `loop()` from a state whose status is neither connecting nor rejoin-needed
(after `setup()` it is connected), no cycle starts with one of these two statuses: the calls
of `smartReconnect` at the start of a cycle are made from other statuses, and the call after a
failed send is made from the status send-failed. -/
theorem runLoop_status (lib : RadioLib) (interval : Nat) :
    ∀ (cycles : List (LoopEnv × SensorData)) (g : Globals),
      g.lorawan_status ≠ LoRaWANStatus.LORAWAN_CONNECTING →
      g.lorawan_status ≠ LoRaWANStatus.LORAWAN_REJOIN_NEEDED →
      (runLoop lib interval cycles g).lorawan_status ≠ LoRaWANStatus.LORAWAN_CONNECTING ∧
      (runLoop lib interval cycles g).lorawan_status ≠
        LoRaWANStatus.LORAWAN_REJOIN_NEEDED := by
  intro cycles
  induction cycles with
  | nil => intro g h1 h2; exact ⟨h1, h2⟩
  | cons c rest ih =>
    intro g _ _
    obtain ⟨env, sensorData⟩ := c
    have hs := loop_status_after lib interval env sensorData g
    have hne : (loop lib interval env sensorData g).globals.lorawan_status ≠
          LoRaWANStatus.LORAWAN_CONNECTING ∧
        (loop lib interval env sensorData g).globals.lorawan_status ≠
          LoRaWANStatus.LORAWAN_REJOIN_NEEDED := by
      rcases hs with h | h | h <;> rw [h] <;> exact ⟨by decide, by decide⟩
    rw [runLoop]
    split_ifs
    · exact hne
    · exact ih _ hne.1 hne.2

end LoRa
